import Mathlib

/-!
Verification of the poly-manifold library (Riemannian manifold geometry and
gradient-descent optimization) against its natural-language specification.

The embedding translates the Rust sources into Lean over the real numbers:

* `Vec<f64>` / `&[f64]` / `TangentVector` become `List ℝ` (the `TangentVector`
  newtype wrapper stores exactly one `DVector`, so it is flattened away);
* `f64` arithmetic is idealized as real arithmetic;
* `Result<T, ManifoldError>` becomes `Except MErr T` (the error messages
  carried by the Rust enum variants are elided: no claim depends on them);
* operations that can panic (the `assert_eq!` inside `SPD::vec_to_matrix`,
  out-of-bounds indexing) return `Option (Except MErr T)`, with `none`
  marking the panic/abort;
* the nalgebra collaborator (Cholesky, inverse, matrix products) is modelled
  from the spec's collaborator contract where its code is not in the repo.

Source files: poly-manifold-core/src/{error,manifold,tangent}.rs,
poly-manifold-spaces/src/{euclidean,sphere,spd}.rs,
poly-manifold-autodiff/src/{gradient,optimizer}.rs.
-/

open scoped Classical

/-- Embedding of `ManifoldError` (poly-manifold-core/src/error.rs).
String payloads are elided; numeric payloads are kept. -/
inductive MErr where
  | DimensionMismatch (expected got : ℕ)
  | PointNotOnManifold
  | InvalidTangentVector
  | NumericalError
  | ConvergenceError (iterations : ℕ)
  | InvalidParameter
  | LinearAlgebraError
  deriving DecidableEq, Repr

/-- Dot product of two scalar sequences, as computed by
`point.iter().zip(other.iter()).map(|(a,b)| a*b).sum()` (zip truncates to the
shorter list, exactly as Rust's `zip` does). -/
def dotList (a b : List ℝ) : ℝ := (List.zipWith (· * ·) a b).sum

/-- Sum of squares of a list, `v.iter().map(|x| x*x).sum()`. -/
def normSqList (v : List ℝ) : ℝ := dotList v v

/-- Euclidean `check_point` (euclidean.rs): only the length is verified. -/
def euclidCheckPoint (d : ℕ) (p : List ℝ) : Except MErr Unit :=
  if p.length ≠ d then .error (.DimensionMismatch d p.length) else .ok ()

/-- Euclidean `check_tangent_vector`: checks the point, then the tangent's
length. -/
def euclidCheckTangent (d : ℕ) (p t : List ℝ) : Except MErr Unit :=
  match euclidCheckPoint d p with
  | .error e => .error e
  | .ok _ =>
    if t.length ≠ d then .error (.DimensionMismatch d t.length) else .ok ()

/-- Euclidean `project_to_manifold`: returns the input unchanged, with no
validation of any kind. -/
def euclidProjM (p : List ℝ) : Except MErr (List ℝ) := .ok p

/-- Euclidean `project_to_tangent_space`: returns the vector unchanged; the
point argument is ignored and nothing is validated. -/
def euclidProjT (_p v : List ℝ) : Except MErr (List ℝ) := .ok v

/-- Euclidean `exp`: validates via `check_tangent_vector`, then adds
componentwise over indices `0..dimension`. -/
def euclidExp (d : ℕ) (p t : List ℝ) : Except MErr (List ℝ) :=
  match euclidCheckTangent d p t with
  | .error e => .error e
  | .ok _ => .ok ((List.range d).map fun i => p.getD i 0 + t.getD i 0)

/-- Euclidean `log`: validates both points, then subtracts componentwise. -/
def euclidLog (d : ℕ) (p q : List ℝ) : Except MErr (List ℝ) :=
  match euclidCheckPoint d p with
  | .error e => .error e
  | .ok _ =>
    match euclidCheckPoint d q with
    | .error e => .error e
    | .ok _ => .ok ((List.range d).map fun i => q.getD i 0 - p.getD i 0)

/-- Euclidean `inner_product`: `v1.components.dot(&v2.components)`.
nalgebra's `dot` asserts equal dimensions and panics otherwise (`none`). -/
def euclidInner (_p v1 v2 : List ℝ) : Option ℝ :=
  if v1.length = v2.length then some (dotList v1 v2) else none

/-- Sphere `check_point` (sphere.rs): ambient length must be `dimension + 1`
and the squared norm must be `1` within `1e-10`. -/
noncomputable def sphereCheckPoint (d : ℕ) (p : List ℝ) : Except MErr Unit :=
  if p.length ≠ d + 1 then .error (.DimensionMismatch (d + 1) p.length)
  else if |normSqList p - 1| > 1e-10 then .error .PointNotOnManifold
  else .ok ()

/-- Sphere `check_tangent_vector`: checks the point, the tangent's length,
then orthogonality of tangent and point within `1e-10`. -/
noncomputable def sphereCheckTangent (d : ℕ) (p t : List ℝ) : Except MErr Unit :=
  match sphereCheckPoint d p with
  | .error e => .error e
  | .ok _ =>
    if t.length ≠ d + 1 then .error (.DimensionMismatch (d + 1) t.length)
    else if |dotList p t| > 1e-10 then .error .InvalidTangentVector
    else .ok ()

/-- Sphere `project_to_manifold`: normalizes by the Euclidean norm, failing
with `NumericalError` on (near-)zero input. Performs no validation. -/
noncomputable def sphereProjM (p : List ℝ) : Except MErr (List ℝ) :=
  if Real.sqrt (normSqList p) < 1e-10 then .error .NumericalError
  else .ok (p.map fun x => x / Real.sqrt (normSqList p))

/-- Sphere `project_to_tangent_space`: validates the point, then subtracts the
component of the vector along the point. The vector's length is never checked:
the write loop `projected[i] -= dot * point[i]` for `i < dimension + 1` panics
(`none`) when the vector is shorter, and leaves trailing entries of a longer
vector untouched. -/
noncomputable def sphereProjT (d : ℕ) (p v : List ℝ) : Option (Except MErr (List ℝ)) :=
  match sphereCheckPoint d p with
  | .error e => some (.error e)
  | .ok _ =>
    if v.length < d + 1 then none
    else
      some (.ok ((List.range v.length).map fun i =>
        if i < d + 1 then v.getD i 0 - dotList p v * p.getD i 0 else v.getD i 0))

/-- Sphere `exp`: validates via `check_tangent_vector`; with `r = ‖tangent‖`,
returns the point unchanged when `r < 1e-10`, else the great-circle geodesic
`point[i]·cos r + tangent[i]·sin r / r`. -/
noncomputable def sphereExp (d : ℕ) (p t : List ℝ) : Except MErr (List ℝ) :=
  match sphereCheckTangent d p t with
  | .error e => .error e
  | .ok _ =>
    if Real.sqrt (normSqList t) < 1e-10 then .ok p
    else
      .ok ((List.range (d + 1)).map fun i =>
        p.getD i 0 * Real.cos (Real.sqrt (normSqList t)) +
          t.getD i 0 * Real.sin (Real.sqrt (normSqList t)) / Real.sqrt (normSqList t))

/-- Rust `x.clamp(lo, hi)` for `lo ≤ hi`. -/
noncomputable def clampR (lo hi x : ℝ) : ℝ := max lo (min x hi)

/-- The list of `n` zeros, `DVector::zeros(n)`. -/
def zerosList (n : ℕ) : List ℝ := List.replicate n 0

/-- Sphere `log`: validates both points; with `c = clamp(p·q, -1, 1)` and
`θ = acos c`, returns the zero tangent when `|θ| < 1e-10`, fails with
`NumericalError` when `|sin θ| < 1e-10` (antipodal), and otherwise returns
`(q[i] - p[i]·c)·θ / sin θ` componentwise. -/
noncomputable def sphereLog (d : ℕ) (p q : List ℝ) : Except MErr (List ℝ) :=
  match sphereCheckPoint d p with
  | .error e => .error e
  | .ok _ =>
    match sphereCheckPoint d q with
    | .error e => .error e
    | .ok _ =>
      if |Real.arccos (clampR (-1) 1 (dotList p q))| < 1e-10 then .ok (zerosList (d + 1))
      else if |Real.sin (Real.arccos (clampR (-1) 1 (dotList p q)))| < 1e-10 then
        .error .NumericalError
      else
        .ok ((List.range (d + 1)).map fun i =>
          (q.getD i 0 - p.getD i 0 * clampR (-1) 1 (dotList p q)) *
              Real.arccos (clampR (-1) 1 (dotList p q)) /
            Real.sin (Real.arccos (clampR (-1) 1 (dotList p q))))

/-- Sphere `inner_product`: ambient dot product; panics (`none`) on dimension
mismatch inside nalgebra's `dot`, with no validation of its own. -/
def sphereInner (_p v1 v2 : List ℝ) : Option ℝ :=
  if v1.length = v2.length then some (dotList v1 v2) else none

/-- Row-major reshape of a flattened `d × d` matrix
(`DMatrix::from_row_slice`), meaningful once the length precondition holds. -/
def matOfVec (d : ℕ) (v : List ℝ) : Matrix (Fin d) (Fin d) ℝ :=
  Matrix.of fun i j => v.getD ((i : ℕ) * d + (j : ℕ)) 0

/-- SPD `vec_to_matrix` (spd.rs): `assert_eq!(vec.len(), dimension²)` then a
row-major reshape (`DMatrix::from_row_slice`); `none` models the panic. -/
def vecToMatrixChecked (d : ℕ) (v : List ℝ) : Option (Matrix (Fin d) (Fin d) ℝ) :=
  if v.length = d * d then some (matOfVec d v) else none

/-- Row index of flat position `k` in column-major storage, `k % d`. -/
def fmod (d : ℕ) (k : Fin (d * d)) : Fin d :=
  ⟨(k : ℕ) % d, by
    have hk := k.isLt
    rcases Nat.eq_zero_or_pos d with h | h
    · subst h; simp at hk
    · exact Nat.mod_lt _ h⟩

/-- Column index of flat position `k` in column-major storage, `k / d`. -/
def fdiv (d : ℕ) (k : Fin (d * d)) : Fin d :=
  ⟨(k : ℕ) / d, by
    have hk := k.isLt
    rcases Nat.eq_zero_or_pos d with h | h
    · subst h; simp at hk
    · exact (Nat.div_lt_iff_lt_mul h).mpr hk⟩

/-- SPD `matrix_to_vec`: `mat.as_slice().to_vec()`. nalgebra stores matrices
in column-major order, so flat position `k` holds entry `(k % d, k / d)`. -/
def matrixToVec (d : ℕ) (M : Matrix (Fin d) (Fin d) ℝ) : List ℝ :=
  List.ofFn fun k : Fin (d * d) => M (fmod d k) (fdiv d k)

/-- Row-major flattening (flat position `k` holds entry `(k / d, k % d)`);
the natural reading of "the flattening" in the specification, and the inverse
convention of `vec_to_matrix`. -/
def rowFlatten (d : ℕ) (M : Matrix (Fin d) (Fin d) ℝ) : List ℝ :=
  List.ofFn fun k : Fin (d * d) => M (fdiv d k) (fmod d k)

/-- Symmetrization `(M + Mᵗ) * 0.5`. -/
def symmetrizeM (d : ℕ) (M : Matrix (Fin d) (Fin d) ℝ) : Matrix (Fin d) (Fin d) ℝ :=
  Matrix.of fun i j => (M i j + M j i) * 0.5

/-- Diagonal flooring: each diagonal entry is replaced by `max(entry, 1e-10)`
(SPD `project_to_manifold`, second step). -/
noncomputable def floorDiagM (d : ℕ) (M : Matrix (Fin d) (Fin d) ℝ) :
    Matrix (Fin d) (Fin d) ℝ :=
  Matrix.of fun i j => if i = j then max (M i j) 1e-10 else M i j

/-- SPD `is_symmetric`: `|M[i,j] - M[j,i]| ≤ 1e-10` for all `i < j`. -/
def isSymTol (d : ℕ) (M : Matrix (Fin d) (Fin d) ℝ) : Prop :=
  ∀ i j : Fin d, i < j → |M i j - M j i| ≤ 1e-10

/-- The matrix rebuilt from the lower triangle (entry `(i,j)` with `j > i` is
read from `(j,i)`): nalgebra's Cholesky reads only the lower triangle. -/
def lowerSym (d : ℕ) (M : Matrix (Fin d) (Fin d) ℝ) : Matrix (Fin d) (Fin d) ℝ :=
  Matrix.of fun i j => if (j : ℕ) ≤ (i : ℕ) then M i j else M j i

/-- Schur complement of the `(0,0)` entry, the recursion step of the Cholesky
factorization. -/
noncomputable def schurC (d : ℕ) (M : Matrix (Fin (d + 1)) (Fin (d + 1)) ℝ) :
    Matrix (Fin d) (Fin d) ℝ :=
  Matrix.of fun i j => M i.succ j.succ - M i.succ 0 * M j.succ 0 / M 0 0

/-- Modelled from the spec: success predicate of the nalgebra collaborator's
Cholesky factorization ("returns a lower-triangular factor or fails if not
positive-definite"), as the standard pivot recursion: every pivot produced by
successive Schur complements is strictly positive. -/
def cholOk : (d : ℕ) → Matrix (Fin d) (Fin d) ℝ → Prop
  | 0, _ => True
  | d + 1, M => 0 < M 0 0 ∧ cholOk d (schurC d M)

/-- Modelled from the spec: the lower-triangular Cholesky factor returned by
the nalgebra collaborator (meaningful when `cholOk` holds), by the standard
recursion: `L₀₀ = √M₀₀`, first column `M[i,0]/√M₀₀`, then the factor of the
Schur complement. -/
noncomputable def cholFactor : (d : ℕ) → Matrix (Fin d) (Fin d) ℝ →
    Matrix (Fin d) (Fin d) ℝ
  | 0, _ => Matrix.of fun i _ => i.elim0
  | d + 1, M =>
    Matrix.of fun i j =>
      Fin.cases (Fin.cases (Real.sqrt (M 0 0)) (fun _ => 0) j)
        (fun i' =>
          Fin.cases (M i'.succ 0 / Real.sqrt (M 0 0))
            (fun j' => cholFactor d (schurC d M) i' j') j)
        i

/-- Cholesky success on the matrix as nalgebra reads it (lower triangle). -/
def cholOkL (d : ℕ) (M : Matrix (Fin d) (Fin d) ℝ) : Prop :=
  cholOk d (lowerSym d M)

/-- The loop of `matrix_exponential` (spd.rs): `term ← term·W/k`,
`result ← result + term`, stopping early when every entry of the new term is
below `1e-12` in magnitude; at most `fuel` further iterations. -/
noncomputable def matexpGo (d : ℕ) (W : Matrix (Fin d) (Fin d) ℝ) :
    ℕ → ℕ → Matrix (Fin d) (Fin d) ℝ → Matrix (Fin d) (Fin d) ℝ →
    Matrix (Fin d) (Fin d) ℝ
  | 0, _, result, _ => result
  | fuel + 1, k, result, term =>
    if ∀ i j, |(term * W) i j / (k : ℝ)| < 1e-12 then
      result + Matrix.of fun i j => (term * W) i j / (k : ℝ)
    else
      matexpGo d W fuel (k + 1)
        (result + Matrix.of fun i j => (term * W) i j / (k : ℝ))
        (Matrix.of fun i j => (term * W) i j / (k : ℝ))

/-- SPD `matrix_exponential`: truncated power series `Σ W^k/k!`, `k = 1..19`
starting from the identity, with the early-stop check of the loop above. -/
noncomputable def matrixExponential (d : ℕ) (W : Matrix (Fin d) (Fin d) ℝ) :
    Matrix (Fin d) (Fin d) ℝ :=
  matexpGo d W 19 1 1 1

/-- The loop of `matrix_logarithm` (spd.rs): `result ← result + term·(±1/k)`,
`term ← term·A`, stopping early when every entry of the updated term is below
`1e-12` in magnitude. -/
noncomputable def matlogGo (d : ℕ) (A : Matrix (Fin d) (Fin d) ℝ) :
    ℕ → ℕ → Matrix (Fin d) (Fin d) ℝ → Matrix (Fin d) (Fin d) ℝ →
    Matrix (Fin d) (Fin d) ℝ
  | 0, _, result, _ => result
  | fuel + 1, k, result, term =>
    if ∀ i j, |(term * A) i j| < 1e-12 then
      result + Matrix.of fun i j => term i j * ((if k % 2 = 1 then (1 : ℝ) else -1) / (k : ℝ))
    else
      matlogGo d A fuel (k + 1)
        (result + Matrix.of fun i j =>
          term i j * ((if k % 2 = 1 then (1 : ℝ) else -1) / (k : ℝ)))
        (term * A)

/-- SPD `matrix_logarithm`: Mercator series `Σ (-1)^(k+1)/k · A^k` on
`A = W - I`, `k = 1..49`. (The Rust function returns `Result` but has no
error path, so the embedding returns the matrix directly.) -/
noncomputable def matrixLogarithm (d : ℕ) (W : Matrix (Fin d) (Fin d) ℝ) :
    Matrix (Fin d) (Fin d) ℝ :=
  matlogGo d (W - 1) 49 1 0 (W - 1)

/-- SPD `check_point`: length must be `dimension²`, the reshaped matrix must
be symmetric within `1e-10`, and its Cholesky factorization must succeed. -/
noncomputable def spdCheckPoint (d : ℕ) (p : List ℝ) : Except MErr Unit :=
  if p.length ≠ d * d then .error (.DimensionMismatch (d * d) p.length)
  else if ¬ isSymTol d (matOfVec d p) then .error .PointNotOnManifold
  else if ¬ cholOkL d (matOfVec d p) then .error .PointNotOnManifold
  else .ok ()

/-- SPD `check_tangent_vector`: checks the point, then the tangent's length
and symmetry. -/
noncomputable def spdCheckTangent (d : ℕ) (p t : List ℝ) : Except MErr Unit :=
  match spdCheckPoint d p with
  | .error e => .error e
  | .ok _ =>
    if t.length ≠ d * d then .error (.DimensionMismatch (d * d) t.length)
    else if ¬ isSymTol d (matOfVec d t) then .error .InvalidTangentVector
    else .ok ()

/-- SPD `project_to_manifold`: reshape (panicking on wrong length),
symmetrize `(M + Mᵗ)·0.5`, floor the diagonal at `1e-10`, and flatten.
No validation of any kind is performed. -/
noncomputable def spdProjM (d : ℕ) (v : List ℝ) : Option (Except MErr (List ℝ)) :=
  match vecToMatrixChecked d v with
  | none => none
  | some M => some (.ok (matrixToVec d (floorDiagM d (symmetrizeM d M))))

/-- SPD `project_to_tangent_space`: reshape the vector (panicking on wrong
length) and symmetrize; the point argument is ignored entirely. -/
def spdProjT (d : ℕ) (_p v : List ℝ) : Option (Except MErr (List ℝ)) :=
  match vecToMatrixChecked d v with
  | none => none
  | some M => some (.ok (matrixToVec d (symmetrizeM d M)))

/-- SPD `exp`: validates via `check_tangent_vector`; factors `P = L·Lᵗ`
(Cholesky, `LinearAlgebraError` on failure), inverts `L` (`LinearAlgebraError`
when singular, per the collaborator contract "inverse fails if singular"),
whitens the tangent `W = L⁻¹·V·L⁻ᵗ`, applies the truncated matrix
exponential, and un-whitens. -/
noncomputable def spdExp (d : ℕ) (p t : List ℝ) : Except MErr (List ℝ) :=
  match spdCheckTangent d p t with
  | .error e => .error e
  | .ok _ =>
    if cholOkL d (matOfVec d p) then
      let L := cholFactor d (lowerSym d (matOfVec d p))
      if L.det = 0 then .error .LinearAlgebraError
      else .ok (matrixToVec d (L * matrixExponential d (L⁻¹ * matOfVec d t * (L⁻¹).transpose) * L.transpose))
    else .error .LinearAlgebraError

/-- SPD `log`: validates both points; factors `P = L·Lᵗ`, whitens `Q`, applies
the truncated matrix logarithm, and un-whitens. -/
noncomputable def spdLog (d : ℕ) (p q : List ℝ) : Except MErr (List ℝ) :=
  match spdCheckPoint d p with
  | .error e => .error e
  | .ok _ =>
    match spdCheckPoint d q with
    | .error e => .error e
    | .ok _ =>
      if cholOkL d (matOfVec d p) then
        let L := cholFactor d (lowerSym d (matOfVec d p))
        if L.det = 0 then .error .LinearAlgebraError
        else .ok (matrixToVec d (L * matrixLogarithm d (L⁻¹ * matOfVec d q * (L⁻¹).transpose) * L.transpose))
      else .error .LinearAlgebraError

/-- SPD `inner_product`: `trace(P⁻¹·V1·P⁻¹·V2)`, with no validation — the
reshape of any of the three vectors panics (`none`) on wrong length, and a
singular point matrix yields `LinearAlgebraError` (inverse collaborator
contract); the reshape of `p` and the inversion happen before `v1`/`v2` are
reshaped, as in the source. -/
noncomputable def spdInner (d : ℕ) (p v1 v2 : List ℝ) : Option (Except MErr ℝ) :=
  match vecToMatrixChecked d p with
  | none => none
  | some P =>
    if P.det = 0 then some (.error .LinearAlgebraError)
    else
      match vecToMatrixChecked d v1 with
      | none => none
      | some V1 =>
        match vecToMatrixChecked d v2 with
        | none => none
        | some V2 => some (.ok (P⁻¹ * V1 * P⁻¹ * V2).trace)

/-- The `(x : ℝ)`-valued `1 × 1` matrix (bridge for evaluating the SPD series
at dimension 1). -/
def m1 (x : ℝ) : Matrix (Fin 1) (Fin 1) ℝ := Matrix.of fun _ _ => x

/-- Scalar mirror of `matexpGo` on `1 × 1` matrices. -/
noncomputable def sexpGo (w : ℝ) : ℕ → ℕ → ℝ → ℝ → ℝ
  | 0, _, r, _ => r
  | fuel + 1, k, r, t =>
    if |t * w / (k : ℝ)| < 1e-12 then r + t * w / (k : ℝ)
    else sexpGo w fuel (k + 1) (r + t * w / (k : ℝ)) (t * w / (k : ℝ))

/-- Scalar mirror of `matlogGo` on `1 × 1` matrices. -/
noncomputable def slogGo (a : ℝ) : ℕ → ℕ → ℝ → ℝ → ℝ
  | 0, _, r, _ => r
  | fuel + 1, k, r, t =>
    if |t * a| < 1e-12 then r + t * ((if k % 2 = 1 then (1 : ℝ) else -1) / (k : ℝ))
    else slogGo a fuel (k + 1) (r + t * ((if k % 2 = 1 then (1 : ℝ) else -1) / (k : ℝ)))
      (t * a)

/-- Embedding of the `GradientDescent` configuration struct (optimizer.rs). -/
structure GradientDescent where
  learning_rate : ℝ
  max_iterations : ℕ
  tolerance : ℝ

/-- `GradientDescent::new`: stores the three configuration values verbatim,
with no validation. -/
def GradientDescent.new (lr : ℝ) (mi : ℕ) (tol : ℝ) : GradientDescent :=
  ⟨lr, mi, tol⟩

/-- The slice of the `Manifold` trait consumed by the gradient and optimizer
code (`check_point`, `project_to_tangent_space`, `exp`); a value of this
record is an arbitrary conforming manifold. -/
structure ManifoldR where
  checkPoint : List ℝ → Except MErr Unit
  projectToTangentSpace : List ℝ → List ℝ → Except MErr (List ℝ)
  exp : List ℝ → List ℝ → Except MErr (List ℝ)

/-- The Euclidean manifold packaged as a `ManifoldR` (euclidean.rs). -/
def euclideanM (d : ℕ) : ManifoldR where
  checkPoint := euclidCheckPoint d
  projectToTangentSpace := euclidProjT
  exp := euclidExp d

/-- `numerical_gradient` (gradient.rs): validates the point; evaluates the
cost once at the point (`f0`) and once per ambient coordinate at the point
with that coordinate increased by `ε`; forms the forward-difference quotient
vector and projects it onto the tangent space at the point. -/
noncomputable def numericalGradient (m : ManifoldR) (p : List ℝ) (f : List ℝ → ℝ)
    (ε : ℝ) : Except MErr (List ℝ) :=
  match m.checkPoint p with
  | .error e => .error e
  | .ok _ =>
    m.projectToTangentSpace p
      ((List.range p.length).map fun i => (f (p.set i (p.getD i 0 + ε)) - f p) / ε)

/-- The `for _iter in 0..max_iterations` loop of `GradientDescent::minimize`
(optimizer.rs), with `fuel` the remaining iterations: compute the projected
numerical gradient with `ε = 1e-7`, scale by `-learning_rate`, move via the
manifold's `exp`, and break (returning the new point) once the cost decrease
falls below `tolerance`; when the fuel is exhausted the current point is
returned as a success. -/
noncomputable def minimizeLoop (gd : GradientDescent) (m : ManifoldR) (f : List ℝ → ℝ) :
    ℕ → List ℝ → ℝ → Except MErr (List ℝ)
  | 0, point, _ => .ok point
  | fuel + 1, point, prevCost =>
    match numericalGradient m point f 1e-7 with
    | .error e => .error e
    | .ok gradient =>
      match m.exp point (gradient.map fun x => x * -gd.learning_rate) with
      | .error e => .error e
      | .ok newPoint =>
        if |prevCost - f newPoint| < gd.tolerance then .ok newPoint
        else minimizeLoop gd m f fuel newPoint (f newPoint)

/-- `GradientDescent::minimize`: validates the initial point, evaluates the
initial cost, and runs the descent loop for at most `max_iterations`
iterations. -/
noncomputable def minimize (gd : GradientDescent) (m : ManifoldR) (initial : List ℝ)
    (f : List ℝ → ℝ) : Except MErr (List ℝ) :=
  match m.checkPoint initial with
  | .error e => .error e
  | .ok _ => minimizeLoop gd m f gd.max_iterations initial (f initial)

/-- Modelled from the spec's description of the optimizer (claim-side
definition, to be compared with `minimize`): the state machine "validate the
initial point, failing fast with the validation error; loop up to
max_iterations times: compute the projected numerical gradient, form the
descent direction as the gradient scaled by -learning_rate, move via exp,
stop as Converged when |previous_cost - new_cost| < tolerance; exhaustion of
the iteration budget returns the last point reached as a success; any error
from gradient computation or exp is propagated unchanged". -/
noncomputable def minimizeSpecLoop (gd : GradientDescent) (m : ManifoldR)
    (f : List ℝ → ℝ) : ℕ → List ℝ → ℝ → Except MErr (List ℝ)
  | 0, current, _ => .ok current
  | budget + 1, current, previousCost =>
    (numericalGradient m current f 1e-7).bind fun gradient =>
      (m.exp current (gradient.map fun x => x * -gd.learning_rate)).bind fun newPoint =>
        if |previousCost - f newPoint| < gd.tolerance then .ok newPoint
        else minimizeSpecLoop gd m f budget newPoint (f newPoint)

/-- Modelled from the spec: the optimizer contract as stated by the claim,
wrapping `minimizeSpecLoop` with the fail-fast validation of the initial
point. -/
noncomputable def minimizeSpec (gd : GradientDescent) (m : ManifoldR) (initial : List ℝ)
    (f : List ℝ → ℝ) : Except MErr (List ℝ) :=
  (m.checkPoint initial).bind fun _ =>
    minimizeSpecLoop gd m f gd.max_iterations initial (f initial)

/-- Predicate "this error is neither `InvalidParameter` nor
`ConvergenceError`" (the two reserved variants never raised by the
optimizer stack). -/
def notReserved : MErr → Prop
  | .InvalidParameter => False
  | .ConvergenceError _ => False
  | _ => True

/-! Helper lemmas about list dot products. -/

theorem dotList_cons (a b : ℝ) (l m : List ℝ) :
    dotList (a :: l) (b :: m) = a * b + dotList l m := by
  simp [dotList]

theorem dotList_self_nonneg (v : List ℝ) : 0 ≤ dotList v v := by
  induction v with
  | nil => simp [dotList]
  | cons a l ih => rw [dotList_cons]; nlinarith [mul_self_nonneg a]

theorem sum_map_add (l : List ℕ) (A B : ℕ → ℝ) :
    (l.map fun i => A i + B i).sum = (l.map A).sum + (l.map B).sum := by
  induction l with
  | nil => simp
  | cons a l ih => simp [ih]; ring

theorem sum_map_mul_left (c : ℝ) (l : List ℕ) (A : ℕ → ℝ) :
    (l.map fun i => c * A i).sum = c * (l.map A).sum := by
  induction l with
  | nil => simp
  | cons a l ih => simp [ih]; ring

theorem dotList_map_map (f g : ℕ → ℝ) (l : List ℕ) :
    dotList (l.map f) (l.map g) = (l.map fun i => f i * g i).sum := by
  induction l with
  | nil => simp [dotList]
  | cons a l ih => simp [dotList_cons, ih]

theorem self_eq_range_map (p : List ℝ) :
    (List.range p.length).map (fun i => p.getD i 0) = p := by
  apply List.ext_getElem
  · simp
  · intro i h1 h2
    simp [List.getD_eq_getElem?_getD, List.getElem?_eq_getElem h2]

theorem getD_range_map (F : ℕ → ℝ) (n j : ℕ) (h : j < n) :
    ((List.range n).map F).getD j 0 = F j := by
  rw [List.getD_eq_getElem?_getD]
  simp [List.getElem?_eq_getElem (by simpa using h : j < ((List.range n).map F).length), h]

theorem matrixToVec_one (M : Matrix (Fin 1) (Fin 1) ℝ) :
    matrixToVec 1 M = [M 0 0] := rfl

theorem matrixToVec_two (M : Matrix (Fin 2) (Fin 2) ℝ) :
    matrixToVec 2 M = [M 0 0, M 1 0, M 0 1, M 1 1] := rfl

/-! C1: validation-first discipline of the manifold operations. -/

/-- C1 counterexample. The claim "every manifold operation that receives a
point or tangent vector validates it first and errors on invalid input" is
false: `Euclidean::project_to_manifold` returns a wrong-length point
unchanged as a success even though `check_point` rejects it, and
`SPD::project_to_tangent_space` computes a result for a point that fails
`check_point` (it never looks at the point). -/
theorem c1_counterexample :
    euclidCheckPoint 1 [(1 : ℝ), 2] = .error (.DimensionMismatch 1 2) ∧
    euclidProjM [(1 : ℝ), 2] = .ok [(1 : ℝ), 2] ∧
    spdCheckPoint 2 [(1 : ℝ), 2, 3, 4] = .error .PointNotOnManifold ∧
    spdProjT 2 [(1 : ℝ), 2, 3, 4] [(1 : ℝ), 0, 0, 1] = some (.ok [(1 : ℝ), 0, 0, 1]) := by
  refine ⟨by simp [euclidCheckPoint], rfl, ?_, ?_⟩
  · have hsym : ¬ isSymTol 2 (matOfVec 2 [(1 : ℝ), 2, 3, 4]) := by
      intro h
      have h2 := h 0 1 (by decide)
      simp [matOfVec, List.getD] at h2
      norm_num at h2
    rw [spdCheckPoint, if_neg (by simp), if_pos hsym]
  · have hv : vecToMatrixChecked 2 [(1 : ℝ), 0, 0, 1] =
        some (matOfVec 2 [(1 : ℝ), 0, 0, 1]) := by
      rw [vecToMatrixChecked, if_pos (by simp)]
    simp only [spdProjT, hv, matrixToVec_two]
    norm_num [symmetrizeM, matOfVec, List.getD, Fin.val_zero, Fin.val_one]

/-- C1 amended. The operations that do validate (`exp` and `log` on all three
manifolds, and the sphere's `project_to_tangent_space`) propagate the
validation error before any geometric computation; the counterexample shows
that `project_to_manifold` (all manifolds), `SPD::project_to_tangent_space`
and the inner products perform no such validation. -/
theorem c1_theorem :
    (∀ d p t e, sphereCheckTangent d p t = .error e → sphereExp d p t = .error e) ∧
    (∀ d p q e, sphereCheckPoint d p = .error e → sphereLog d p q = .error e) ∧
    (∀ d p q e, sphereCheckPoint d p = .ok () → sphereCheckPoint d q = .error e →
      sphereLog d p q = .error e) ∧
    (∀ d p v e, sphereCheckPoint d p = .error e → sphereProjT d p v = some (.error e)) ∧
    (∀ d p t e, spdCheckTangent d p t = .error e → spdExp d p t = .error e) ∧
    (∀ d p q e, spdCheckPoint d p = .error e → spdLog d p q = .error e) ∧
    (∀ d p t e, euclidCheckTangent d p t = .error e → euclidExp d p t = .error e) ∧
    (∀ d p q e, euclidCheckPoint d p = .error e → euclidLog d p q = .error e) := by
  refine ⟨?_, ?_, ?_, ?_, ?_, ?_, ?_, ?_⟩ <;> intro d p x e
  · intro h; rw [sphereExp, h]
  · intro h; rw [sphereLog, h]
  · intro h h2; rw [sphereLog, h, h2]
  · intro h; rw [sphereProjT, h]
  · intro h; rw [spdExp, h]
  · intro h; rw [spdLog, h]
  · intro h; rw [euclidExp, h]
  · intro h; rw [euclidLog, h]

/-- C1 witness: the validating operations at concrete invalid inputs. -/
theorem c1_witness :
    sphereExp 1 [] [] = .error (.DimensionMismatch 2 0) ∧
    sphereLog 1 [] [(1 : ℝ), 0] = .error (.DimensionMismatch 2 0) ∧
    sphereLog 1 [(1 : ℝ), 0] [] = .error (.DimensionMismatch 2 0) ∧
    sphereProjT 1 [] [] = some (.error (.DimensionMismatch 2 0)) ∧
    spdExp 1 [] [] = .error (.DimensionMismatch 1 0) ∧
    spdLog 1 [] [] = .error (.DimensionMismatch 1 0) ∧
    euclidExp 1 [] [] = .error (.DimensionMismatch 1 0) ∧
    euclidLog 1 [] [] = .error (.DimensionMismatch 1 0) := by
  refine ⟨c1_theorem.1 1 [] [] _ ?_, c1_theorem.2.1 1 [] [(1 : ℝ), 0] _ ?_,
    c1_theorem.2.2.1 1 [(1 : ℝ), 0] [] _ ?_ ?_, c1_theorem.2.2.2.1 1 [] [] _ ?_,
    c1_theorem.2.2.2.2.1 1 [] [] _ ?_, c1_theorem.2.2.2.2.2.1 1 [] [] _ ?_,
    c1_theorem.2.2.2.2.2.2.1 1 [] [] _ ?_, c1_theorem.2.2.2.2.2.2.2 1 [] [] _ ?_⟩
  · rw [sphereCheckTangent, sphereCheckPoint, if_pos (by simp)]; rfl
  · rw [sphereCheckPoint, if_pos (by simp)]; rfl
  · norm_num [sphereCheckPoint, normSqList, dotList]
  · rw [sphereCheckPoint, if_pos (by simp)]; rfl
  · rw [sphereCheckPoint, if_pos (by simp)]; rfl
  · rw [spdCheckTangent, spdCheckPoint, if_pos (by simp)]; rfl
  · rw [spdCheckPoint, if_pos (by simp)]; rfl
  · rw [euclidCheckTangent, euclidCheckPoint, if_pos (by simp)]; rfl
  · rw [euclidCheckPoint, if_pos (by simp)]; rfl

/-! C2: totality versus the `vec_to_matrix` assertion. -/

/-- C2 counterexample. `SPD::project_to_manifold` applied to a flattened
vector whose length is not `dimension²` does not return an error: it panics
(the `assert_eq!` in `vec_to_matrix`), modelled here by `none`. -/
theorem c2_counterexample : spdProjM 2 [(1 : ℝ)] = none := by
  simp [spdProjM, vecToMatrixChecked]

/-- C2 amended. The operations that reshape or index raw vectors without a
length check abort (panic) rather than returning an error, and they are the
only aborting paths named by the claim: SPD `project_to_manifold` and
`project_to_tangent_space` abort iff the flattened vector's length is not
`dimension²` and return a success value whenever it is; SPD `inner_product`
aborts whenever the point's length is wrong, and — once the point reshapes to
an invertible matrix — whenever `v1` or `v2` has the wrong length; the
sphere's `project_to_tangent_space`, given a point passing `check_point`,
aborts exactly when the vector is shorter than `dimension + 1` and returns a
success value otherwise; and the Euclidean and sphere inner products abort
exactly when the two vectors' lengths differ. -/
theorem c2_theorem :
    (∀ d (v : List ℝ), spdProjM d v = none ↔ v.length ≠ d * d) ∧
    (∀ d (v : List ℝ), v.length = d * d → ∃ r, spdProjM d v = some (.ok r)) ∧
    (∀ d (p v : List ℝ), spdProjT d p v = none ↔ v.length ≠ d * d) ∧
    (∀ d (p v : List ℝ), v.length = d * d → ∃ r, spdProjT d p v = some (.ok r)) ∧
    (∀ d (p v1 v2 : List ℝ), p.length ≠ d * d → spdInner d p v1 v2 = none) ∧
    (∀ d (p v1 v2 : List ℝ), p.length = d * d → (matOfVec d p).det ≠ 0 →
      v1.length ≠ d * d → spdInner d p v1 v2 = none) ∧
    (∀ d (p v1 v2 : List ℝ), p.length = d * d → (matOfVec d p).det ≠ 0 →
      v1.length = d * d → v2.length ≠ d * d → spdInner d p v1 v2 = none) ∧
    (∀ d (p v : List ℝ), sphereCheckPoint d p = .ok () →
      (sphereProjT d p v = none ↔ v.length < d + 1)) ∧
    (∀ d (p v : List ℝ), sphereCheckPoint d p = .ok () → d + 1 ≤ v.length →
      ∃ r, sphereProjT d p v = some (.ok r)) ∧
    (∀ p v1 v2 : List ℝ, euclidInner p v1 v2 = none ↔ v1.length ≠ v2.length) ∧
    (∀ p v1 v2 : List ℝ, sphereInner p v1 v2 = none ↔ v1.length ≠ v2.length) := by
  refine ⟨?_, ?_, ?_, ?_, ?_, ?_, ?_, ?_, ?_, ?_, ?_⟩
  · intro d v
    by_cases h : v.length = d * d <;> simp [spdProjM, vecToMatrixChecked, h]
  · intro d v h
    exact ⟨matrixToVec d (floorDiagM d (symmetrizeM d (matOfVec d v))),
      by rw [spdProjM, vecToMatrixChecked, if_pos h]⟩
  · intro d p v
    by_cases h : v.length = d * d <;> simp [spdProjT, vecToMatrixChecked, h]
  · intro d p v h
    exact ⟨matrixToVec d (symmetrizeM d (matOfVec d v)),
      by rw [spdProjT, vecToMatrixChecked, if_pos h]⟩
  · intro d p v1 v2 h; simp [spdInner, vecToMatrixChecked, h]
  · intro d p v1 v2 hp hdet h1
    have hp2 : vecToMatrixChecked d p = some (matOfVec d p) := by
      rw [vecToMatrixChecked, if_pos hp]
    have h12 : vecToMatrixChecked d v1 = none := by
      rw [vecToMatrixChecked, if_neg h1]
    simp only [spdInner, hp2, h12, if_neg hdet]
  · intro d p v1 v2 hp hdet h1 h2
    have hp2 : vecToMatrixChecked d p = some (matOfVec d p) := by
      rw [vecToMatrixChecked, if_pos hp]
    have h12 : vecToMatrixChecked d v1 = some (matOfVec d v1) := by
      rw [vecToMatrixChecked, if_pos h1]
    have h22 : vecToMatrixChecked d v2 = none := by
      rw [vecToMatrixChecked, if_neg h2]
    simp only [spdInner, hp2, h12, h22, if_neg hdet]
  · intro d p v hp
    simp only [sphereProjT, hp]
    by_cases h : v.length < d + 1 <;> simp [h]
  · intro d p v hp h
    refine ⟨(List.range v.length).map fun i =>
      if i < d + 1 then v.getD i 0 - dotList p v * p.getD i 0 else v.getD i 0, ?_⟩
    simp only [sphereProjT, hp]
    rw [if_neg (not_lt.2 h)]
  · intro p v1 v2
    by_cases h : v1.length = v2.length <;> simp [euclidInner, h]
  · intro p v1 v2
    by_cases h : v1.length = v2.length <;> simp [sphereInner, h]

/-- C2 witness: the hypothesis-bearing clauses at concrete inputs — the total
SPD projections, the panicking SPD inner products, and the sphere
tangent-space projection in both its panicking and total cases. -/
theorem c2_witness :
    (∃ r, spdProjM 2 [(1 : ℝ), 2, 3, 4] = some (.ok r)) ∧
    (∃ r, spdProjT 2 [] [(1 : ℝ), 2, 3, 4] = some (.ok r)) ∧
    spdInner 2 [(1 : ℝ)] [] [] = none ∧
    spdInner 1 [(1 : ℝ)] [] [(0 : ℝ)] = none ∧
    spdInner 1 [(1 : ℝ)] [(5 : ℝ)] [] = none ∧
    sphereProjT 1 [(1 : ℝ), 0] [] = none ∧
    (∃ r, sphereProjT 1 [(1 : ℝ), 0] [(0 : ℝ), 0] = some (.ok r)) := by
  have hdet : (matOfVec 1 [(1 : ℝ)]).det ≠ 0 := by
    rw [Matrix.det_fin_one]
    simp [matOfVec, List.getD]
  have hcp : sphereCheckPoint 1 [(1 : ℝ), 0] = .ok () := by
    norm_num [sphereCheckPoint, normSqList, dotList]
  exact ⟨c2_theorem.2.1 2 [(1 : ℝ), 2, 3, 4] (by simp),
    c2_theorem.2.2.2.1 2 [] [(1 : ℝ), 2, 3, 4] (by simp),
    c2_theorem.2.2.2.2.1 2 [(1 : ℝ)] [] [] (by simp),
    c2_theorem.2.2.2.2.2.1 1 [(1 : ℝ)] [] [(0 : ℝ)] (by simp) hdet (by simp),
    c2_theorem.2.2.2.2.2.2.1 1 [(1 : ℝ)] [(5 : ℝ)] [] (by simp) hdet (by simp) (by simp),
    (c2_theorem.2.2.2.2.2.2.2.1 1 [(1 : ℝ), 0] [] hcp).mpr (by simp),
    c2_theorem.2.2.2.2.2.2.2.2.1 1 [(1 : ℝ), 0] [(0 : ℝ), 0] hcp (by simp)⟩

/-! C3: the gradient-descent state machine. -/

theorem minimizeLoop_eq_specLoop (gd : GradientDescent) (m : ManifoldR)
    (f : List ℝ → ℝ) :
    ∀ (n : ℕ) (point : List ℝ) (prevCost : ℝ),
      minimizeLoop gd m f n point prevCost = minimizeSpecLoop gd m f n point prevCost := by
  intro n
  induction n with
  | zero => intro point pc; rfl
  | succ n ih =>
    intro point pc
    rw [minimizeLoop, minimizeSpecLoop]
    cases hg : numericalGradient m point f 1e-7 with
    | error e => rfl
    | ok gradient =>
      simp only [Except.bind]
      cases he : m.exp point (gradient.map fun x => x * -gd.learning_rate) with
      | error e => rfl
      | ok newPoint =>
        dsimp only
        by_cases hc : |pc - f newPoint| < gd.tolerance
        · rw [if_pos hc, if_pos hc]
        · rw [if_neg hc, if_neg hc, ih]

/-- C3. `GradientDescent::minimize` coincides with the behaviour stated by the
specification (`minimizeSpec`): validate the initial point failing fast with
the validation error, iterate at most `max_iterations` times, each iteration
moving via `exp(current, gradient * (-learning_rate))` and stopping as
converged when `|previous_cost - new_cost| < tolerance`, returning `Ok` with
the last point on exhaustion and propagating any gradient/exp error
unchanged. -/
theorem c3_theorem :
    ∀ (gd : GradientDescent) (m : ManifoldR) (p0 : List ℝ) (f : List ℝ → ℝ),
      minimize gd m p0 f = minimizeSpec gd m p0 f := by
  intro gd m p0 f
  rw [minimize, minimizeSpec]
  cases h : m.checkPoint p0 with
  | error e => rfl
  | ok u => simp only [Except.bind]; exact minimizeLoop_eq_specLoop gd m f _ _ _

/-! C10: the optimizer configuration is unvalidated and the reserved error
variants are never produced. -/

theorem numericalGradient_error_notReserved (m : ManifoldR)
    (h1 : ∀ p e, m.checkPoint p = .error e → notReserved e)
    (h2 : ∀ p v e, m.projectToTangentSpace p v = .error e → notReserved e) :
    ∀ p f ε e, numericalGradient m p f ε = .error e → notReserved e := by
  intro p f ε e h
  rw [numericalGradient] at h
  cases hc : m.checkPoint p with
  | error e0 => simp only [hc] at h; cases h; exact h1 p _ hc
  | ok u => simp only [hc] at h; exact h2 _ _ _ h

theorem minimizeLoop_error_notReserved (gd : GradientDescent) (m : ManifoldR)
    (f : List ℝ → ℝ)
    (h1 : ∀ p e, m.checkPoint p = .error e → notReserved e)
    (h2 : ∀ p v e, m.projectToTangentSpace p v = .error e → notReserved e)
    (h3 : ∀ p v e, m.exp p v = .error e → notReserved e) :
    ∀ n point pc e, minimizeLoop gd m f n point pc = .error e → notReserved e := by
  intro n
  induction n with
  | zero => intro point pc e h; cases h
  | succ n ih =>
    intro point pc e h
    rw [minimizeLoop] at h
    cases hg : numericalGradient m point f 1e-7 with
    | error e0 =>
      simp only [hg] at h; cases h
      exact numericalGradient_error_notReserved m h1 h2 _ _ _ _ hg
    | ok gradient =>
      simp only [hg] at h
      cases he : m.exp point (gradient.map fun x => x * -gd.learning_rate) with
      | error e0 => simp only [he] at h; cases h; exact h3 _ _ _ he
      | ok newPoint =>
        simp only [he] at h
        by_cases hc : |pc - f newPoint| < gd.tolerance
        · rw [if_pos hc] at h; cases h
        · rw [if_neg hc] at h; exact ih _ _ _ h

/-- C10. `GradientDescent::new` stores any configuration values verbatim
(zero and negative included, no validation and no `InvalidParameter`);
`minimize` with `max_iterations = 0` returns the initial point unchanged
whenever it passes `check_point`; and `minimize` never returns
`InvalidParameter` or `ConvergenceError` as long as the manifold's own
operations do not. -/
theorem c10_theorem :
    (∀ (lr : ℝ) (mi : ℕ) (tol : ℝ),
      GradientDescent.new lr mi tol =
        { learning_rate := lr, max_iterations := mi, tolerance := tol }) ∧
    (∀ (m : ManifoldR) (p0 : List ℝ) (f : List ℝ → ℝ) (lr tol : ℝ),
      m.checkPoint p0 = .ok () →
      minimize { learning_rate := lr, max_iterations := 0, tolerance := tol } m p0 f
        = .ok p0) ∧
    (∀ (m : ManifoldR) (gd : GradientDescent) (p0 : List ℝ) (f : List ℝ → ℝ),
      (∀ p e, m.checkPoint p = .error e → notReserved e) →
      (∀ p v e, m.projectToTangentSpace p v = .error e → notReserved e) →
      (∀ p v e, m.exp p v = .error e → notReserved e) →
      ∀ e, minimize gd m p0 f = .error e → notReserved e) := by
  refine ⟨fun _ _ _ => rfl, ?_, ?_⟩
  · intro m p0 f lr tol h
    rw [minimize, h]; rfl
  · intro m gd p0 f h1 h2 h3 e h
    rw [minimize] at h
    cases hc : m.checkPoint p0 with
    | error e0 => simp only [hc] at h; cases h; exact h1 _ _ hc
    | ok u => simp only [hc] at h; exact minimizeLoop_error_notReserved gd m f h1 h2 h3 _ _ _ _ h

/-- C10 witness: negative configuration values accepted, a zero-iteration
run on the Euclidean manifold, and the reserved-variant guarantee
instantiated at the Euclidean manifold. -/
theorem c10_witness :
    GradientDescent.new (-1) 0 (-1) =
      { learning_rate := (-1 : ℝ), max_iterations := 0, tolerance := (-1 : ℝ) } ∧
    minimize { learning_rate := (-1 : ℝ), max_iterations := 0, tolerance := (-1 : ℝ) }
      (euclideanM 1) [(0 : ℝ)] (fun _ => 0) = .ok [(0 : ℝ)] ∧
    ∀ e, minimize { learning_rate := (1 : ℝ), max_iterations := 2, tolerance := (1 : ℝ) }
      (euclideanM 1) [(0 : ℝ)] (fun _ => 0) = .error e → notReserved e := by
  have hcp : ∀ (p : List ℝ) e, (euclideanM 1).checkPoint p = .error e → notReserved e := by
    intro p e h
    rw [show (euclideanM 1).checkPoint p = euclidCheckPoint 1 p from rfl,
      euclidCheckPoint] at h
    by_cases hl : p.length ≠ 1
    · rw [if_pos hl] at h; cases h; trivial
    · rw [if_neg hl] at h; cases h
  have hpt : ∀ (p v : List ℝ) e,
      (euclideanM 1).projectToTangentSpace p v = .error e → notReserved e := by
    intro p v e h; cases h
  have hex : ∀ (p v : List ℝ) e, (euclideanM 1).exp p v = .error e → notReserved e := by
    intro p v e h
    rw [show (euclideanM 1).exp p v = euclidExp 1 p v from rfl, euclidExp] at h
    cases hct : euclidCheckTangent 1 p v with
    | error e0 =>
      simp only [hct] at h; cases h
      rw [euclidCheckTangent] at hct
      cases hcp2 : euclidCheckPoint 1 p with
      | error e1 => simp only [hcp2] at hct; cases hct; exact hcp p _ hcp2
      | ok u =>
        simp only [hcp2] at hct
        by_cases hl : v.length ≠ 1
        · rw [if_pos hl] at hct; cases hct; trivial
        · rw [if_neg hl] at hct; cases hct
    | ok u => simp only [hct] at h; cases h
  refine ⟨c10_theorem.1 (-1) 0 (-1), c10_theorem.2.1 (euclideanM 1) [(0 : ℝ)] _ (-1) (-1) ?_,
    fun e h => c10_theorem.2.2 (euclideanM 1)
      { learning_rate := (1 : ℝ), max_iterations := 2, tolerance := (1 : ℝ) }
      [(0 : ℝ)] (fun _ => 0) hcp hpt hex e h⟩
  rw [show (euclideanM 1).checkPoint [(0 : ℝ)] = euclidCheckPoint 1 [(0 : ℝ)] from rfl,
    euclidCheckPoint, if_neg (by simp)]

/-! C8: SPD projection onto the manifold. -/

/-- C8. For every input of length `dimension²`, `SPD::project_to_manifold`
returns the flattening of the reshaped matrix symmetrized as `(M + Mᵗ)·0.5`
with each diagonal entry floored at `1e-10`; that matrix is symmetric, so its
column-major flattening (`as_slice`) coincides with the row-major
flattening. -/
theorem c8_theorem :
    ∀ (d : ℕ) (v : List ℝ), v.length = d * d →
      spdProjM d v =
          some (.ok (matrixToVec d (floorDiagM d (symmetrizeM d (matOfVec d v))))) ∧
        (∀ i j, floorDiagM d (symmetrizeM d (matOfVec d v)) i j =
          floorDiagM d (symmetrizeM d (matOfVec d v)) j i) ∧
        matrixToVec d (floorDiagM d (symmetrizeM d (matOfVec d v))) =
          rowFlatten d (floorDiagM d (symmetrizeM d (matOfVec d v))) := by
  intro d v h
  have hsym : ∀ i j, floorDiagM d (symmetrizeM d (matOfVec d v)) i j =
      floorDiagM d (symmetrizeM d (matOfVec d v)) j i := by
    intro i j
    by_cases hij : i = j
    · subst hij; rfl
    · have hji : ¬ j = i := fun hh => hij hh.symm
      simp only [floorDiagM, symmetrizeM, Matrix.of_apply, if_neg hij, if_neg hji]
      ring
  refine ⟨by rw [spdProjM, vecToMatrixChecked, if_pos h], hsym, ?_⟩
  rw [matrixToVec, rowFlatten]
  exact congrArg List.ofFn (funext fun k => hsym (fmod d k) (fdiv d k))

/-- C8 witness at a concrete input of length `1²`. -/
theorem c8_witness :
    spdProjM 1 [(5 : ℝ)] =
        some (.ok (matrixToVec 1 (floorDiagM 1 (symmetrizeM 1 (matOfVec 1 [(5 : ℝ)]))))) ∧
      (∀ i j, floorDiagM 1 (symmetrizeM 1 (matOfVec 1 [(5 : ℝ)])) i j =
        floorDiagM 1 (symmetrizeM 1 (matOfVec 1 [(5 : ℝ)])) j i) ∧
      matrixToVec 1 (floorDiagM 1 (symmetrizeM 1 (matOfVec 1 [(5 : ℝ)]))) =
        rowFlatten 1 (floorDiagM 1 (symmetrizeM 1 (matOfVec 1 [(5 : ℝ)]))) :=
  c8_theorem 1 [(5 : ℝ)] (by simp)

/-! C5: the sphere exponential map formula. -/

/-- C5. For every point passing `check_point` and tangent passing
`check_tangent_vector`, the sphere `exp` returns the point unchanged when
`‖v‖ < 1e-10` and otherwise the vector with components
`p[i]·cos r + (v[i]/r)·sin r`, `r = ‖v‖`. -/
theorem c5_theorem :
    ∀ (d : ℕ) (p t : List ℝ),
      sphereCheckPoint d p = .ok () → sphereCheckTangent d p t = .ok () →
      sphereExp d p t =
        .ok (if Real.sqrt (normSqList t) < 1e-10 then p
          else (List.range (d + 1)).map fun i =>
            p.getD i 0 * Real.cos (Real.sqrt (normSqList t)) +
              t.getD i 0 / Real.sqrt (normSqList t) *
                Real.sin (Real.sqrt (normSqList t))) := by
  intro d p t _hp ht
  rw [sphereExp, ht]
  by_cases hr : Real.sqrt (normSqList t) < 1e-10
  · rw [if_pos hr, if_pos hr]
  · rw [if_neg hr, if_neg hr]
    refine congrArg Except.ok (List.map_congr_left fun i _ => ?_)
    ring

/-- C5 witness: the zero-tangent case at the north pole of the circle. -/
theorem c5_witness : sphereExp 1 [(1 : ℝ), 0] [(0 : ℝ), 0] = .ok [(1 : ℝ), 0] := by
  rw [c5_theorem 1 [(1 : ℝ), 0] [(0 : ℝ), 0]
      (by norm_num [sphereCheckPoint, normSqList, dotList])
      (by norm_num [sphereCheckTangent, sphereCheckPoint, normSqList, dotList]),
    if_pos (by norm_num [normSqList, dotList])]

/-! C9: the numerical gradient. -/

/-- C9. `numerical_gradient` validates the point and then equals the
projection onto the tangent space of the ambient vector of forward-difference
quotients `(f(point + ε·eᵢ) - f(point)) / ε`; on the 2-dimensional Euclidean
manifold with `f(x, y) = x² + y²` at `[1, 2]` and `ε = 1e-7` the result is
within `1e-5` of `[2, 4]`. -/
theorem c9_theorem :
    (∀ (m : ManifoldR) (p : List ℝ) (f : List ℝ → ℝ) (ε : ℝ), 0 < ε →
      m.checkPoint p = .ok () →
      numericalGradient m p f ε =
        m.projectToTangentSpace p
          ((List.range p.length).map fun i => (f (p.set i (p.getD i 0 + ε)) - f p) / ε)) ∧
    (∃ g, numericalGradient (euclideanM 2) [(1 : ℝ), 2]
          (fun l => l.getD 0 0 ^ 2 + l.getD 1 0 ^ 2) 1e-7 = .ok g ∧
      g.length = 2 ∧ |g.getD 0 0 - 2| ≤ 1e-5 ∧ |g.getD 1 0 - 4| ≤ 1e-5) := by
  constructor
  · intro m p f ε _hε h
    rw [numericalGradient, h]
  · refine ⟨[(2 : ℝ) + 1e-7, 4 + 1e-7], ?_, by simp, by rw [abs_le]; norm_num,
      by rw [abs_le]; norm_num⟩
    rw [show numericalGradient (euclideanM 2) [(1 : ℝ), 2]
        (fun l => l.getD 0 0 ^ 2 + l.getD 1 0 ^ 2) 1e-7 =
        euclidProjT [(1 : ℝ), 2] ((List.range 2).map fun i =>
          (((([(1 : ℝ), 2].set i ([(1 : ℝ), 2].getD i 0 + 1e-7)).getD 0 0) ^ 2 +
              (([(1 : ℝ), 2].set i ([(1 : ℝ), 2].getD i 0 + 1e-7)).getD 1 0) ^ 2) -
            ((1 : ℝ) ^ 2 + 2 ^ 2)) / 1e-7) from by
      rw [numericalGradient]
      norm_num [euclideanM, euclidCheckPoint, List.getD]]
    rw [euclidProjT]
    norm_num [List.range_succ, List.getD]

/-- C9 witness: the generic clause instantiated on the 1-dimensional
Euclidean manifold with the zero cost function. -/
theorem c9_witness :
    numericalGradient (euclideanM 1) [(0 : ℝ)] (fun _ => 0) 1 = .ok [(0 : ℝ)] := by
  rw [c9_theorem.1 (euclideanM 1) [(0 : ℝ)] (fun _ => 0) 1 (by norm_num)
      (by rw [show (euclideanM 1).checkPoint [(0 : ℝ)] = euclidCheckPoint 1 [(0 : ℝ)]
          from rfl, euclidCheckPoint, if_neg (by simp)])]
  rw [show (euclideanM 1).projectToTangentSpace = euclidProjT from rfl, euclidProjT]
  norm_num [List.range_succ]

/-! C6: the sphere logarithm map. -/

/-- C6 counterexample. The claim "log returns the zero tangent vector exactly
when θ < 1e-10" is false: for `p = [1, 0]` and `q = [cos 1e-7, 0]` (both
passing `check_point`), the general-formula branch runs with
`θ = 1e-7 ≥ 1e-10` and still returns the zero tangent vector, because
`q = cos θ · p` makes every component `q[i] - p[i]·c` vanish. -/
theorem c6_counterexample :
    sphereCheckPoint 1 [(1 : ℝ), 0] = .ok () ∧
    sphereCheckPoint 1 [Real.cos 1e-7, 0] = .ok () ∧
    sphereLog 1 [(1 : ℝ), 0] [Real.cos 1e-7, 0] = .ok (zerosList 2) ∧
    1e-10 ≤ |Real.arccos (clampR (-1) 1 (dotList [(1 : ℝ), 0] [Real.cos 1e-7, 0]))| := by
  have hd : dotList [(1 : ℝ), 0] [Real.cos 1e-7, 0] = Real.cos 1e-7 := by
    simp [dotList]
  have hclamp : clampR (-1) 1 (dotList [(1 : ℝ), 0] [Real.cos 1e-7, 0]) = Real.cos 1e-7 := by
    rw [hd, clampR, min_eq_left (Real.cos_le_one _), max_eq_right (Real.neg_one_le_cos _)]
  have harc : Real.arccos (Real.cos 1e-7) = 1e-7 :=
    Real.arccos_cos (by norm_num) (le_trans (by norm_num) Real.pi_gt_three.le)
  have hsinpos : (0 : ℝ) < Real.sin 1e-7 :=
    Real.sin_pos_of_pos_of_lt_pi (by norm_num) (lt_of_lt_of_le (by norm_num) Real.pi_gt_three.le)
  have hsinlt : Real.sin (1e-7 : ℝ) < 1e-7 := Real.sin_lt (by norm_num)
  have hsingt : (1e-10 : ℝ) ≤ Real.sin 1e-7 := by
    have h1 := Real.sin_gt_sub_cube (show (0 : ℝ) < 1e-7 by norm_num)
      (show (1e-7 : ℝ) ≤ 1 by norm_num)
    have h2 : (1e-10 : ℝ) ≤ 1e-7 - (1e-7 : ℝ) ^ 3 / 4 := by norm_num
    linarith
  have hcp1 : sphereCheckPoint 1 [(1 : ℝ), 0] = .ok () := by
    norm_num [sphereCheckPoint, normSqList, dotList]
  have hq2 : |Real.cos (1e-7 : ℝ) ^ 2 - 1| ≤ 1e-10 := by
    have hid := Real.sin_sq_add_cos_sq (1e-7 : ℝ)
    rw [abs_le]
    constructor <;> nlinarith [hsinlt, hsinpos.le]
  have hnormq : normSqList [Real.cos (1e-7 : ℝ), 0] = Real.cos 1e-7 ^ 2 := by
    simp [normSqList, dotList]; ring
  have hcpq : sphereCheckPoint 1 [Real.cos (1e-7 : ℝ), 0] = .ok () := by
    rw [sphereCheckPoint, if_neg (by simp), if_neg (by rw [hnormq]; exact not_lt.2 hq2)]
  refine ⟨hcp1, hcpq, ?_, ?_⟩
  · simp only [sphereLog, hcp1, hcpq, hclamp, harc]
    rw [if_neg (by rw [abs_of_nonneg (by norm_num)]; norm_num),
      if_neg (by rw [abs_of_nonneg hsinpos.le]; exact not_lt.2 hsingt)]
    refine congrArg Except.ok ?_
    norm_num [List.range_succ, zerosList, List.getD, List.replicate]
  · rw [hclamp, harc, abs_of_nonneg (by norm_num)]; norm_num

/-- C6 amended. For points passing `check_point`: log returns the zero
tangent vector if `θ < 1e-10` (but may also return it from the general
formula, see the counterexample); it fails with `NumericalError` exactly when
`θ ≥ 1e-10` and `sin θ < 1e-10`; otherwise it returns
`(q[i] - p[i]·c)·θ / sin θ` componentwise. -/
theorem c6_theorem :
    ∀ (d : ℕ) (p q : List ℝ),
      sphereCheckPoint d p = .ok () → sphereCheckPoint d q = .ok () →
      (|Real.arccos (clampR (-1) 1 (dotList p q))| < 1e-10 →
        sphereLog d p q = .ok (zerosList (d + 1))) ∧
      (sphereLog d p q = .error .NumericalError ↔
        1e-10 ≤ |Real.arccos (clampR (-1) 1 (dotList p q))| ∧
          |Real.sin (Real.arccos (clampR (-1) 1 (dotList p q)))| < 1e-10) ∧
      (1e-10 ≤ |Real.arccos (clampR (-1) 1 (dotList p q))| →
        1e-10 ≤ |Real.sin (Real.arccos (clampR (-1) 1 (dotList p q)))| →
        sphereLog d p q =
          .ok ((List.range (d + 1)).map fun i =>
            (q.getD i 0 - p.getD i 0 * clampR (-1) 1 (dotList p q)) *
                Real.arccos (clampR (-1) 1 (dotList p q)) /
              Real.sin (Real.arccos (clampR (-1) 1 (dotList p q))))) := by
  intro d p q hp hq
  simp only [sphereLog, hp, hq]
  refine ⟨fun h1 => by rw [if_pos h1], ⟨?_, ?_⟩, fun ha hb => by
    rw [if_neg (not_lt.2 ha), if_neg (not_lt.2 hb)]⟩
  · intro h
    by_cases h1 : |Real.arccos (clampR (-1) 1 (dotList p q))| < 1e-10
    · rw [if_pos h1] at h; cases h
    · rw [if_neg h1] at h
      by_cases h2 : |Real.sin (Real.arccos (clampR (-1) 1 (dotList p q)))| < 1e-10
      · exact ⟨not_lt.1 h1, h2⟩
      · rw [if_neg h2] at h; cases h
  · rintro ⟨ha, hb⟩
    rw [if_neg (not_lt.2 ha), if_pos hb]

/-- C6 witness: the general-formula branch at `p = [1,0]`, `q = [0,1]`
(quarter turn, `θ = π/2`). -/
theorem c6_witness :
    sphereLog 1 [(1 : ℝ), 0] [(0 : ℝ), 1] =
      .ok ((List.range 2).map fun i =>
        ([(0 : ℝ), 1].getD i 0 -
            [(1 : ℝ), 0].getD i 0 * clampR (-1) 1 (dotList [(1 : ℝ), 0] [(0 : ℝ), 1])) *
            Real.arccos (clampR (-1) 1 (dotList [(1 : ℝ), 0] [(0 : ℝ), 1])) /
          Real.sin (Real.arccos (clampR (-1) 1 (dotList [(1 : ℝ), 0] [(0 : ℝ), 1]))) ) := by
  have hd : dotList [(1 : ℝ), 0] [(0 : ℝ), 1] = 0 := by simp [dotList]
  have hclamp : clampR (-1) 1 (dotList [(1 : ℝ), 0] [(0 : ℝ), 1]) = 0 := by
    rw [hd, clampR, min_eq_left (by norm_num), max_eq_right (by norm_num)]
  have harc : Real.arccos (clampR (-1) 1 (dotList [(1 : ℝ), 0] [(0 : ℝ), 1])) = Real.pi / 2 := by
    rw [hclamp, Real.arccos_zero]
  refine (c6_theorem 1 [(1 : ℝ), 0] [(0 : ℝ), 1]
      (by norm_num [sphereCheckPoint, normSqList, dotList])
      (by norm_num [sphereCheckPoint, normSqList, dotList])).2.2 ?_ ?_
  · rw [harc, abs_of_nonneg (by positivity)]
    linarith [Real.pi_gt_three]
  · rw [harc, Real.sin_pi_div_two]; norm_num

/-! Helper lemmas for the sphere geodesic algebra and the 1 × 1 SPD series. -/

theorem normSq_cons (a : ℝ) (l : List ℝ) : normSqList (a :: l) = a * a + normSqList l :=
  dotList_cons a a l l

theorem dotList_eq_range (p : List ℝ) : ∀ t : List ℝ, t.length = p.length →
    dotList p t = ((List.range p.length).map fun i => p.getD i 0 * t.getD i 0).sum := by
  induction p with
  | nil => intro t ht; simp [dotList]
  | cons a p ih =>
    intro t ht
    cases t with
    | nil => simp at ht
    | cons b t =>
      simp only [List.length_cons, Nat.succ.injEq] at ht
      rw [dotList_cons, ih t ht, List.length_cons, List.range_succ_eq_map,
        List.map_cons, List.sum_cons, List.map_map, List.getD_cons_zero,
        List.getD_cons_zero]
      refine congrArg (a * b + ·) (congrArg List.sum
        (List.map_congr_left fun i _ => ?_))
      simp [Function.comp, List.getD_cons_succ]

theorem range_map_combo (F : ℝ → ℝ → ℝ) : ∀ (p t : List ℝ), t.length = p.length →
    (List.range p.length).map (fun i => F (p.getD i 0) (t.getD i 0)) = List.zipWith F p t := by
  intro p
  induction p with
  | nil => intro t h; simp
  | cons x p ih =>
    intro t h
    cases t with
    | nil => simp at h
    | cons y t =>
      simp only [List.length_cons, Nat.succ.injEq] at h
      rw [List.length_cons, List.range_succ_eq_map, List.map_cons, List.map_map,
        List.zipWith_cons_cons, ← ih t h, List.getD_cons_zero, List.getD_cons_zero]
      refine congrArg (F x y :: ·) (List.map_congr_left fun i _ => ?_)
      simp [Function.comp, List.getD_cons_succ]

theorem sum_sq_combo (a b : ℝ) : ∀ (p t : List ℝ), t.length = p.length →
    normSqList (List.zipWith (fun x y => x * a + y * b) p t) =
      a ^ 2 * normSqList p + 2 * a * b * dotList p t + b ^ 2 * normSqList t := by
  intro p
  induction p with
  | nil =>
    intro t h
    cases t with
    | nil => simp [normSqList, dotList]
    | cons y t => simp at h
  | cons x p ih =>
    intro t h
    cases t with
    | nil => simp at h
    | cons y t =>
      simp only [List.length_cons, Nat.succ.injEq] at h
      rw [List.zipWith_cons_cons, normSq_cons, normSq_cons, normSq_cons,
        dotList_cons, ih t h]
      ring

theorem dot_lin_combo (a b : ℝ) : ∀ (p t : List ℝ), t.length = p.length →
    dotList p (List.zipWith (fun x y => x * a + y * b) p t) =
      a * normSqList p + b * dotList p t := by
  intro p
  induction p with
  | nil =>
    intro t h
    cases t with
    | nil => simp [normSqList, dotList]
    | cons y t => simp at h
  | cons x p ih =>
    intro t h
    cases t with
    | nil => simp at h
    | cons y t =>
      simp only [List.length_cons, Nat.succ.injEq] at h
      rw [List.zipWith_cons_cons, dotList_cons, normSq_cons, dotList_cons, ih t h]
      ring

theorem m1_add (x y : ℝ) : m1 x + m1 y = m1 (x + y) := by
  apply Matrix.ext; intro i j; rfl

theorem m1_mul (x y : ℝ) : m1 x * m1 y = m1 (x * y) := by
  apply Matrix.ext; intro i j
  simp [m1, Matrix.mul_apply, Fin.sum_univ_one]

theorem m1_one : (1 : Matrix (Fin 1) (Fin 1) ℝ) = m1 1 := by
  apply Matrix.ext; intro i j
  rw [Subsingleton.elim i 0, Subsingleton.elim j 0]
  simp [m1, Matrix.one_apply]

theorem matexpGo_m1 : ∀ (fuel k : ℕ) (w r t : ℝ),
    matexpGo 1 (m1 w) fuel k (m1 r) (m1 t) = m1 (sexpGo w fuel k r t) := by
  intro fuel
  induction fuel with
  | zero => intro k w r t; rfl
  | succ fuel ih =>
    intro k w r t
    have hof : (Matrix.of fun i j : Fin 1 => (m1 t * m1 w) i j / (k : ℝ)) =
        m1 (t * w / (k : ℝ)) := by
      apply Matrix.ext; intro i j
      rw [m1_mul]; rfl
    have hcond : (∀ i j : Fin 1, |(m1 t * m1 w) i j / (k : ℝ)| < 1e-12) ↔
        |t * w / (k : ℝ)| < 1e-12 := by
      constructor
      · intro h
        have h0 := h 0 0
        rwa [m1_mul] at h0
      · intro h i j
        rw [m1_mul]; exact h
    rw [matexpGo, sexpGo]
    by_cases hc : |t * w / (k : ℝ)| < 1e-12
    · rw [if_pos (hcond.2 hc), if_pos hc, hof, m1_add]
    · rw [if_neg (fun h => hc (hcond.1 h)), if_neg hc, hof, m1_add, ih]

theorem matrixExponential_m1 (w : ℝ) :
    matrixExponential 1 (m1 w) = m1 (sexpGo w 19 1 1 1) := by
  rw [matrixExponential, m1_one]
  exact matexpGo_m1 19 1 w 1 1

theorem matlogGo_m1 : ∀ (fuel k : ℕ) (a r t : ℝ),
    matlogGo 1 (m1 a) fuel k (m1 r) (m1 t) = m1 (slogGo a fuel k r t) := by
  intro fuel
  induction fuel with
  | zero => intro k a r t; rfl
  | succ fuel ih =>
    intro k a r t
    have hof : (Matrix.of fun i j : Fin 1 =>
        m1 t i j * ((if k % 2 = 1 then (1 : ℝ) else -1) / (k : ℝ))) =
        m1 (t * ((if k % 2 = 1 then (1 : ℝ) else -1) / (k : ℝ))) := by
      apply Matrix.ext; intro i j; rfl
    have hcond : (∀ i j : Fin 1, |(m1 t * m1 a) i j| < 1e-12) ↔ |t * a| < 1e-12 := by
      constructor
      · intro h
        have h0 := h 0 0
        rwa [m1_mul] at h0
      · intro h i j
        rw [m1_mul]; exact h
    rw [matlogGo, slogGo]
    by_cases hc : |t * a| < 1e-12
    · rw [if_pos (hcond.2 hc), if_pos hc, hof, m1_add]
    · rw [if_neg (fun h => hc (hcond.1 h)), if_neg hc, hof, m1_add, m1_mul, ih]

theorem matrixLogarithm_m1 (w : ℝ) :
    matrixLogarithm 1 (m1 w) = m1 (slogGo (w - 1) 49 1 0 (w - 1)) := by
  rw [matrixLogarithm, show m1 w - 1 = m1 (w - 1) from by
    rw [m1_one]; apply Matrix.ext; intro i j; rfl,
    show (0 : Matrix (Fin 1) (Fin 1) ℝ) = m1 0 from by apply Matrix.ext; intro i j; rfl]
  exact matlogGo_m1 49 1 (w - 1) 0 (w - 1)

theorem not_abs_lt (x c : ℝ) (h : c ≤ x ∨ x ≤ -c) : ¬ |x| < c := by
  intro hlt
  rcases h with h | h
  · exact absurd (lt_of_le_of_lt (h.trans (le_abs_self x)) hlt) (lt_irrefl c)
  · have h2 : c ≤ |x| := le_trans (by linarith) (neg_le_abs x)
    exact absurd (lt_of_le_of_lt h2 hlt) (lt_irrefl c)

theorem sexpGo_step (w : ℝ) (fuel k : ℕ) (r t : ℝ)
    (h : ¬ |t * w / (k : ℝ)| < 1e-12) :
    sexpGo w (fuel + 1) k r t =
      sexpGo w fuel (k + 1) (r + t * w / (k : ℝ)) (t * w / (k : ℝ)) := by
  rw [sexpGo, if_neg h]

theorem slogGo_step (a : ℝ) (fuel k : ℕ) (r t : ℝ) (h : ¬ |t * a| < 1e-12) :
    slogGo a (fuel + 1) k r t =
      slogGo a fuel (k + 1)
        (r + t * ((if k % 2 = 1 then (1 : ℝ) else -1) / (k : ℝ))) (t * a) := by
  rw [slogGo, if_neg h]

/-! C7: closure of the manifolds under the exponential map. -/

/-- C7 amended. On the sphere, for a point of exactly unit squared norm and a
tangent exactly orthogonal to it (correct lengths), `exp` produces a point
accepted by `check_point`. (The counterexample shows that inputs merely
within the `1e-10` tolerances, and the SPD truncated exponential series, can
leave the manifold.) -/
theorem c7_theorem :
    ∀ (d : ℕ) (p v : List ℝ), p.length = d + 1 → v.length = d + 1 →
      normSqList p = 1 → dotList p v = 0 →
      ∃ q, sphereExp d p v = .ok q ∧ sphereCheckPoint d q = .ok () := by
  intro d p v hp hv hnp hor
  have hcp : sphereCheckPoint d p = .ok () := by
    rw [sphereCheckPoint, if_neg (by simp [hp]), if_neg (by rw [hnp]; norm_num)]
  have hct : sphereCheckTangent d p v = .ok () := by
    simp only [sphereCheckTangent, hcp]
    rw [if_neg (by simp [hv]), if_neg (by rw [hor]; norm_num)]
  by_cases hr : Real.sqrt (normSqList v) < 1e-10
  · refine ⟨p, ?_, hcp⟩
    simp only [sphereExp, hct]
    rw [if_pos hr]
  · set r := Real.sqrt (normSqList v) with hrdef
    have hvnn : (0 : ℝ) ≤ normSqList v := dotList_self_nonneg v
    have hr2 : r ^ 2 = normSqList v := Real.sq_sqrt hvnn
    have hrpos : (0 : ℝ) < r := lt_of_lt_of_le (by norm_num) (not_lt.1 hr)
    have hlen : v.length = p.length := hv.trans hp.symm
    have hmap : ((List.range (d + 1)).map fun i =>
        p.getD i 0 * Real.cos r + v.getD i 0 * Real.sin r / r) =
        List.zipWith (fun x y => x * Real.cos r + y * (Real.sin r / r)) p v := by
      rw [← hp, ← range_map_combo (fun x y => x * Real.cos r + y * (Real.sin r / r)) p v hlen]
      exact List.map_congr_left fun i _ => by rw [mul_div_assoc]
    have hq : normSqList (List.zipWith
        (fun x y => x * Real.cos r + y * (Real.sin r / r)) p v) = 1 := by
      rw [sum_sq_combo _ _ p v hlen, hnp, hor]
      have hs : (Real.sin r / r) ^ 2 * normSqList v = Real.sin r ^ 2 := by
        rw [← hr2]; field_simp
      rw [hs]
      have h2 := Real.sin_sq_add_cos_sq r
      nlinarith [h2]
    refine ⟨_, by simp only [sphereExp, hct]; rw [if_neg hr], ?_⟩
    rw [sphereCheckPoint, if_neg (by simp), if_neg (by rw [hmap, hq]; norm_num)]

/-- C7 witness: the exact-hypothesis closure at the north pole of the circle
with the zero tangent. -/
theorem c7_witness :
    ∃ q, sphereExp 1 [(1 : ℝ), 0] [(0 : ℝ), 0] = .ok q ∧
      sphereCheckPoint 1 q = .ok () :=
  c7_theorem 1 [(1 : ℝ), 0] [(0 : ℝ), 0] (by simp) (by simp)
    (by norm_num [normSqList, dotList]) (by norm_num [dotList])

/-- C7 counterexample. The claim "exp of a valid point and a check-passing
tangent stays on the manifold" is false on both curved manifolds: on the
sphere, `p = [1, 0]` with tangent `[1e-10, √(1/4 - 1e-20)]` (orthogonality
exactly at the `1e-10` tolerance bound, `‖v‖ = 1/2`) passes
`check_tangent_vector` yet `exp` lands on a vector of squared norm
`1 + 2e-10·sin 1 > 1 + 1e-10`, rejected by `check_point`; on SPD with
`dimension = 1`, point `[1]` and symmetric tangent `[-100]`, the truncated
19-term exponential series evaluates to a negative number, so the result
fails the Cholesky positive-definiteness check. -/
theorem c7_counterexample :
    (sphereCheckPoint 1 [(1 : ℝ), 0] = .ok () ∧
      sphereCheckTangent 1 [(1 : ℝ), 0] [(1e-10 : ℝ), Real.sqrt (1 / 4 - 1e-20)] = .ok () ∧
      ∃ q, sphereExp 1 [(1 : ℝ), 0] [(1e-10 : ℝ), Real.sqrt (1 / 4 - 1e-20)] = .ok q ∧
        sphereCheckPoint 1 q = .error .PointNotOnManifold) ∧
    (spdCheckPoint 1 [(1 : ℝ)] = .ok () ∧
      spdCheckTangent 1 [(1 : ℝ)] [(-100 : ℝ)] = .ok () ∧
      ∃ q, spdExp 1 [(1 : ℝ)] [(-100 : ℝ)] = .ok q ∧
        spdCheckPoint 1 q = .error .PointNotOnManifold) := by
  constructor
  · -- sphere part
    set b := Real.sqrt (1 / 4 - 1e-20) with hbdef
    have hb2 : b ^ 2 = 1 / 4 - 1e-20 := Real.sq_sqrt (by norm_num)
    have hb2' : b * b = 1 / 4 - 1e-20 := by rw [← hb2]; ring
    have hnv : normSqList [(1e-10 : ℝ), b] = 1 / 4 := by
      rw [normSq_cons, normSq_cons, show normSqList ([] : List ℝ) = 0 from rfl, hb2']
      norm_num
    have hr : Real.sqrt (normSqList [(1e-10 : ℝ), b]) = 1 / 2 := by
      rw [hnv, show (1 / 4 : ℝ) = (1 / 2) ^ 2 by norm_num, Real.sqrt_sq (by norm_num)]
    have hcp : sphereCheckPoint 1 [(1 : ℝ), 0] = .ok () := by
      norm_num [sphereCheckPoint, normSqList, dotList]
    have hdot : dotList [(1 : ℝ), 0] [(1e-10 : ℝ), b] = 1e-10 := by
      rw [dotList_cons, dotList_cons, show dotList [] [] = 0 from rfl]; ring
    have hct : sphereCheckTangent 1 [(1 : ℝ), 0] [(1e-10 : ℝ), b] = .ok () := by
      simp only [sphereCheckTangent, hcp]
      rw [if_neg (by simp),
        if_neg (by rw [hdot, abs_of_nonneg (by norm_num : (0 : ℝ) ≤ 1e-10)]; norm_num)]
    have hmap : ((List.range 2).map fun i =>
        [(1 : ℝ), 0].getD i 0 * Real.cos (1 / 2) +
          [(1e-10 : ℝ), b].getD i 0 * Real.sin (1 / 2) / (1 / 2)) =
        List.zipWith (fun x y => x * Real.cos (1 / 2) + y * (Real.sin (1 / 2) / (1 / 2)))
          [(1 : ℝ), 0] [(1e-10 : ℝ), b] := by
      rw [← range_map_combo
        (fun x y => x * Real.cos (1 / 2) + y * (Real.sin (1 / 2) / (1 / 2)))
        [(1 : ℝ), 0] [(1e-10 : ℝ), b] rfl]
      exact List.map_congr_left fun i _ => by rw [mul_div_assoc]
    have hs1 : Real.sin 1 = 2 * Real.sin (1 / 2) * Real.cos (1 / 2) := by
      have h2 := Real.sin_two_mul (1 / 2 : ℝ)
      norm_num at h2
      exact h2
    have hnq : normSqList (List.zipWith
        (fun x y => x * Real.cos (1 / 2) + y * (Real.sin (1 / 2) / (1 / 2)))
        [(1 : ℝ), 0] [(1e-10 : ℝ), b]) = 1 + 2e-10 * Real.sin 1 := by
      rw [sum_sq_combo (Real.cos (1 / 2)) (Real.sin (1 / 2) / (1 / 2))
          [(1 : ℝ), 0] [(1e-10 : ℝ), b] rfl,
        show normSqList [(1 : ℝ), 0] = 1 from by norm_num [normSqList, dotList],
        hdot, hnv, hs1]
      have hpyth := Real.sin_sq_add_cos_sq (1 / 2 : ℝ)
      linear_combination hpyth
    have hsin1 : (3 / 4 : ℝ) < Real.sin 1 := by
      have hh := Real.sin_gt_sub_cube (show (0 : ℝ) < 1 by norm_num) (le_refl 1)
      linarith
    refine ⟨hcp, hct, (List.range 2).map fun i =>
        [(1 : ℝ), 0].getD i 0 * Real.cos (1 / 2) +
          [(1e-10 : ℝ), b].getD i 0 * Real.sin (1 / 2) / (1 / 2), ?_, ?_⟩
    · simp only [sphereExp, hct, hr]
      rw [if_neg (by norm_num)]
    · rw [sphereCheckPoint, if_neg (by simp), if_pos ?_]
      rw [hmap, hnq, show (1 : ℝ) + 2e-10 * Real.sin 1 - 1 = 2e-10 * Real.sin 1 by ring,
        abs_of_pos (by nlinarith)]
      nlinarith
  · -- SPD part
    have hsymP : isSymTol 1 (matOfVec 1 [(1 : ℝ)]) := by
      intro i j hij
      rw [Subsingleton.elim i j] at hij
      exact absurd hij (lt_irrefl j)
    have hsymV : isSymTol 1 (matOfVec 1 [(-100 : ℝ)]) := by
      intro i j hij
      rw [Subsingleton.elim i j] at hij
      exact absurd hij (lt_irrefl j)
    have hlow : lowerSym 1 (matOfVec 1 [(1 : ℝ)]) 0 0 = 1 := by
      simp [lowerSym, matOfVec, List.getD]
    have hcholP : cholOkL 1 (matOfVec 1 [(1 : ℝ)]) :=
      ⟨by rw [hlow]; norm_num, trivial⟩
    have hcpP : spdCheckPoint 1 [(1 : ℝ)] = .ok () := by
      rw [spdCheckPoint, if_neg (by simp), if_neg (not_not_intro hsymP),
        if_neg (not_not_intro hcholP)]
    have hctV : spdCheckTangent 1 [(1 : ℝ)] [(-100 : ℝ)] = .ok () := by
      simp only [spdCheckTangent, hcpP]
      rw [if_neg (by simp), if_neg (not_not_intro hsymV)]
    have hL : cholFactor 1 (lowerSym 1 (matOfVec 1 [(1 : ℝ)])) = 1 := by
      apply Matrix.ext; intro i j
      rw [Subsingleton.elim i 0, Subsingleton.elim j 0]
      show cholFactor (0 + 1) (lowerSym 1 (matOfVec 1 [(1 : ℝ)])) 0 0 = _
      rw [cholFactor]
      simp only [Matrix.of_apply, Fin.cases_zero]
      rw [hlow, Real.sqrt_one, Matrix.one_apply_eq]
    have hV : matOfVec 1 [(-100 : ℝ)] = m1 (-100) := by
      apply Matrix.ext; intro i j
      rw [Subsingleton.elim i 0, Subsingleton.elim j 0]
      simp [matOfVec, m1, List.getD]
    have e1 : sexpGo (-100 : ℝ) 19 1 1 1 =
        sexpGo (-100) 18 2 (-99) (-100) :=
      (sexpGo_step (-100) 18 1 1 1
        (not_abs_lt _ _ (Or.inr (by norm_num)))).trans (by norm_num)
    have e2 : sexpGo (-100 : ℝ) 18 2 (-99) (-100) =
        sexpGo (-100) 17 3 4901 5000 :=
      (sexpGo_step (-100) 17 2 (-99) (-100)
        (not_abs_lt _ _ (Or.inl (by norm_num)))).trans (by norm_num)
    have e3 : sexpGo (-100 : ℝ) 17 3 4901 5000 =
        sexpGo (-100) 16 4 (-485297 / 3) (-500000 / 3) :=
      (sexpGo_step (-100) 16 3 4901 5000
        (not_abs_lt _ _ (Or.inr (by norm_num)))).trans (by norm_num)
    have e4 : sexpGo (-100 : ℝ) 16 4 (-485297 / 3) (-500000 / 3) =
        sexpGo (-100) 15 5 4004901 (12500000 / 3) :=
      (sexpGo_step (-100) 15 4 (-485297 / 3) (-500000 / 3)
        (not_abs_lt _ _ (Or.inl (by norm_num)))).trans (by norm_num)
    have e5 : sexpGo (-100 : ℝ) 15 5 4004901 (12500000 / 3) =
        sexpGo (-100) 14 6 (-237985297 / 3) (-250000000 / 3) :=
      (sexpGo_step (-100) 14 5 4004901 (12500000 / 3)
        (not_abs_lt _ _ (Or.inr (by norm_num)))).trans (by norm_num)
    have e6 : sexpGo (-100 : ℝ) 14 6 (-237985297 / 3) (-250000000 / 3) =
        sexpGo (-100) 13 7 (11786044109 / 9) (12500000000 / 9) :=
      (sexpGo_step (-100) 13 6 (-237985297 / 3) (-250000000 / 3)
        (not_abs_lt _ _ (Or.inl (by norm_num)))).trans (by norm_num)
    have e7 : sexpGo (-100 : ℝ) 13 7 (11786044109 / 9) (12500000000 / 9) =
        sexpGo (-100) 12 8 (-129721965693 / 7) (-1250000000000 / 63) :=
      (sexpGo_step (-100) 12 7 (11786044109 / 9) (12500000000 / 9)
        (not_abs_lt _ _ (Or.inr (by norm_num)))).trans (by norm_num)
    have e8 : sexpGo (-100 : ℝ) 12 8 (-129721965693 / 7) (-1250000000000 / 63) =
        sexpGo (-100) 11 9 (14457502308763 / 63) (15625000000000 / 63) :=
      (sexpGo_step (-100) 11 8 (-129721965693 / 7) (-1250000000000 / 63)
        (not_abs_lt _ _ (Or.inl (by norm_num)))).trans (by norm_num)
    have e9 : sexpGo (-100 : ℝ) 11 9 (14457502308763 / 63) (15625000000000 / 63) =
        sexpGo (-100) 10 10 (-1432382479221133 / 567) (-1562500000000000 / 567) :=
      (sexpGo_step (-100) 10 9 (14457502308763 / 63) (15625000000000 / 63)
        (not_abs_lt _ _ (Or.inr (by norm_num)))).trans (by norm_num)
    have e10 : sexpGo (-100 : ℝ) 10 10 (-1432382479221133 / 567) (-1562500000000000 / 567) =
        sexpGo (-100) 9 11 (1576957502308763 / 63) (15625000000000000 / 567) :=
      (sexpGo_step (-100) 9 10 (-1432382479221133 / 567) (-1562500000000000 / 567)
        (not_abs_lt _ _ (Or.inl (by norm_num)))).trans (by norm_num)
    have e11 : sexpGo (-100 : ℝ) 9 11 (1576957502308763 / 63) (15625000000000000 / 567) =
        sexpGo (-100) 8 12 (-1406381207271432463 / 6237) (-1562500000000000000 / 6237) :=
      (sexpGo_step (-100) 8 11 (1576957502308763 / 63) (15625000000000000 / 567)
        (not_abs_lt _ _ (Or.inr (by norm_num)))).trans (by norm_num)
    have e12 : sexpGo (-100 : ℝ) 8 12 (-1406381207271432463 / 6237) (-1562500000000000000 / 6237) =
        sexpGo (-100) 7 13 (3167577852562336601 / 1701) (39062500000000000000 / 18711) :=
      (sexpGo_step (-100) 7 12 (-1406381207271432463 / 6237) (-1562500000000000000 / 6237)
        (not_abs_lt _ _ (Or.inl (by norm_num)))).trans (by norm_num)
    have e13 : sexpGo (-100 : ℝ) 7 13 (3167577852562336601 / 1701) (39062500000000000000 / 18711) =
        sexpGo (-100) 6 14 (-6090452146531897471 / 429) (-3906250000000000000000 / 243243) :=
      (sexpGo_step (-100) 6 13 (3167577852562336601 / 1701) (39062500000000000000 / 18711)
        (not_abs_lt _ _ (Or.inr (by norm_num)))).trans (by norm_num)
    have e14 : sexpGo (-100 : ℝ) 6 14 (-6090452146531897471 / 429) (-3906250000000000000000 / 243243) =
        sexpGo (-100) 5 15 (171139495430414898937601 / 1702701) (195312500000000000000000 / 1702701) :=
      (sexpGo_step (-100) 5 14 (-6090452146531897471 / 429) (-3906250000000000000000 / 243243)
        (not_abs_lt _ _ (Or.inl (by norm_num)))).trans (by norm_num)
    have e15 : sexpGo (-100 : ℝ) 5 15 (171139495430414898937601 / 1702701) (195312500000000000000000 / 1702701) =
        sexpGo (-100) 4 16 (-260987039516058100245169 / 392931) (-3906250000000000000000000 / 5108103) :=
      (sexpGo_step (-100) 4 15 (171139495430414898937601 / 1702701) (195312500000000000000000 / 1702701)
        (not_abs_lt _ _ (Or.inr (by norm_num)))).trans (by norm_num)
    have e16 : sexpGo (-100 : ℝ) 4 16 (-260987039516058100245169 / 392931) (-3906250000000000000000000 / 5108103) =
        sexpGo (-100) 3 17 (70778555509398130292299 / 17199) (24414062500000000000000000 / 5108103) :=
      (sexpGo_step (-100) 3 16 (-260987039516058100245169 / 392931) (-3906250000000000000000000 / 5108103)
        (not_abs_lt _ _ (Or.inl (by norm_num)))).trans (by norm_num)
    have e17 : sexpGo (-100 : ℝ) 3 17 (70778555509398130292299 / 17199) (24414062500000000000000000 / 5108103) =
        sexpGo (-100) 2 18 (-2084045323233048840154182349 / 86837751) (-2441406250000000000000000000 / 86837751) :=
      (sexpGo_step (-100) 2 17 (70778555509398130292299 / 17199) (24414062500000000000000000 / 5108103)
        (not_abs_lt _ _ (Or.inr (by norm_num)))).trans (by norm_num)
    have e18 : sexpGo (-100 : ℝ) 2 18 (-2084045323233048840154182349 / 86837751) (-2441406250000000000000000000 / 86837751) =
        sexpGo (-100) 1 19 (103313904590902560438612358859 / 781539759) (122070312500000000000000000000 / 781539759) :=
      (sexpGo_step (-100) 1 18 (-2084045323233048840154182349 / 86837751) (-2441406250000000000000000000 / 86837751)
        (not_abs_lt _ _ (Or.inl (by norm_num)))).trans (by norm_num)
    have e19 : sexpGo (-100 : ℝ) 1 19 (103313904590902560438612358859 / 781539759) (122070312500000000000000000000 / 781539759) =
        sexpGo (-100) 0 20 (-1138229673641427927962929464631 / 1649917269) (-12207031250000000000000000000000 / 14849255421) :=
      (sexpGo_step (-100) 0 19 (103313904590902560438612358859 / 781539759) (122070312500000000000000000000 / 781539759)
        (not_abs_lt _ _ (Or.inr (by norm_num)))).trans (by norm_num)
    have hS : sexpGo (-100 : ℝ) 19 1 1 1 < 0 := by
      rw [e1, e2, e3, e4, e5, e6, e7, e8, e9, e10, e11, e12, e13, e14, e15, e16, e17, e18, e19]
      show ((-1138229673641427927962929464631 / 1649917269) : ℝ) < 0
      norm_num
    have hexp : spdExp 1 [(1 : ℝ)] [(-100 : ℝ)] = .ok [sexpGo (-100 : ℝ) 19 1 1 1] := by
      simp only [spdExp, hctV]
      rw [if_pos hcholP, hL, if_neg (by rw [Matrix.det_one]; norm_num)]
      rw [inv_one, Matrix.transpose_one, Matrix.one_mul, Matrix.mul_one,
        Matrix.one_mul, Matrix.mul_one, hV, matrixExponential_m1, matrixToVec_one]
      rfl
    refine ⟨hcpP, hctV, _, hexp, ?_⟩
    have hsymS : isSymTol 1 (matOfVec 1 [sexpGo (-100 : ℝ) 19 1 1 1]) := by
      intro i j hij
      rw [Subsingleton.elim i j] at hij
      exact absurd hij (lt_irrefl j)
    have hnotchol : ¬ cholOkL 1 (matOfVec 1 [sexpGo (-100 : ℝ) 19 1 1 1]) := by
      intro h
      have h0 : (0 : ℝ) < lowerSym 1 (matOfVec 1 [sexpGo (-100 : ℝ) 19 1 1 1]) 0 0 := h.1
      rw [show lowerSym 1 (matOfVec 1 [sexpGo (-100 : ℝ) 19 1 1 1]) 0 0 =
        sexpGo (-100 : ℝ) 19 1 1 1 from by simp [lowerSym, matOfVec, List.getD]] at h0
      linarith
    rw [spdCheckPoint, if_neg (by simp), if_neg (not_not_intro hsymS),
      if_pos hnotchol]

/-! C4: the exp/log round-trip law. -/

theorem getD_zipWith (F : ℝ → ℝ → ℝ) : ∀ (p t : List ℝ) (i : ℕ),
    i < p.length → i < t.length →
    (List.zipWith F p t).getD i 0 = F (p.getD i 0) (t.getD i 0) := by
  intro p
  induction p with
  | nil => intro t i h1 h2; simp at h1
  | cons x p ih =>
    intro t i h1 h2
    cases t with
    | nil => simp at h2
    | cons y t =>
      cases i with
      | zero => simp [List.getD_cons_zero]
      | succ i =>
        simp only [List.zipWith_cons_cons, List.getD_cons_succ]
        exact ih t i (by simpa using h1) (by simpa using h2)

/-- C4 amended. The round-trip law `log(p, exp(p, v)) = v` holds exactly on
the Euclidean manifold for all correct-length inputs, and on the sphere for
exactly-valid inputs (`‖p‖² = 1`, `p·v = 0`) whose speed `r = ‖v‖` satisfies
`1e-10 ≤ r ≤ π` with `sin r ≥ 1e-10` (i.e. within the injectivity radius and
away from the zero-move and antipodal cutoffs). The counterexample shows the
law fails beyond `r = π` on the sphere and for the SPD truncated series. -/
theorem c4_theorem :
    (∀ (d : ℕ) (p v : List ℝ), p.length = d → v.length = d →
      ∃ q, euclidExp d p v = .ok q ∧ euclidLog d p q = .ok v) ∧
    (∀ (d : ℕ) (p v : List ℝ), p.length = d + 1 → v.length = d + 1 →
      normSqList p = 1 → dotList p v = 0 →
      1e-10 ≤ Real.sqrt (normSqList v) → Real.sqrt (normSqList v) ≤ Real.pi →
      1e-10 ≤ Real.sin (Real.sqrt (normSqList v)) →
      ∃ q, sphereExp d p v = .ok q ∧ sphereLog d p q = .ok v) := by
  constructor
  · -- Euclidean round trip, exact
    intro d p v hp hv
    have hct : euclidCheckTangent d p v = .ok () := by
      rw [euclidCheckTangent, euclidCheckPoint, if_neg (by simp [hp]),
        if_neg (by simp [hv])]
    have hq : euclidExp d p v =
        .ok ((List.range d).map fun i => p.getD i 0 + v.getD i 0) := by
      rw [euclidExp, hct]
    refine ⟨_, hq, ?_⟩
    have hcp : euclidCheckPoint d p = .ok () := by
      rw [euclidCheckPoint, if_neg (by simp [hp])]
    have hcq : euclidCheckPoint d ((List.range d).map fun i =>
        p.getD i 0 + v.getD i 0) = .ok () := by
      rw [euclidCheckPoint, if_neg (by simp)]
    simp only [euclidLog, hcp, hcq]
    refine congrArg Except.ok ?_
    have hcong : ∀ j ∈ List.range d,
        ((List.range d).map fun i => p.getD i 0 + v.getD i 0).getD j 0 - p.getD j 0 =
          v.getD j 0 := by
      intro j hj
      rw [getD_range_map _ _ _ (List.mem_range.1 hj)]
      ring
    rw [List.map_congr_left hcong]
    have hself := self_eq_range_map v
    rw [hv] at hself
    exact hself
  · -- Sphere round trip, exact, within the injectivity radius
    intro d p v hp hv hnp hor hrge hrpi hsin
    set r := Real.sqrt (normSqList v) with hrdef
    have hvnn : (0 : ℝ) ≤ normSqList v := dotList_self_nonneg v
    have hr2 : r ^ 2 = normSqList v := Real.sq_sqrt hvnn
    have hrpos : (0 : ℝ) < r := lt_of_lt_of_le (by norm_num) hrge
    have hsinpos : (0 : ℝ) < Real.sin r := lt_of_lt_of_le (by norm_num) hsin
    have hlen : v.length = p.length := hv.trans hp.symm
    have hcp : sphereCheckPoint d p = .ok () := by
      rw [sphereCheckPoint, if_neg (by simp [hp]), if_neg (by rw [hnp]; norm_num)]
    have hct : sphereCheckTangent d p v = .ok () := by
      simp only [sphereCheckTangent, hcp]
      rw [if_neg (by simp [hv]), if_neg (by rw [hor]; norm_num)]
    have hnotlt : ¬ r < 1e-10 := not_lt.2 hrge
    have hmap : ((List.range (d + 1)).map fun i =>
        p.getD i 0 * Real.cos r + v.getD i 0 * Real.sin r / r) =
        List.zipWith (fun x y => x * Real.cos r + y * (Real.sin r / r)) p v := by
      rw [← hp, ← range_map_combo (fun x y => x * Real.cos r + y * (Real.sin r / r)) p v hlen]
      exact List.map_congr_left fun i _ => by rw [mul_div_assoc]
    have hexp : sphereExp d p v =
        .ok (List.zipWith (fun x y => x * Real.cos r + y * (Real.sin r / r)) p v) := by
      simp only [sphereExp, hct]
      rw [if_neg hnotlt, hmap]
    refine ⟨_, hexp, ?_⟩
    set q := List.zipWith (fun x y => x * Real.cos r + y * (Real.sin r / r)) p v with hqdef
    have hqlen : q.length = d + 1 := by
      rw [hqdef, List.length_zipWith, hp, hv, min_self]
    have hqnorm : normSqList q = 1 := by
      rw [hqdef, sum_sq_combo _ _ p v hlen, hnp, hor]
      have hs : (Real.sin r / r) ^ 2 * normSqList v = Real.sin r ^ 2 := by
        rw [← hr2]; field_simp
      rw [hs]
      have h2 := Real.sin_sq_add_cos_sq r
      nlinarith [h2]
    have hcq : sphereCheckPoint d q = .ok () := by
      rw [sphereCheckPoint, if_neg (by simp [hqlen]), if_neg (by rw [hqnorm]; norm_num)]
    have hdotpq : dotList p q = Real.cos r := by
      rw [hqdef, dot_lin_combo _ _ p v hlen, hnp, hor]
      ring
    have hclamp : clampR (-1) 1 (dotList p q) = Real.cos r := by
      rw [hdotpq, clampR, min_eq_left (Real.cos_le_one r),
        max_eq_right (Real.neg_one_le_cos r)]
    have harc : Real.arccos (clampR (-1) 1 (dotList p q)) = r := by
      rw [hclamp]
      exact Real.arccos_cos hrpos.le hrpi
    simp only [sphereLog, hcp, hcq, harc]
    rw [if_neg (by rw [abs_of_nonneg hrpos.le]; exact not_lt.2 hrge),
      if_neg (by rw [abs_of_nonneg hsinpos.le]; exact not_lt.2 hsin)]
    refine congrArg Except.ok ?_
    have hcong : ∀ j ∈ List.range (d + 1),
        (q.getD j 0 - p.getD j 0 * clampR (-1) 1 (dotList p q)) * r / Real.sin r =
          v.getD j 0 := by
      intro j hj
      have hjd := List.mem_range.1 hj
      rw [hclamp, hqdef, getD_zipWith _ p v j (hp ▸ hjd) (hv ▸ hjd)]
      field_simp
      ring
    rw [List.map_congr_left hcong]
    have hself := self_eq_range_map v
    rw [hv] at hself
    exact hself

/-- C4 witness: the exact round trips at concrete inputs — Euclidean
`p = [0], v = [1]` and sphere `p = [1,0], v = [0,1]` (a one-radian move). -/
theorem c4_witness :
    (∃ q, euclidExp 1 [(0 : ℝ)] [(1 : ℝ)] = .ok q ∧
      euclidLog 1 [(0 : ℝ)] q = .ok [(1 : ℝ)]) ∧
    (∃ q, sphereExp 1 [(1 : ℝ), 0] [(0 : ℝ), 1] = .ok q ∧
      sphereLog 1 [(1 : ℝ), 0] q = .ok [(0 : ℝ), 1]) := by
  have hnv : normSqList [(0 : ℝ), 1] = 1 := by norm_num [normSqList, dotList]
  have hr : Real.sqrt (normSqList [(0 : ℝ), 1]) = 1 := by rw [hnv, Real.sqrt_one]
  refine ⟨c4_theorem.1 1 [(0 : ℝ)] [(1 : ℝ)] (by simp) (by simp),
    c4_theorem.2 1 [(1 : ℝ), 0] [(0 : ℝ), 1] (by simp) (by simp)
      (by norm_num [normSqList, dotList]) (by norm_num [dotList]) ?_ ?_ ?_⟩
  · rw [hr]; norm_num
  · rw [hr]; linarith [Real.pi_gt_three]
  · rw [hr]
    have hh := Real.sin_gt_sub_cube (show (0 : ℝ) < 1 by norm_num) (le_refl 1)
    linarith

/-- C4 counterexample. The round-trip law fails beyond its narrow regime: on
the sphere, the valid tangent `[0, 3π/2]` at `[1, 0]` (exactly orthogonal, so
it passes `check_tangent_vector`) is mapped by `exp` to `[0, -1]`, from which
`log` recovers `[0, -π/2]` — off by `2π` in the second coordinate, not
within any numerical tolerance, and the pair is not antipodal (`log`
succeeds); on SPD with `dimension = 1`, `exp(1, 3)` gives the 19-term series
value `≈ 20.0855`, but `log` then applies the Mercator series to
`A ≈ 19.0855` with `|A| > 1`, so the 49-term truncation diverges to
`≈ 1.1e61` instead of recovering `3`. -/
theorem c4_counterexample :
    (sphereCheckPoint 1 [(1 : ℝ), 0] = .ok () ∧
      sphereCheckTangent 1 [(1 : ℝ), 0] [(0 : ℝ), 3 * Real.pi / 2] = .ok () ∧
      sphereExp 1 [(1 : ℝ), 0] [(0 : ℝ), 3 * Real.pi / 2] = .ok [(0 : ℝ), -1] ∧
      sphereLog 1 [(1 : ℝ), 0] [(0 : ℝ), -1] = .ok [(0 : ℝ), -(Real.pi / 2)] ∧
      1 < |(-(Real.pi / 2)) - 3 * Real.pi / 2|) ∧
    (spdCheckPoint 1 [(1 : ℝ)] = .ok () ∧
      spdCheckTangent 1 [(1 : ℝ)] [(3 : ℝ)] = .ok () ∧
      ∃ q w, spdExp 1 [(1 : ℝ)] [(3 : ℝ)] = .ok q ∧ spdLog 1 [(1 : ℝ)] q = .ok w ∧
        1 < |w.getD 0 0 - 3|) := by
  constructor
  · -- sphere: the geodesic wraps three quarters of the great circle
    have hcp : sphereCheckPoint 1 [(1 : ℝ), 0] = .ok () := by
      norm_num [sphereCheckPoint, normSqList, dotList]
    have hdotv : dotList [(1 : ℝ), 0] [(0 : ℝ), 3 * Real.pi / 2] = 0 := by
      rw [dotList_cons, dotList_cons, show dotList [] [] = 0 from rfl]; ring
    have hct : sphereCheckTangent 1 [(1 : ℝ), 0] [(0 : ℝ), 3 * Real.pi / 2]
        = .ok () := by
      simp only [sphereCheckTangent, hcp]
      rw [if_neg (by simp), if_neg (by rw [hdotv]; norm_num)]
    have hnv : normSqList [(0 : ℝ), 3 * Real.pi / 2] = (3 * Real.pi / 2) ^ 2 := by
      rw [normSq_cons, normSq_cons, show normSqList [] = 0 from rfl]; ring
    have hr : Real.sqrt (normSqList [(0 : ℝ), 3 * Real.pi / 2]) = 3 * Real.pi / 2 := by
      rw [hnv, Real.sqrt_sq (by positivity)]
    have h32 : (3 : ℝ) * Real.pi / 2 = Real.pi + Real.pi / 2 := by ring
    have hcos : Real.cos (3 * Real.pi / 2) = 0 := by
      rw [h32, Real.cos_add, Real.cos_pi, Real.sin_pi, Real.cos_pi_div_two,
        Real.sin_pi_div_two]
      ring
    have hsin : Real.sin (3 * Real.pi / 2) = -1 := by
      rw [h32, Real.sin_add, Real.sin_pi, Real.cos_pi, Real.cos_pi_div_two,
        Real.sin_pi_div_two]
      ring
    have hexp : sphereExp 1 [(1 : ℝ), 0] [(0 : ℝ), 3 * Real.pi / 2]
        = .ok [(0 : ℝ), -1] := by
      simp only [sphereExp, hct, hr]
      rw [if_neg (not_lt.2 (by nlinarith [Real.pi_gt_three]))]
      refine congrArg Except.ok ?_
      have h0 : [(1 : ℝ), 0].getD 0 0 * Real.cos (3 * Real.pi / 2) +
          [(0 : ℝ), 3 * Real.pi / 2].getD 0 0 * Real.sin (3 * Real.pi / 2) /
            (3 * Real.pi / 2) = 0 := by
        simp only [List.getD_cons_zero]
        rw [hcos, hsin]
        norm_num
      have h1 : [(1 : ℝ), 0].getD 1 0 * Real.cos (3 * Real.pi / 2) +
          [(0 : ℝ), 3 * Real.pi / 2].getD 1 0 * Real.sin (3 * Real.pi / 2) /
            (3 * Real.pi / 2) = -1 := by
        simp only [List.getD_cons_succ, List.getD_cons_zero]
        rw [hcos, hsin]
        field_simp
        ring
      rw [show List.range 2 = [0, 1] from rfl]
      simp only [List.map_cons, List.map_nil]
      rw [h0, h1]
    have hcpq : sphereCheckPoint 1 [(0 : ℝ), -1] = .ok () := by
      norm_num [sphereCheckPoint, normSqList, dotList]
    have hdotq : dotList [(1 : ℝ), 0] [(0 : ℝ), -1] = 0 := by
      rw [dotList_cons, dotList_cons, show dotList [] [] = 0 from rfl]; ring
    have hclamp : clampR (-1) 1 (dotList [(1 : ℝ), 0] [(0 : ℝ), -1]) = 0 := by
      rw [hdotq, clampR, min_eq_left (by norm_num), max_eq_right (by norm_num)]
    have hlog : sphereLog 1 [(1 : ℝ), 0] [(0 : ℝ), -1]
        = .ok [(0 : ℝ), -(Real.pi / 2)] := by
      simp only [sphereLog, hcp, hcpq, hclamp, Real.arccos_zero, Real.sin_pi_div_two]
      rw [if_neg (by
          rw [abs_of_pos (by positivity)]
          exact not_lt.2 (by nlinarith [Real.pi_gt_three])),
        if_neg (by norm_num)]
      refine congrArg Except.ok ?_
      rw [show List.range 2 = [0, 1] from rfl]
      simp only [List.map_cons, List.map_nil, List.getD_cons_succ, List.getD_cons_zero]
      norm_num
    refine ⟨hcp, hct, hexp, hlog, ?_⟩
    rw [show (-(Real.pi / 2)) - 3 * Real.pi / 2 = -(2 * Real.pi) by ring, abs_neg,
      abs_of_pos (by positivity)]
    nlinarith [Real.pi_gt_three]
  · -- SPD: the log series is applied far outside its convergence region
    have hsymP : isSymTol 1 (matOfVec 1 [(1 : ℝ)]) := by
      intro i j hij
      rw [Subsingleton.elim i j] at hij
      exact absurd hij (lt_irrefl j)
    have hsymV : isSymTol 1 (matOfVec 1 [(3 : ℝ)]) := by
      intro i j hij
      rw [Subsingleton.elim i j] at hij
      exact absurd hij (lt_irrefl j)
    have hlow : lowerSym 1 (matOfVec 1 [(1 : ℝ)]) 0 0 = 1 := by
      simp [lowerSym, matOfVec, List.getD]
    have hcholP : cholOkL 1 (matOfVec 1 [(1 : ℝ)]) :=
      ⟨by rw [hlow]; norm_num, trivial⟩
    have hcpP : spdCheckPoint 1 [(1 : ℝ)] = .ok () := by
      rw [spdCheckPoint, if_neg (by simp), if_neg (not_not_intro hsymP),
        if_neg (not_not_intro hcholP)]
    have hctV : spdCheckTangent 1 [(1 : ℝ)] [(3 : ℝ)] = .ok () := by
      simp only [spdCheckTangent, hcpP]
      rw [if_neg (by simp), if_neg (not_not_intro hsymV)]
    have hL : cholFactor 1 (lowerSym 1 (matOfVec 1 [(1 : ℝ)])) = 1 := by
      apply Matrix.ext; intro i j
      rw [Subsingleton.elim i 0, Subsingleton.elim j 0]
      show cholFactor (0 + 1) (lowerSym 1 (matOfVec 1 [(1 : ℝ)])) 0 0 = _
      rw [cholFactor]
      simp only [Matrix.of_apply, Fin.cases_zero]
      rw [hlow, Real.sqrt_one, Matrix.one_apply_eq]
    have hV : matOfVec 1 [(3 : ℝ)] = m1 3 := by
      apply Matrix.ext; intro i j
      rw [Subsingleton.elim i 0, Subsingleton.elim j 0]
      simp [matOfVec, m1, List.getD]
    have f1 : sexpGo (3 : ℝ) 19 1 1 1 =
        sexpGo 3 18 2 4 3 :=
      (sexpGo_step 3 18 1 1 1
        (not_abs_lt _ _ (Or.inl (by norm_num)))).trans (by norm_num)
    have f2 : sexpGo (3 : ℝ) 18 2 4 3 =
        sexpGo 3 17 3 (17 / 2) (9 / 2) :=
      (sexpGo_step 3 17 2 4 3
        (not_abs_lt _ _ (Or.inl (by norm_num)))).trans (by norm_num)
    have f3 : sexpGo (3 : ℝ) 17 3 (17 / 2) (9 / 2) =
        sexpGo 3 16 4 13 (9 / 2) :=
      (sexpGo_step 3 16 3 (17 / 2) (9 / 2)
        (not_abs_lt _ _ (Or.inl (by norm_num)))).trans (by norm_num)
    have f4 : sexpGo (3 : ℝ) 16 4 13 (9 / 2) =
        sexpGo 3 15 5 (131 / 8) (27 / 8) :=
      (sexpGo_step 3 15 4 13 (9 / 2)
        (not_abs_lt _ _ (Or.inl (by norm_num)))).trans (by norm_num)
    have f5 : sexpGo (3 : ℝ) 15 5 (131 / 8) (27 / 8) =
        sexpGo 3 14 6 (92 / 5) (81 / 40) :=
      (sexpGo_step 3 14 5 (131 / 8) (27 / 8)
        (not_abs_lt _ _ (Or.inl (by norm_num)))).trans (by norm_num)
    have f6 : sexpGo (3 : ℝ) 14 6 (92 / 5) (81 / 40) =
        sexpGo 3 13 7 (1553 / 80) (81 / 80) :=
      (sexpGo_step 3 13 6 (92 / 5) (81 / 40)
        (not_abs_lt _ _ (Or.inl (by norm_num)))).trans (by norm_num)
    have f7 : sexpGo (3 : ℝ) 13 7 (1553 / 80) (81 / 80) =
        sexpGo 3 12 8 (5557 / 280) (243 / 560) :=
      (sexpGo_step 3 12 7 (1553 / 80) (81 / 80)
        (not_abs_lt _ _ (Or.inl (by norm_num)))).trans (by norm_num)
    have f8 : sexpGo (3 : ℝ) 12 8 (5557 / 280) (243 / 560) =
        sexpGo 3 11 9 (89641 / 4480) (729 / 4480) :=
      (sexpGo_step 3 11 8 (5557 / 280) (243 / 560)
        (not_abs_lt _ _ (Or.inl (by norm_num)))).trans (by norm_num)
    have f9 : sexpGo (3 : ℝ) 11 9 (89641 / 4480) (729 / 4480) =
        sexpGo 3 10 10 (22471 / 1120) (243 / 4480) :=
      (sexpGo_step 3 10 9 (89641 / 4480) (729 / 4480)
        (not_abs_lt _ _ (Or.inl (by norm_num)))).trans (by norm_num)
    have f10 : sexpGo (3 : ℝ) 10 10 (22471 / 1120) (243 / 4480) =
        sexpGo 3 9 11 (899569 / 44800) (729 / 44800) :=
      (sexpGo_step 3 9 10 (22471 / 1120) (243 / 4480)
        (not_abs_lt _ _ (Or.inl (by norm_num)))).trans (by norm_num)
    have f11 : sexpGo (3 : ℝ) 9 11 (899569 / 44800) (729 / 44800) =
        sexpGo 3 8 12 (4948723 / 246400) (2187 / 492800) :=
      (sexpGo_step 3 8 11 (899569 / 44800) (729 / 44800)
        (not_abs_lt _ _ (Or.inl (by norm_num)))).trans (by norm_num)
    have f12 : sexpGo (3 : ℝ) 8 12 (4948723 / 246400) (2187 / 492800) =
        sexpGo 3 7 13 (39591971 / 1971200) (2187 / 1971200) :=
      (sexpGo_step 3 7 12 (4948723 / 246400) (2187 / 492800)
        (not_abs_lt _ _ (Or.inl (by norm_num)))).trans (by norm_num)
    have f13 : sexpGo (3 : ℝ) 7 13 (39591971 / 1971200) (2187 / 1971200) =
        sexpGo 3 6 14 (64337773 / 3203200) (6561 / 25625600) :=
      (sexpGo_step 3 6 13 (39591971 / 1971200) (2187 / 1971200)
        (not_abs_lt _ _ (Or.inl (by norm_num)))).trans (by norm_num)
    have f14 : sexpGo (3 : ℝ) 6 14 (64337773 / 3203200) (6561 / 25625600) =
        sexpGo 3 5 15 (7205850259 / 358758400) (19683 / 358758400) :=
      (sexpGo_step 3 5 14 (64337773 / 3203200) (6561 / 25625600)
        (not_abs_lt _ _ (Or.inl (by norm_num)))).trans (by norm_num)
    have f15 : sexpGo (3 : ℝ) 5 15 (7205850259 / 358758400) (19683 / 358758400) =
        sexpGo 3 4 16 (18014635489 / 896896000) (19683 / 1793792000) :=
      (sexpGo_step 3 4 15 (7205850259 / 358758400) (19683 / 358758400)
        (not_abs_lt _ _ (Or.inl (by norm_num)))).trans (by norm_num)
    have f16 : sexpGo (3 : ℝ) 4 16 (18014635489 / 896896000) (19683 / 1793792000) =
        sexpGo 3 3 17 (44343722669 / 2207744000) (59049 / 28700672000) :=
      (sexpGo_step 3 3 16 (18014635489 / 896896000) (19683 / 1793792000)
        (not_abs_lt _ _ (Or.inl (by norm_num)))).trans (by norm_num)
    have f17 : sexpGo (3 : ℝ) 3 17 (44343722669 / 2207744000) (59049 / 28700672000) =
        sexpGo 3 2 18 (2449990721749 / 121977856000) (177147 / 487911424000) :=
      (sexpGo_step 3 2 17 (44343722669 / 2207744000) (59049 / 28700672000)
        (not_abs_lt _ _ (Or.inl (by norm_num)))).trans (by norm_num)
    have f18 : sexpGo (3 : ℝ) 2 18 (2449990721749 / 121977856000) (177147 / 487911424000) =
        sexpGo 3 1 19 (19599925833041 / 975822848000) (59049 / 975822848000) :=
      (sexpGo_step 3 1 18 (2449990721749 / 121977856000) (177147 / 487911424000)
        (not_abs_lt _ _ (Or.inl (by norm_num)))).trans (by norm_num)
    have f19 : sexpGo (3 : ℝ) 1 19 (19599925833041 / 975822848000) (59049 / 975822848000) =
        sexpGo 3 0 20 (10952899735439 / 545312768000) (177147 / 18540634112000) :=
      (sexpGo_step 3 0 19 (19599925833041 / 975822848000) (59049 / 975822848000)
        (not_abs_lt _ _ (Or.inl (by norm_num)))).trans (by norm_num)
    have hE : sexpGo (3 : ℝ) 19 1 1 1 = (10952899735439 / 545312768000) := by
      rw [f1, f2, f3, f4, f5, f6, f7, f8, f9, f10, f11, f12, f13, f14, f15, f16, f17,
        f18, f19]
      rfl
    have hexp : spdExp 1 [(1 : ℝ)] [(3 : ℝ)] = .ok [((10952899735439 / 545312768000) : ℝ)] := by
      simp only [spdExp, hctV]
      rw [if_pos hcholP, hL, if_neg (by rw [Matrix.det_one]; norm_num)]
      rw [inv_one, Matrix.transpose_one, Matrix.one_mul, Matrix.mul_one,
        Matrix.one_mul, Matrix.mul_one, hV, matrixExponential_m1, matrixToVec_one]
      exact congrArg (fun z : ℝ => Except.ok [z]) hE
    have hsymE : isSymTol 1 (matOfVec 1 [((10952899735439 / 545312768000) : ℝ)]) := by
      intro i j hij
      rw [Subsingleton.elim i j] at hij
      exact absurd hij (lt_irrefl j)
    have hlowE : lowerSym 1 (matOfVec 1 [((10952899735439 / 545312768000) : ℝ)]) 0 0 = ((10952899735439 / 545312768000) : ℝ) := by
      simp [lowerSym, matOfVec, List.getD]
    have hcholE : cholOkL 1 (matOfVec 1 [((10952899735439 / 545312768000) : ℝ)]) :=
      ⟨by rw [hlowE]; norm_num, trivial⟩
    have hcpE : spdCheckPoint 1 [((10952899735439 / 545312768000) : ℝ)] = .ok () := by
      rw [spdCheckPoint, if_neg (by simp), if_neg (not_not_intro hsymE),
        if_neg (not_not_intro hcholE)]
    have hVE : matOfVec 1 [((10952899735439 / 545312768000) : ℝ)] = m1 (10952899735439 / 545312768000) := by
      apply Matrix.ext; intro i j
      rw [Subsingleton.elim i 0, Subsingleton.elim j 0]
      simp [matOfVec, m1, List.getD]
    have hA : ((10952899735439 / 545312768000) : ℝ) - 1 = (10407586967439 / 545312768000) := by norm_num
    have g1 : slogGo ((10407586967439 / 545312768000) : ℝ) 49 1 0 (10407586967439 / 545312768000) =
        slogGo (10407586967439 / 545312768000) 48 2 (10407586967439 / 545312768000) (108317866484806120446218721 / 297366014943821824000000) :=
      (slogGo_step (10407586967439 / 545312768000) 48 1 0 (10407586967439 / 545312768000)
        (not_abs_lt _ _ (Or.inl (by norm_num)))).trans (by norm_num)
    have g2 : slogGo ((10407586967439 / 545312768000) : ℝ) 48 2 (10407586967439 / 545312768000) (108317866484806120446218721 / 297366014943821824000000) =
        slogGo (10407586967439 / 545312768000) 47 3 (-96967086369976346523914721 / 594732029887643648000000) (1127327615568065826064728071986899225519 / 162157484718144843344248832000000000) :=
      (slogGo_step (10407586967439 / 545312768000) 47 2 (10407586967439 / 545312768000) (108317866484806120446218721 / 297366014943821824000000)
        (not_abs_lt _ _ (Or.inl (by norm_num)))).trans (by norm_num)
    have g3 : slogGo ((10407586967439 / 545312768000) : ℝ) 47 3 (-96967086369976346523914721 / 594732029887643648000000) (1127327615568065826064728071986899225519 / 162157484718144843344248832000000000) =
        slogGo (10407586967439 / 545312768000) 46 4 (349337176719368505212834466643404211173 / 162157484718144843344248832000000000) (11732760199820285015983733678052305797856186970875841 / 88426546843569264348978707458686976000000000000) :=
      (slogGo_step (10407586967439 / 545312768000) 46 3 (-96967086369976346523914721 / 594732029887643648000000) (1127327615568065826064728071986899225519 / 162157484718144843344248832000000000)
        (not_abs_lt _ _ (Or.inl (by norm_num)))).trans (by norm_num)
    have g4 : slogGo ((10407586967439 / 545312768000) : ℝ) 46 4 (349337176719368505212834466643404211173 / 162157484718144843344248832000000000) (11732760199820285015983733678052305797856186970875841 / 88426546843569264348978707458686976000000000000) =
        slogGo (10407586967439 / 545312768000) 45 5 (-10970768108611709020825200909527832120505766343419841 / 353706187374277057395914829834747904000000000000) (122109722147736595802298798433713010850731550303661477446978741199 / 48220125023948418541865296937358840528109568000000000000000) :=
      (slogGo_step (10407586967439 / 545312768000) 45 4 (349337176719368505212834466643404211173 / 162157484718144843344248832000000000) (11732760199820285015983733678052305797856186970875841 / 88426546843569264348978707458686976000000000000)
        (not_abs_lt _ _ (Or.inl (by norm_num)))).trans (by norm_num)
    have g5 : slogGo ((10407586967439 / 545312768000) : ℝ) 45 5 (-10970768108611709020825200909527832120505766343419841 / 353706187374277057395914829834747904000000000000) (122109722147736595802298798433713010850731550303661477446978741199 / 48220125023948418541865296937358840528109568000000000000000) =
        slogGo (10407586967439 / 545312768000) 44 6 (114631597242245126198102848493549586217391164047797087344691381199 / 241100625119742092709326484686794202640547840000000000000000) (1270867552822380811043808248775680717660803277119563235640447769028002020819361 / 26295049850115378404287088956053071937654010333364224000000000000000000) :=
      (slogGo_step (10407586967439 / 545312768000) 44 5 (-10970768108611709020825200909527832120505766343419841 / 353706187374277057395914829834747904000000000000) (122109722147736595802298798433713010850731550303661477446978741199 / 48220125023948418541865296937358840528109568000000000000000)
        (not_abs_lt _ _ (Or.inl (by norm_num)))).trans (by norm_num)
    have g6 : slogGo ((10407586967439 / 545312768000) : ℝ) 44 6 (114631597242245126198102848493549586217391164047797087344691381199 / 241100625119742092709326484686794202640547840000000000000000) (1270867552822380811043808248775680717660803277119563235640447769028002020819361 / 26295049850115378404287088956053071937654010333364224000000000000000000) =
        slogGo (10407586967439 / 545312768000) 43 7 (-398618488170488327827297370660946043884750335544262552945907352134386067406987 / 52590099700230756808574177912106143875308020666728448000000000000000000) (13226664580095305450619453572053100164892306748753548270639362359426216660532537092007786479 / 14339026418464402117009215545287531013225231801187447741612032000000000000000000000) :=
      (slogGo_step (10407586967439 / 545312768000) 43 6 (114631597242245126198102848493549586217391164047797087344691381199 / 241100625119742092709326484686794202640547840000000000000000) (1270867552822380811043808248775680717660803277119563235640447769028002020819361 / 26295049850115378404287088956053071937654010333364224000000000000000000)
        (not_abs_lt _ _ (Or.inl (by norm_num)))).trans (by norm_num)
    have g7 : slogGo ((10407586967439 / 545312768000) : ℝ) 43 7 (-398618488170488327827297370660946043884750335544262552945907352134386067406987 / 52590099700230756808574177912106143875308020666728448000000000000000000) (13226664580095305450619453572053100164892306748753548270639362359426216660532537092007786479 / 14339026418464402117009215545287531013225231801187447741612032000000000000000000000) =
        slogGo (10407586967439 / 545312768000) 42 8 (12465863451034520589762271229013251496479257374127551173209484835802381950138351769722730479 / 100373184929250814819064508817012717092576622608312134191284224000000000000000000000) (137657661906486934376412926165983380826210033649281295139214424139965342190064805432198102204750637457281 / 7819254186677949427891355210509372892707695760947152814833805952024576000000000000000000000000) :=
      (slogGo_step (10407586967439 / 545312768000) 42 7 (-398618488170488327827297370660946043884750335544262552945907352134386067406987 / 52590099700230756808574177912106143875308020666728448000000000000000000) (13226664580095305450619453572053100164892306748753548270639362359426216660532537092007786479 / 14339026418464402117009215545287531013225231801187447741612032000000000000000000000)
        (not_abs_lt _ _ (Or.inl (by norm_num)))).trans (by norm_num)
    have g8 : slogGo ((10407586967439 / 545312768000) : ℝ) 42 8 (12465863451034520589762271229013251496479257374127551173209484835802381950138351769722730479 / 100373184929250814819064508817012717092576622608312134191284224000000000000000000000) (137657661906486934376412926165983380826210033649281295139214424139965342190064805432198102204750637457281 / 7819254186677949427891355210509372892707695760947152814833805952024576000000000000000000000000) =
        slogGo (10407586967439 / 545312768000) 41 9 (-129888753901922743649148632925000548732238323828401401978843553717490573730381168190477872776154687889281 / 62554033493423595423130841684074983141661566087577222518670447616196608000000000000000000000000) (1432684088026077504548687206766667187612327942395597660979802979863628611406458491122974220253031666753225284700473359 / 4263939144232941327087451313114088822066600590303958203176014183673396742586368000000000000000000000000000) :=
      (slogGo_step (10407586967439 / 545312768000) 41 8 (12465863451034520589762271229013251496479257374127551173209484835802381950138351769722730479 / 100373184929250814819064508817012717092576622608312134191284224000000000000000000000) (137657661906486934376412926165983380826210033649281295139214424139965342190064805432198102204750637457281 / 7819254186677949427891355210509372892707695760947152814833805952024576000000000000000000000000)
        (not_abs_lt _ _ (Or.inl (by norm_num)))).trans (by norm_num)
    have g9 : slogGo ((10407586967439 / 545312768000) : ℝ) 41 9 (-129888753901922743649148632925000548732238323828401401978843553717490573730381168190477872776154687889281 / 62554033493423595423130841684074983141661566087577222518670447616196608000000000000000000000000) (1432684088026077504548687206766667187612327942395597660979802979863628611406458491122974220253031666753225284700473359 / 4263939144232941327087451313114088822066600590303958203176014183673396742586368000000000000000000000000000) =
        slogGo (10407586967439 / 545312768000) 40 10 (150333371401495352911614620796661189308643911088081499417846515798045216920531496726313700022325034983112266400632151 / 4263939144232941327087451313114088822066600590303958203176014183673396742586368000000000000000000000000000) (14910784242997433307116248214601273315591175037168160941300749316626598081562297892245386966585425499830235579968176929842619957601 / 2325180457325216471855651453619478475358997448249085409130218685706200385661955813146624000000000000000000000000000000) :=
      (slogGo_step (10407586967439 / 545312768000) 40 9 (-129888753901922743649148632925000548732238323828401401978843553717490573730381168190477872776154687889281 / 62554033493423595423130841684074983141661566087577222518670447616196608000000000000000000000000) (1432684088026077504548687206766667187612327942395597660979802979863628611406458491122974220253031666753225284700473359 / 4263939144232941327087451313114088822066600590303958203176014183673396742586368000000000000000000000000000)
        (not_abs_lt _ _ (Or.inl (by norm_num)))).trans (by norm_num)
    have g10 : slogGo ((10407586967439 / 545312768000) : ℝ) 40 10 (150333371401495352911614620796661189308643911088081499417846515798045216920531496726313700022325034983112266400632151 / 4263939144232941327087451313114088822066600590303958203176014183673396742586368000000000000000000000000000) (14910784242997433307116248214601273315591175037168160941300749316626598081562297892245386966585425499830235579968176929842619957601 / 2325180457325216471855651453619478475358997448249085409130218685706200385661955813146624000000000000000000000000000000) =
        slogGo (10407586967439 / 545312768000) 39 11 (-14090997174180218604762553932442296532590488862350284798729386595336720419281343227135296344630468233606857747511355777726580277601 / 23251804573252164718556514536194784753589974482490854091302186857062003856619558131466240000000000000000000000000000000) (155185283761714882184270646494045264227161550202591618241356953268288167549214051099710508534001863802513622329041957909386154504063170347553839 / 1267950591283519670466799390616461426114434692209645517921212023947770167067988636760676323295232000000000000000000000000000000000) :=
      (slogGo_step (10407586967439 / 545312768000) 39 10 (150333371401495352911614620796661189308643911088081499417846515798045216920531496726313700022325034983112266400632151 / 4263939144232941327087451313114088822066600590303958203176014183673396742586368000000000000000000000000000) (14910784242997433307116248214601273315591175037168160941300749316626598081562297892245386966585425499830235579968176929842619957601 / 2325180457325216471855651453619478475358997448249085409130218685706200385661955813146624000000000000000000000000000000)
        (not_abs_lt _ _ (Or.inl (by norm_num)))).trans (by norm_num)
    have g11 : slogGo ((10407586967439 / 545312768000) : ℝ) 39 11 (-14090997174180218604762553932442296532590488862350284798729386595336720419281343227135296344630468233606857747511355777726580277601 / 23251804573252164718556514536194784753589974482490854091302186857062003856619558131466240000000000000000000000000000000) (155185283761714882184270646494045264227161550202591618241356953268288167549214051099710508534001863802513622329041957909386154504063170347553839 / 1267950591283519670466799390616461426114434692209645517921212023947770167067988636760676323295232000000000000000000000000000000000) =
        slogGo (10407586967439 / 545312768000) 38 12 (146732883021489249732241663599630931132451456341390072973255164112318488354945578269168587257792068975948973484756529125742792841875079667029039 / 13947456504118716375134793296781075687258781614306100697133332263425471837747875004367439556247552000000000000000000000000000000000) (1615104336816746880962348506130984548889563748287732656171123807637819689470290994872724074524192987311176655801000746936339328108956722081185926889792448321 / 691429646620052784284698227797775806639689866764069833676409734693840837231667327704510959408185843122176000000000000000000000000000000000000) :=
      (slogGo_step (10407586967439 / 545312768000) 38 11 (-14090997174180218604762553932442296532590488862350284798729386595336720419281343227135296344630468233606857747511355777726580277601 / 23251804573252164718556514536194784753589974482490854091302186857062003856619558131466240000000000000000000000000000000) (155185283761714882184270646494045264227161550202591618241356953268288167549214051099710508534001863802513622329041957909386154504063170347553839 / 1267950591283519670466799390616461426114434692209645517921212023947770167067988636760676323295232000000000000000000000000000000000)
        (not_abs_lt _ _ (Or.inl (by norm_num)))).trans (by norm_num)
    have g12 : slogGo ((10407586967439 / 545312768000) : ℝ) 38 12 (146732883021489249732241663599630931132451456341390072973255164112318488354945578269168587257792068975948973484756529125742792841875079667029039 / 13947456504118716375134793296781075687258781614306100697133332263425471837747875004367439556247552000000000000000000000000000000000) (1615104336816746880962348506130984548889563748287732656171123807637819689470290994872724074524192987311176655801000746936339328108956722081185926889792448321 / 691429646620052784284698227797775806639689866764069833676409734693840837231667327704510959408185843122176000000000000000000000000000000000000) =
        slogGo (10407586967439 / 545312768000) 37 13 (-509271634236951321683062122496107727144671136114157707089489355208103778508614159584730701916720284484917675512673756116853198186384306389444476141396288107 / 2765718586480211137138792911191103226558759467056279334705638938775363348926669310818043837632743372488704000000000000000000000000000000000000) (16809338846908183909504190610863225380092900205957593443845194898173910607979990535612284648554253529648719257778746871268549697821367701739023769595659352385279517219919 / 377045414475642828104395690645099669362122059906666123947382608728043979502237967725709957361213463971367556743168000000000000000000000000000000000000000) :=
      (slogGo_step (10407586967439 / 545312768000) 37 12 (146732883021489249732241663599630931132451456341390072973255164112318488354945578269168587257792068975948973484756529125742792841875079667029039 / 13947456504118716375134793296781075687258781614306100697133332263425471837747875004367439556247552000000000000000000000000000000000) (1615104336816746880962348506130984548889563748287732656171123807637819689470290994872724074524192987311176655801000746936339328108956722081185926889792448321 / 691429646620052784284698227797775806639689866764069833676409734693840837231667327704510959408185843122176000000000000000000000000000000000000)
        (not_abs_lt _ _ (Or.inl (by norm_num)))).trans (by norm_num)
    have g13 : slogGo ((10407586967439 / 545312768000) : ℝ) 37 13 (-509271634236951321683062122496107727144671136114157707089489355208103778508614159584730701916720284484917675512673756116853198186384306389444476141396288107 / 2765718586480211137138792911191103226558759467056279334705638938775363348926669310818043837632743372488704000000000000000000000000000000000000) (16809338846908183909504190610863225380092900205957593443845194898173910607979990535612284648554253529648719257778746871268549697821367701739023769595659352385279517219919 / 377045414475642828104395690645099669362122059906666123947382608728043979502237967725709957361213463971367556743168000000000000000000000000000000000000000) =
        slogGo (10407586967439 / 545312768000) 36 14 (15906773792186868556902381280476725764867689806484216108310311240189945173638168813189069152364687187252511044149435549924175713725190832144812596477991352314480154147919 / 4901590388183356765357143978386295701707586778786659611315973913464571733529093580434229445695775031627778237661184000000000000000000000000000000000000000) (174944655914347722855987614369776212763607445374616648471263280309657724703333942452124978918521217388301075935015787061171454468524348104077387440810426570509189921767218765255217441 / 205607678629420059172956207032951006335743574841565925701578296720550621688100648375201561613805289877094715113014007169024000000000000000000000000000000000000000000) :=
      (slogGo_step (10407586967439 / 545312768000) 36 13 (-509271634236951321683062122496107727144671136114157707089489355208103778508614159584730701916720284484917675512673756116853198186384306389444476141396288107 / 2765718586480211137138792911191103226558759467056279334705638938775363348926669310818043837632743372488704000000000000000000000000000000000000) (16809338846908183909504190610863225380092900205957593443845194898173910607979990535612284648554253529648719257778746871268549697821367701739023769595659352385279517219919 / 377045414475642828104395690645099669362122059906666123947382608728043979502237967725709957361213463971367556743168000000000000000000000000000000000000000)
        (not_abs_lt _ _ (Or.inl (by norm_num)))).trans (by norm_num)
    have g14 : slogGo ((10407586967439 / 545312768000) : ℝ) 36 14 (15906773792186868556902381280476725764867689806484216108310311240189945173638168813189069152364687187252511044149435549924175713725190832144812596477991352314480154147919 / 4901590388183356765357143978386295701707586778786659611315973913464571733529093580434229445695775031627778237661184000000000000000000000000000000000000000) (174944655914347722855987614369776212763607445374616648471263280309657724703333942452124978918521217388301075935015787061171454468524348104077387440810426570509189921767218765255217441 / 205607678629420059172956207032951006335743574841565925701578296720550621688100648375201561613805289877094715113014007169024000000000000000000000000000000000000000000) =
        slogGo (10407586967439 / 545312768000) 35 15 (-165603245464198346477200503401632053716696919286158949141981713328533656558897928104155772234254169817725136275469649778468795831602961053610344681304770630836158128632406651515441441 / 2878507500811880828421386898461314088700410047781922959822096154087708703633409077252821862593274058279326011582196100366336000000000000000000000000000000000000000000) (1820751720917265532648503363562083393373471657788248331770196898855346039909232022058227552784034042748686870606811816692567191798902185561849165906078052579457728847965790004763842505649731903599 / 112120492355463498702328539999919580473329866135069476398810002953408781996858997228075866121546709635920898896449101072112321298432000000000000000000000000000000000000000000000) :=
      (slogGo_step (10407586967439 / 545312768000) 35 14 (15906773792186868556902381280476725764867689806484216108310311240189945173638168813189069152364687187252511044149435549924175713725190832144812596477991352314480154147919 / 4901590388183356765357143978386295701707586778786659611315973913464571733529093580434229445695775031627778237661184000000000000000000000000000000000000000) (174944655914347722855987614369776212763607445374616648471263280309657724703333942452124978918521217388301075935015787061171454468524348104077387440810426570509189921767218765255217441 / 205607678629420059172956207032951006335743574841565925701578296720550621688100648375201561613805289877094715113014007169024000000000000000000000000000000000000000000)
        (not_abs_lt _ _ (Or.inl (by norm_num)))).trans (by norm_num)
    have g15 : slogGo ((10407586967439 / 545312768000) : ℝ) 35 15 (-165603245464198346477200503401632053716696919286158949141981713328533656558897928104155772234254169817725136275469649778468795831602961053610344681304770630836158128632406651515441441 / 2878507500811880828421386898461314088700410047781922959822096154087708703633409077252821862593274058279326011582196100366336000000000000000000000000000000000000000000) (1820751720917265532648503363562083393373471657788248331770196898855346039909232022058227552784034042748686870606811816692567191798902185561849165906078052579457728847965790004763842505649731903599 / 112120492355463498702328539999919580473329866135069476398810002953408781996858997228075866121546709635920898896449101072112321298432000000000000000000000000000000000000000000000) =
        slogGo (10407586967439 / 545312768000) 34 16 (574665253100803232828606387115597777220998879427151377026523273511103972241424727279906026001735626478545951086001475128229276127053726412590036212170166696376491207556368909097651037502189674533 / 560602461777317493511642699999597902366649330675347381994050014767043909984294986140379330607733548179604494482245505360561606492160000000000000000000000000000000000000000000000) (18949631881560664048353556167497094796844632398831811441260034301197833101831881967272418451158979164667745275658143581027545738666080668561035010965570469943473255767890623479696016986732100486921285099912961 / 61140736035880640400331184192754866205310259479184198047345754616611517946215747084146377868738060672856297606270804676745337534153307979776000000000000000000000000000000000000000000000000) :=
      (slogGo_step (10407586967439 / 545312768000) 34 15 (-165603245464198346477200503401632053716696919286158949141981713328533656558897928104155772234254169817725136275469649778468795831602961053610344681304770630836158128632406651515441441 / 2878507500811880828421386898461314088700410047781922959822096154087708703633409077252821862593274058279326011582196100366336000000000000000000000000000000000000000000) (1820751720917265532648503363562083393373471657788248331770196898855346039909232022058227552784034042748686870606811816692567191798902185561849165906078052579457728847965790004763842505649731903599 / 112120492355463498702328539999919580473329866135069476398810002953408781996858997228075866121546709635920898896449101072112321298432000000000000000000000000000000000000000000000)
        (not_abs_lt _ _ (Or.inl (by norm_num)))).trans (by norm_num)
    have g16 : slogGo ((10407586967439 / 545312768000) : ℝ) 34 16 (574665253100803232828606387115597777220998879427151377026523273511103972241424727279906026001735626478545951086001475128229276127053726412590036212170166696376491207556368909097651037502189674533 / 560602461777317493511642699999597902366649330675347381994050014767043909984294986140379330607733548179604494482245505360561606492160000000000000000000000000000000000000000000000) (18949631881560664048353556167497094796844632398831811441260034301197833101831881967272418451158979164667745275658143581027545738666080668561035010965570469943473255767890623479696016986732100486921285099912961 / 61140736035880640400331184192754866205310259479184198047345754616611517946215747084146377868738060672856297606270804676745337534153307979776000000000000000000000000000000000000000000000000) =
        slogGo (10407586967439 / 545312768000) 33 17 (-17946840522066841347818785548167539085257335609502793291623730250974597307147829223923136320538542597374209323012063355573920581854944709409789626338118473501161319798225900132978639484145249742983335220412161 / 978251776574090246405298947084077859284964151666947168757532073865784287139451953346342045899808970765700761700332874827925400546452927676416000000000000000000000000000000000000000000000000) (197219941808297343165515060494172443975534933493802700404146584273832675337492527319370938994485109299279364469504657657330918529808581710360884037654267678517642919748140789290892439220510172405391712874503869896841076879 / 33340824005283419334317226168869001635887393895392173419058308503033205631932584167643790232775492532467210113907306655863345241843434910808138579968000000000000000000000000000000000000000000000000000) :=
      (slogGo_step (10407586967439 / 545312768000) 33 16 (574665253100803232828606387115597777220998879427151377026523273511103972241424727279906026001735626478545951086001475128229276127053726412590036212170166696376491207556368909097651037502189674533 / 560602461777317493511642699999597902366649330675347381994050014767043909984294986140379330607733548179604494482245505360561606492160000000000000000000000000000000000000000000000) (18949631881560664048353556167497094796844632398831811441260034301197833101831881967272418451158979164667745275658143581027545738666080668561035010965570469943473255767890623479696016986732100486921285099912961 / 61140736035880640400331184192754866205310259479184198047345754616611517946215747084146377868738060672856297606270804676745337534153307979776000000000000000000000000000000000000000000000000)
        (not_abs_lt _ _ (Or.inl (by norm_num)))).trans (by norm_num)
    have g17 : slogGo ((10407586967439 / 545312768000) : ℝ) 33 17 (-17946840522066841347818785548167539085257335609502793291623730250974597307147829223923136320538542597374209323012063355573920581854944709409789626338118473501161319798225900132978639484145249742983335220412161 / 978251776574090246405298947084077859284964151666947168757532073865784287139451953346342045899808970765700761700332874827925400546452927676416000000000000000000000000000000000000000000000000) (197219941808297343165515060494172443975534933493802700404146584273832675337492527319370938994485109299279364469504657657330918529808581710360884037654267678517642919748140789290892439220510172405391712874503869896841076879 / 33340824005283419334317226168869001635887393895392173419058308503033205631932584167643790232775492532467210113907306655863345241843434910808138579968000000000000000000000000000000000000000000000000000) =
        slogGo (10407586967439 / 545312768000) 32 18 (186821635446233081683094403240148453530059451215684581633460218743835614710043515321376570627903763390165572375652598643647824239886123081762225508503384771777236681077330536756910904864663500513281836073406846430083700879 / 566794008089818128683392844870773027810085696221666948123991244551564495742853930849944433957183373051942571936424213149676869111338393483738355859456000000000000000000000000000000000000000000000000000) (2052583696083113395643983601091026818927256743588572595799381008723328461477442098262135650810759150637329379127243184982346564408542869248092472947737321635399789841999822242874419128728923090235081797128459544881334025080838668742881 / 18181177025721948021701243992227990711462282901402608532682710163186973759062346661850811289846168155443024216452388687933664223569272913840619165969939431424000000000000000000000000000000000000000000000000000000) :=
      (slogGo_step (10407586967439 / 545312768000) 32 17 (-17946840522066841347818785548167539085257335609502793291623730250974597307147829223923136320538542597374209323012063355573920581854944709409789626338118473501161319798225900132978639484145249742983335220412161 / 978251776574090246405298947084077859284964151666947168757532073865784287139451953346342045899808970765700761700332874827925400546452927676416000000000000000000000000000000000000000000000000) (197219941808297343165515060494172443975534933493802700404146584273832675337492527319370938994485109299279364469504657657330918529808581710360884037654267678517642919748140789290892439220510172405391712874503869896841076879 / 33340824005283419334317226168869001635887393895392173419058308503033205631932584167643790232775492532467210113907306655863345241843434910808138579968000000000000000000000000000000000000000000000000000)
        (not_abs_lt _ _ (Or.inl (by norm_num)))).trans (by norm_num)
    have g18 : slogGo ((10407586967439 / 545312768000) : ℝ) 32 18 (186821635446233081683094403240148453530059451215684581633460218743835614710043515321376570627903763390165572375652598643647824239886123081762225508503384771777236681077330536756910904864663500513281836073406846430083700879 / 566794008089818128683392844870773027810085696221666948123991244551564495742853930849944433957183373051942571936424213149676869111338393483738355859456000000000000000000000000000000000000000000000000000) (2052583696083113395643983601091026818927256743588572595799381008723328461477442098262135650810759150637329379127243184982346564408542869248092472947737321635399789841999822242874419128728923090235081797128459544881334025080838668742881 / 18181177025721948021701243992227990711462282901402608532682710163186973759062346661850811289846168155443024216452388687933664223569272913840619165969939431424000000000000000000000000000000000000000000000000000000) =
        slogGo (10407586967439 / 545312768000) 31 19 (-3673350090750936304547079075277330280789581667906665276947902487653003018801693269903333472488090108255583433850516440665577784798165824125832438770406119847888038829211950673552006919165697199403775783656022329764195657912227772592553 / 618160018874546232737842295735751684189717618647688690111212145548357107808119786502927583854769717285062823359381215389744583601355279070581051642977940668416000000000000000000000000000000000000000000000000000000) (21362443324932384167867925079364406502193746979144354668610380102612154867362329140958733430101197470254982257020685604098699987022826971222582630661583616416130662792076846931894435106476505227387999514586294493033117301207893287248526745210051759 / 9914427969394442674066029430445216101945786816562927541377627144829220362097653342749425907511664251038089801764683215628994638137131052393853548228919076142167621632000000000000000000000000000000000000000000000000000000000) :=
      (slogGo_step (10407586967439 / 545312768000) 31 18 (186821635446233081683094403240148453530059451215684581633460218743835614710043515321376570627903763390165572375652598643647824239886123081762225508503384771777236681077330536756910904864663500513281836073406846430083700879 / 566794008089818128683392844870773027810085696221666948123991244551564495742853930849944433957183373051942571936424213149676869111338393483738355859456000000000000000000000000000000000000000000000000000) (2052583696083113395643983601091026818927256743588572595799381008723328461477442098262135650810759150637329379127243184982346564408542869248092472947737321635399789841999822242874419128728923090235081797128459544881334025080838668742881 / 18181177025721948021701243992227990711462282901402608532682710163186973759062346661850811289846168155443024216452388687933664223569272913840619165969939431424000000000000000000000000000000000000000000000000000000)
        (not_abs_lt _ _ (Or.inl (by norm_num)))).trans (by norm_num)
    have g19 : slogGo ((10407586967439 / 545312768000) : ℝ) 31 19 (-3673350090750936304547079075277330280789581667906665276947902487653003018801693269903333472488090108255583433850516440665577784798165824125832438770406119847888038829211950673552006919165697199403775783656022329764195657912227772592553 / 618160018874546232737842295735751684189717618647688690111212145548357107808119786502927583854769717285062823359381215389744583601355279070581051642977940668416000000000000000000000000000000000000000000000000000000) (21362443324932384167867925079364406502193746979144354668610380102612154867362329140958733430101197470254982257020685604098699987022826971222582630661583616416130662792076846931894435106476505227387999514586294493033117301207893287248526745210051759 / 9914427969394442674066029430445216101945786816562927541377627144829220362097653342749425907511664251038089801764683215628994638137131052393853548228919076142167621632000000000000000000000000000000000000000000000000000000000) =
        slogGo (10407586967439 / 545312768000) 30 20 (344131851818556310242924268919078477778151650599015745492067962419713256198056075095367868562779800486655115758555940094033786929985895305451845480091155040939501396088840441077701358602169302256257142986717076764684532066192054619895218348712191903 / 3202360234114404983723327506033804800928489141749825595864973567779838176957542029708064568126267553085303005969992678648165268118293329923214696077940861593920141787136000000000000000000000000000000000000000000000000000000000) (222331486741220540241384673883019456865762672423501461384499367656382342518392526420978482424829312258333549194426668953454232746781172411495256083320786008653683942250572183956560195237093790108013900995033976749418727205875022029124819396501167605511037675201 / 5406464159127102818412268323485544264910227194877838263772068391618759042937433630639142172036097625020227623232870688957787927179717297759645304571333359059088187272122597376000000000000000000000000000000000000000000000000000000000000) :=
      (slogGo_step (10407586967439 / 545312768000) 30 19 (-3673350090750936304547079075277330280789581667906665276947902487653003018801693269903333472488090108255583433850516440665577784798165824125832438770406119847888038829211950673552006919165697199403775783656022329764195657912227772592553 / 618160018874546232737842295735751684189717618647688690111212145548357107808119786502927583854769717285062823359381215389744583601355279070581051642977940668416000000000000000000000000000000000000000000000000000000) (21362443324932384167867925079364406502193746979144354668610380102612154867362329140958733430101197470254982257020685604098699987022826971222582630661583616416130662792076846931894435106476505227387999514586294493033117301207893287248526745210051759 / 9914427969394442674066029430445216101945786816562927541377627144829220362097653342749425907511664251038089801764683215628994638137131052393853548228919076142167621632000000000000000000000000000000000000000000000000000000000)
        (not_abs_lt _ _ (Or.inl (by norm_num)))).trans (by norm_num)
    have g20 : slogGo ((10407586967439 / 545312768000) : ℝ) 30 20 (344131851818556310242924268919078477778151650599015745492067962419713256198056075095367868562779800486655115758555940094033786929985895305451845480091155040939501396088840441077701358602169302256257142986717076764684532066192054619895218348712191903 / 3202360234114404983723327506033804800928489141749825595864973567779838176957542029708064568126267553085303005969992678648165268118293329923214696077940861593920141787136000000000000000000000000000000000000000000000000000000000) (222331486741220540241384673883019456865762672423501461384499367656382342518392526420978482424829312258333549194426668953454232746781172411495256083320786008653683942250572183956560195237093790108013900995033976749418727205875022029124819396501167605511037675201 / 5406464159127102818412268323485544264910227194877838263772068391618759042937433630639142172036097625020227623232870688957787927179717297759645304571333359059088187272122597376000000000000000000000000000000000000000000000000000000000000) =
        slogGo (10407586967439 / 545312768000) 29 21 (-3582098966524809420627291260749605448058565045397505754852422826336169492808825460178243762922909219151811759215086467602911699183371688079657088838077786728489602990005969280067394654886689639185722392745200261199677723733770165522087983016624444449506464158417 / 1838197814103214958260171229985085050069477246258465009682503253150378074598727434417308338492273192506877391899176034245647895241103881238279403554253342080089983672521683107840000000000000000000000000000000000000000000000000000000000000) (2313934283859263718968329983104426453718175799593993927204686536188101424764503864134753128170901661243905651816176776933547110036950749366694922883743295964437855271703202960687023570857482730593883172108162050676251285886588026344536499438040153086463285661887252244780239 / 2948213935706392901728995404638621551084721263147709405473860735718933494429242783940120226978536591818006381215177823981638369727354073098792379733996847479249254957463542810456096768000000000000000000000000000000000000000000000000000000000000000) :=
      (slogGo_step (10407586967439 / 545312768000) 29 20 (344131851818556310242924268919078477778151650599015745492067962419713256198056075095367868562779800486655115758555940094033786929985895305451845480091155040939501396088840441077701358602169302256257142986717076764684532066192054619895218348712191903 / 3202360234114404983723327506033804800928489141749825595864973567779838176957542029708064568126267553085303005969992678648165268118293329923214696077940861593920141787136000000000000000000000000000000000000000000000000000000000) (222331486741220540241384673883019456865762672423501461384499367656382342518392526420978482424829312258333549194426668953454232746781172411495256083320786008653683942250572183956560195237093790108013900995033976749418727205875022029124819396501167605511037675201 / 5406464159127102818412268323485544264910227194877838263772068391618759042937433630639142172036097625020227623232870688957787927179717297759645304571333359059088187272122597376000000000000000000000000000000000000000000000000000000000000)
        (not_abs_lt _ _ (Or.inl (by norm_num)))).trans (by norm_num)
    have g21 : slogGo ((10407586967439 / 545312768000) : ℝ) 29 21 (-3582098966524809420627291260749605448058565045397505754852422826336169492808825460178243762922909219151811759215086467602911699183371688079657088838077786728489602990005969280067394654886689639185722392745200261199677723733770165522087983016624444449506464158417 / 1838197814103214958260171229985085050069477246258465009682503253150378074598727434417308338492273192506877391899176034245647895241103881238279403554253342080089983672521683107840000000000000000000000000000000000000000000000000000000000000) (2313934283859263718968329983104426453718175799593993927204686536188101424764503864134753128170901661243905651816176776933547110036950749366694922883743295964437855271703202960687023570857482730593883172108162050676251285886588026344536499438040153086463285661887252244780239 / 2948213935706392901728995404638621551084721263147709405473860735718933494429242783940120226978536591818006381215177823981638369727354073098792379733996847479249254957463542810456096768000000000000000000000000000000000000000000000000000000000000000) =
        slogGo (10407586967439 / 545312768000) 28 22 (12428616769262540299445042664782197918776952481844483087610480595371725447374597382815399235060063158130861114703616827804006820636610532231428585612755408210401964419989385771603685529494102564639887334855971058229898878940978289539539709710144504453230706579252721718198421 / 350837458349060755305750453151995964579081830314577419251389427550553085837079891288874307010445854426342759364606161053814965997555134698756293188345624850030661339938161594444275515392000000000000000000000000000000000000000000000000000000000000000) (24082472296203968694364958590540055822310158356051534264274405669394515638239757986061612584869113301467747299305755884528952732574910688835918962241895854399070424935598717490079785981819741628962905590684239985497629559657118897585862866772401044538659743183613117491784812931003637921 / 1607698701936227148537390469962766757726462754515533808758585349441408093855122962654412907226454065473563211982111822807644000571030854917576810050052924602183233782792166789056313471033933824000000000000000000000000000000000000000000000000000000000000000000) :=
      (slogGo_step (10407586967439 / 545312768000) 28 21 (-3582098966524809420627291260749605448058565045397505754852422826336169492808825460178243762922909219151811759215086467602911699183371688079657088838077786728489602990005969280067394654886689639185722392745200261199677723733770165522087983016624444449506464158417 / 1838197814103214958260171229985085050069477246258465009682503253150378074598727434417308338492273192506877391899176034245647895241103881238279403554253342080089983672521683107840000000000000000000000000000000000000000000000000000000000000) (2313934283859263718968329983104426453718175799593993927204686536188101424764503864134753128170901661243905651816176776933547110036950749366694922883743295964437855271703202960687023570857482730593883172108162050676251285886588026344536499438040153086463285661887252244780239 / 2948213935706392901728995404638621551084721263147709405473860735718933494429242783940120226978536591818006381215177823981638369727354073098792379733996847479249254957463542810456096768000000000000000000000000000000000000000000000000000000000000000)
        (not_abs_lt _ _ (Or.inl (by norm_num)))).trans (by norm_num)
    have g22 : slogGo ((10407586967439 / 545312768000) : ℝ) 28 22 (12428616769262540299445042664782197918776952481844483087610480595371725447374597382815399235060063158130861114703616827804006820636610532231428585612755408210401964419989385771603685529494102564639887334855971058229898878940978289539539709710144504453230706579252721718198421 / 350837458349060755305750453151995964579081830314577419251389427550553085837079891288874307010445854426342759364606161053814965997555134698756293188345624850030661339938161594444275515392000000000000000000000000000000000000000000000000000000000000000) (24082472296203968694364958590540055822310158356051534264274405669394515638239757986061612584869113301467747299305755884528952732574910688835918962241895854399070424935598717490079785981819741628962905590684239985497629559657118897585862866772401044538659743183613117491784812931003637921 / 1607698701936227148537390469962766757726462754515533808758585349441408093855122962654412907226454065473563211982111822807644000571030854917576810050052924602183233782792166789056313471033933824000000000000000000000000000000000000000000000000000000000000000000) =
        slogGo (10407586967439 / 545312768000) 27 23 (-388101366880771609271798245789605165806034666207941815921700715101993371701766548520534605117388485394332624834623980690765623445380760074164962665322805837544189670272172142661909722517795687177741842257756943453458677166059758522770002937980100856746594149944106070626476258051023956657 / 601279314524148953552984035766074767389697070188809644475710920691086627101815988032750427302693820487112641281309821730058856213565539739173726958719793801216529434764270379107061238166691250176000000000000000000000000000000000000000000000000000000000000000000) (250640424813683193495182291625225591288974756444142253107522861698477735826685984402156260553168012921959609502448374156302312227013887085918088385295888820039287251556080943038397169352681467966920552527171448239675779768114839003973509331709892264950825729357810596835345507208140065132897172654319 / 876698629262850985845671548672217197594202791513770240251726820668141501477740893745438529854584869268241985948936164580761881509982416108510222141004578861311838057285507240457970406765202275494264832000000000000000000000000000000000000000000000000000000000000000000000) :=
      (slogGo_step (10407586967439 / 545312768000) 27 22 (12428616769262540299445042664782197918776952481844483087610480595371725447374597382815399235060063158130861114703616827804006820636610532231428585612755408210401964419989385771603685529494102564639887334855971058229898878940978289539539709710144504453230706579252721718198421 / 350837458349060755305750453151995964579081830314577419251389427550553085837079891288874307010445854426342759364606161053814965997555134698756293188345624850030661339938161594444275515392000000000000000000000000000000000000000000000000000000000000000) (24082472296203968694364958590540055822310158356051534264274405669394515638239757986061612584869113301467747299305755884528952732574910688835918962241895854399070424935598717490079785981819741628962905590684239985497629559657118897585862866772401044538659743183613117491784812931003637921 / 1607698701936227148537390469962766757726462754515533808758585349441408093855122962654412907226454065473563211982111822807644000571030854917576810050052924602183233782792166789056313471033933824000000000000000000000000000000000000000000000000000000000000000000)
        (not_abs_lt _ _ (Or.inl (by norm_num)))).trans (by norm_num)
    have g23 : slogGo ((10407586967439 / 545312768000) : ℝ) 27 23 (-388101366880771609271798245789605165806034666207941815921700715101993371701766548520534605117388485394332624834623980690765623445380760074164962665322805837544189670272172142661909722517795687177741842257756943453458677166059758522770002937980100856746594149944106070626476258051023956657 / 601279314524148953552984035766074767389697070188809644475710920691086627101815988032750427302693820487112641281309821730058856213565539739173726958719793801216529434764270379107061238166691250176000000000000000000000000000000000000000000000000000000000000000000) (250640424813683193495182291625225591288974756444142253107522861698477735826685984402156260553168012921959609502448374156302312227013887085918088385295888820039287251556080943038397169352681467966920552527171448239675779768114839003973509331709892264950825729357810596835345507208140065132897172654319 / 876698629262850985845671548672217197594202791513770240251726820668141501477740893745438529854584869268241985948936164580761881509982416108510222141004578861311838057285507240457970406765202275494264832000000000000000000000000000000000000000000000000000000000000000000000) =
        slogGo (10407586967439 / 545312768000) 26 24 (175636119319438263331933489042698953664906010803619762672094350288881784226981551114515896736539100780777744595269529636393054994501046148347172117132122867202261824267731988326381488383399553013164203299148606819377007773986113850388214544429850397565297861618206976488663819489071942098434597927801 / 14903876697468466759376416327427692359101447455734094084279355951358405525121595193672455007527942777560113761131914797872951985669701073844673776397077840642301246973853623087785496915008438683402502144000000000000000000000000000000000000000000000000000000000000000000000) (2608562018804263754380605317552276138357476440535914095014848634181822903415117748093361931183154220230715177630831322031046401900451191631069802339077607723266789619261565595796611294318515829860777494043706600633193003597411947895260371256701125158296967461066031342466112197772159775852045225661581079455719041 / 478074956225131070663031973025293484717297664993700959827694169358383851586502977155118972088854312551583171851631486562838821155096530959459497592006093199536246522186102519578177430175218378929676123662974976000000000000000000000000000000000000000000000000000000000000000000000000) :=
      (slogGo_step (10407586967439 / 545312768000) 26 23 (-388101366880771609271798245789605165806034666207941815921700715101993371701766548520534605117388485394332624834623980690765623445380760074164962665322805837544189670272172142661909722517795687177741842257756943453458677166059758522770002937980100856746594149944106070626476258051023956657 / 601279314524148953552984035766074767389697070188809644475710920691086627101815988032750427302693820487112641281309821730058856213565539739173726958719793801216529434764270379107061238166691250176000000000000000000000000000000000000000000000000000000000000000000) (250640424813683193495182291625225591288974756444142253107522861698477735826685984402156260553168012921959609502448374156302312227013887085918088385295888820039287251556080943038397169352681467966920552527171448239675779768114839003973509331709892264950825729357810596835345507208140065132897172654319 / 876698629262850985845671548672217197594202791513770240251726820668141501477740893745438529854584869268241985948936164580761881509982416108510222141004578861311838057285507240457970406765202275494264832000000000000000000000000000000000000000000000000000000000000000000000)
        (not_abs_lt _ _ (Or.inl (by norm_num)))).trans (by norm_num)
    have g24 : slogGo ((10407586967439 / 545312768000) : ℝ) 26 24 (175636119319438263331933489042698953664906010803619762672094350288881784226981551114515896736539100780777744595269529636393054994501046148347172117132122867202261824267731988326381488383399553013164203299148606819377007773986113850388214544429850397565297861618206976488663819489071942098434597927801 / 14903876697468466759376416327427692359101447455734094084279355951358405525121595193672455007527942777560113761131914797872951985669701073844673776397077840642301246973853623087785496915008438683402502144000000000000000000000000000000000000000000000000000000000000000000000) (2608562018804263754380605317552276138357476440535914095014848634181822903415117748093361931183154220230715177630831322031046401900451191631069802339077607723266789619261565595796611294318515829860777494043706600633193003597411947895260371256701125158296967461066031342466112197772159775852045225661581079455719041 / 478074956225131070663031973025293484717297664993700959827694169358383851586502977155118972088854312551583171851631486562838821155096530959459497592006093199536246522186102519578177430175218378929676123662974976000000000000000000000000000000000000000000000000000000000000000000000000) =
        slogGo (10407586967439 / 545312768000) 25 25 (-14015638492795938696828900369848723424449324033347568160799692821591462649632914839810196421002639484344744355123696422879293367929002697210321399504113871959070513352464873013756241786303764725182501969131083066297281803227015282307928755938899170280038284644732801029607082283159266731186924819578482963877063899 / 65018194046617825610172348331439913921552482439143330536566407032740203815764404893096180204084186507015311371821882172546079677093128210486491672512828675136929527017309942662632130503829699534435952818164596736000000000000000000000000000000000000000000000000000000000000000000000000) (27148836070663623100377148848701051213159809814270062188103404604300009308291099520426099425608732640213643718481013967525633452163009223873439620217489868169065052095871682901684228986069098855848045720805082265007080649513980432424058766088843344593419124407906276441671810708035879773421365352489093049222567038606399305999 / 260700377690605055306061560482924124163555287177651772967896710550281082115137129912698692039087887126240962224632851253536443501942646604700554415786177355505086907343676976082950126843975059218614564338167183277293568000000000000000000000000000000000000000000000000000000000000000000000000000) :=
      (slogGo_step (10407586967439 / 545312768000) 25 24 (175636119319438263331933489042698953664906010803619762672094350288881784226981551114515896736539100780777744595269529636393054994501046148347172117132122867202261824267731988326381488383399553013164203299148606819377007773986113850388214544429850397565297861618206976488663819489071942098434597927801 / 14903876697468466759376416327427692359101447455734094084279355951358405525121595193672455007527942777560113761131914797872951985669701073844673776397077840642301246973853623087785496915008438683402502144000000000000000000000000000000000000000000000000000000000000000000000) (2608562018804263754380605317552276138357476440535914095014848634181822903415117748093361931183154220230715177630831322031046401900451191631069802339077607723266789619261565595796611294318515829860777494043706600633193003597411947895260371256701125158296967461066031342466112197772159775852045225661581079455719041 / 478074956225131070663031973025293484717297664993700959827694169358383851586502977155118972088854312551583171851631486562838821155096530959459497592006093199536246522186102519578177430175218378929676123662974976000000000000000000000000000000000000000000000000000000000000000000000000)
        (not_abs_lt _ _ (Or.inl (by norm_num)))).trans (by norm_num)
    have g25 : slogGo ((10407586967439 / 545312768000) : ℝ) 25 25 (-14015638492795938696828900369848723424449324033347568160799692821591462649632914839810196421002639484344744355123696422879293367929002697210321399504113871959070513352464873013756241786303764725182501969131083066297281803227015282307928755938899170280038284644732801029607082283159266731186924819578482963877063899 / 65018194046617825610172348331439913921552482439143330536566407032740203815764404893096180204084186507015311371821882172546079677093128210486491672512828675136929527017309942662632130503829699534435952818164596736000000000000000000000000000000000000000000000000000000000000000000000000) (27148836070663623100377148848701051213159809814270062188103404604300009308291099520426099425608732640213643718481013967525633452163009223873439620217489868169065052095871682901684228986069098855848045720805082265007080649513980432424058766088843344593419124407906276441671810708035879773421365352489093049222567038606399305999 / 260700377690605055306061560482924124163555287177651772967896710550281082115137129912698692039087887126240962224632851253536443501942646604700554415786177355505086907343676976082950126843975059218614564338167183277293568000000000000000000000000000000000000000000000000000000000000000000000000000) =
        slogGo (10407586967439 / 545312768000) 24 26 (437646130008175650862892528918297773399176455078985786260775535816563374920198882549727518969846446532025301931224494076835749948179260279925891542031008499795361122056651173310194648120154147952197935210085393937243814007382182863791380091485844528655903201979434385915144882060880770129307417558651322029681621761069530601983 / 110797660518507148505076163205242752769510997050502003511356101983869459898933280212896944116612352028652408945468961782752988488325624806997735626709125376089661935621062714835253803908689400167911189843721052892849766400000000000000000000000000000000000000000000000000000000000000000000000000000) (282553872470176553855506677683425683829861336993772946355649053508617963656236836497226415358078689515517252089098207597777909086894705843385556498117417250686387640894389719342013192738695754338443066773988387000083963844937706037926295641022509355608161021432787950066913528174139189399066866262442825218481790041892454189861246610366561 / 142163244577109290303741516725342770881604018371880196057231330368268580066240723012269322105814579924082024545697977900798227794919957997255061139606983269869398979524140019125663331275239143665466625204360034759704267114676224000000000000000000000000000000000000000000000000000000000000000000000000000000) :=
      (slogGo_step (10407586967439 / 545312768000) 24 25 (-14015638492795938696828900369848723424449324033347568160799692821591462649632914839810196421002639484344744355123696422879293367929002697210321399504113871959070513352464873013756241786303764725182501969131083066297281803227015282307928755938899170280038284644732801029607082283159266731186924819578482963877063899 / 65018194046617825610172348331439913921552482439143330536566407032740203815764404893096180204084186507015311371821882172546079677093128210486491672512828675136929527017309942662632130503829699534435952818164596736000000000000000000000000000000000000000000000000000000000000000000000000) (27148836070663623100377148848701051213159809814270062188103404604300009308291099520426099425608732640213643718481013967525633452163009223873439620217489868169065052095871682901684228986069098855848045720805082265007080649513980432424058766088843344593419124407906276441671810708035879773421365352489093049222567038606399305999 / 260700377690605055306061560482924124163555287177651772967896710550281082115137129912698692039087887126240962224632851253536443501942646604700554415786177355505086907343676976082950126843975059218614564338167183277293568000000000000000000000000000000000000000000000000000000000000000000000000000)
        (not_abs_lt _ _ (Or.inl (by norm_num)))).trans (by norm_num)
    have g26 : slogGo ((10407586967439 / 545312768000) : ℝ) 24 26 (437646130008175650862892528918297773399176455078985786260775535816563374920198882549727518969846446532025301931224494076835749948179260279925891542031008499795361122056651173310194648120154147952197935210085393937243814007382182863791380091485844528655903201979434385915144882060880770129307417558651322029681621761069530601983 / 110797660518507148505076163205242752769510997050502003511356101983869459898933280212896944116612352028652408945468961782752988488325624806997735626709125376089661935621062714835253803908689400167911189843721052892849766400000000000000000000000000000000000000000000000000000000000000000000000000000) (282553872470176553855506677683425683829861336993772946355649053508617963656236836497226415358078689515517252089098207597777909086894705843385556498117417250686387640894389719342013192738695754338443066773988387000083963844937706037926295641022509355608161021432787950066913528174139189399066866262442825218481790041892454189861246610366561 / 142163244577109290303741516725342770881604018371880196057231330368268580066240723012269322105814579924082024545697977900798227794919957997255061139606983269869398979524140019125663331275239143665466625204360034759704267114676224000000000000000000000000000000000000000000000000000000000000000000000000000000) =
        slogGo (10407586967439 / 545312768000) 23 27 (-4555215648531385443669278186650041340260679379989008714397973237293179535361864571429002297631509468498716858750831683688007990692188610794778064006277266971339456655895194992520865111725233078546777763915174398209766989156408542050557331667065290368090171233961467969317451395452407685015865006838014475760810764858063546439692014116529777 / 62836154103082306314253750392601504729668976120371046657296248022774712389278399571423040370770044326444254849198506232152816685354621434786737023706286605282274348949669888453543192423655701500136248340327135363789286064686891008000000000000000000000000000000000000000000000000000000000000000000000000000000) (2940704000720030748109952406982058330443751371514895403588509559572307875221013453838931543351150803504333441803464101844807857908700713126065036831095251116618165988733650840795361407080452761043301204983048777465206991911309738415126575170744422709471946612613274224000049923820533372902119983420722303615742405837743796070435241149773034618161407279 / 77523432408204456534048847242014962138237287538292843076351503179442998763351352020141881999005337473158398664058506821087111008342338633926893792048318479022172956020684116648988411013801627294165271401808136223390548761715465133228032000000000000000000000000000000000000000000000000000000000000000000000000000000000) :=
      (slogGo_step (10407586967439 / 545312768000) 23 26 (437646130008175650862892528918297773399176455078985786260775535816563374920198882549727518969846446532025301931224494076835749948179260279925891542031008499795361122056651173310194648120154147952197935210085393937243814007382182863791380091485844528655903201979434385915144882060880770129307417558651322029681621761069530601983 / 110797660518507148505076163205242752769510997050502003511356101983869459898933280212896944116612352028652408945468961782752988488325624806997735626709125376089661935621062714835253803908689400167911189843721052892849766400000000000000000000000000000000000000000000000000000000000000000000000000000) (282553872470176553855506677683425683829861336993772946355649053508617963656236836497226415358078689515517252089098207597777909086894705843385556498117417250686387640894389719342013192738695754338443066773988387000083963844937706037926295641022509355608161021432787950066913528174139189399066866262442825218481790041892454189861246610366561 / 142163244577109290303741516725342770881604018371880196057231330368268580066240723012269322105814579924082024545697977900798227794919957997255061139606983269869398979524140019125663331275239143665466625204360034759704267114676224000000000000000000000000000000000000000000000000000000000000000000000000000000)
        (not_abs_lt _ _ (Or.inl (by norm_num)))).trans (by norm_num)
    have g27 : slogGo ((10407586967439 / 545312768000) : ℝ) 23 27 (-4555215648531385443669278186650041340260679379989008714397973237293179535361864571429002297631509468498716858750831683688007990692188610794778064006277266971339456655895194992520865111725233078546777763915174398209766989156408542050557331667065290368090171233961467969317451395452407685015865006838014475760810764858063546439692014116529777 / 62836154103082306314253750392601504729668976120371046657296248022774712389278399571423040370770044326444254849198506232152816685354621434786737023706286605282274348949669888453543192423655701500136248340327135363789286064686891008000000000000000000000000000000000000000000000000000000000000000000000000000000) (2940704000720030748109952406982058330443751371514895403588509559572307875221013453838931543351150803504333441803464101844807857908700713126065036831095251116618165988733650840795361407080452761043301204983048777465206991911309738415126575170744422709471946612613274224000049923820533372902119983420722303615742405837743796070435241149773034618161407279 / 77523432408204456534048847242014962138237287538292843076351503179442998763351352020141881999005337473158398664058506821087111008342338633926893792048318479022172956020684116648988411013801627294165271401808136223390548761715465133228032000000000000000000000000000000000000000000000000000000000000000000000000000000000) =
        slogGo (10407586967439 / 545312768000) 22 28 (1756015245664585950887777073281933910841445329806981273920598659346534099329147258999225786729934617944748989630201915564938539713337427070933359567753001276637599403206457834118553918988836446627402425932519707116492776103301156624453323696110222626137082149212334198017581804939268012185561608205902407350891502178548672867737039403838209779870994509 / 1317898350939475761078830403114254356350033888150978332297975554050530978976972984342411993983090737043692777288994615958480887141819756776757194464821414143376940252351629983032802987234627664000809613830738315797639328949162907264876544000000000000000000000000000000000000000000000000000000000000000000000000000000000) (30605632632989519686184494052317019189425289707831607300851016205335017232913925023927744954021923554534433859674388342764103659299652067456359918380024467025758236699982388194044468013494465334001745705734983141259729998280647522878515554566626019978995860587011895187837185578839947895361869056823796197559114730313437964830537156282801000964766846096672190588481 / 42274517511378878102517863136752344901017373908318376252554873539742862353863702726645961425606973824262132077945246468553893273082431772060013163383884939541131068022381520903494754809857851582685614397591234968898166490290032720208066905112576000000000000000000000000000000000000000000000000000000000000000000000000000000000000) :=
      (slogGo_step (10407586967439 / 545312768000) 22 27 (-4555215648531385443669278186650041340260679379989008714397973237293179535361864571429002297631509468498716858750831683688007990692188610794778064006277266971339456655895194992520865111725233078546777763915174398209766989156408542050557331667065290368090171233961467969317451395452407685015865006838014475760810764858063546439692014116529777 / 62836154103082306314253750392601504729668976120371046657296248022774712389278399571423040370770044326444254849198506232152816685354621434786737023706286605282274348949669888453543192423655701500136248340327135363789286064686891008000000000000000000000000000000000000000000000000000000000000000000000000000000) (2940704000720030748109952406982058330443751371514895403588509559572307875221013453838931543351150803504333441803464101844807857908700713126065036831095251116618165988733650840795361407080452761043301204983048777465206991911309738415126575170744422709471946612613274224000049923820533372902119983420722303615742405837743796070435241149773034618161407279 / 77523432408204456534048847242014962138237287538292843076351503179442998763351352020141881999005337473158398664058506821087111008342338633926893792048318479022172956020684116648988411013801627294165271401808136223390548761715465133228032000000000000000000000000000000000000000000000000000000000000000000000000000000000)
        (not_abs_lt _ _ (Or.inl (by norm_num)))).trans (by norm_num)
    have g28 : slogGo ((10407586967439 / 545312768000) : ℝ) 22 28 (1756015245664585950887777073281933910841445329806981273920598659346534099329147258999225786729934617944748989630201915564938539713337427070933359567753001276637599403206457834118553918988836446627402425932519707116492776103301156624453323696110222626137082149212334198017581804939268012185561608205902407350891502178548672867737039403838209779870994509 / 1317898350939475761078830403114254356350033888150978332297975554050530978976972984342411993983090737043692777288994615958480887141819756776757194464821414143376940252351629983032802987234627664000809613830738315797639328949162907264876544000000000000000000000000000000000000000000000000000000000000000000000000000000000) (30605632632989519686184494052317019189425289707831607300851016205335017232913925023927744954021923554534433859674388342764103659299652067456359918380024467025758236699982388194044468013494465334001745705734983141259729998280647522878515554566626019978995860587011895187837185578839947895361869056823796197559114730313437964830537156282801000964766846096672190588481 / 42274517511378878102517863136752344901017373908318376252554873539742862353863702726645961425606973824262132077945246468553893273082431772060013163383884939541131068022381520903494754809857851582685614397591234968898166490290032720208066905112576000000000000000000000000000000000000000000000000000000000000000000000000000000000000) =
        slogGo (10407586967439 / 545312768000) 21 29 (-493483583801442284460465677239836639911437539699441223916704655210625560694012926830006203957049707607912116421652038143672432480547262298284752138276357104776708098123446074582798698853216506091358830714509748925752578693481936474553263431549918362308988470380751942717895380732178801495826316720256354999174361030349898005440630536911518664422704948082190694468177 / 20122670335416345976798502853094116172884269980359547096216119804917602480439122497883477638588919540348774869101937319031653197987237523500566265770729231221578388378653603950063503289492337353358352453253427845195527249378055574819039846833586176000000000000000000000000000000000000000000000000000000000000000000000000000000000000) (318530783321327492059406069398618617957118720807585176156737159872424117336137442077094774618682865853258512031111287444245470482437508711325963585406468400327233418595945658409164140732878898994713940843882394061757143491057621036676477072558062627151227755163113152628602531535755517163838005270623784237126046209996308154340902137898727675503611493052952958276454007595470159 / 23052834159994487514818603716547583728464470182036071979546165161847138278428411228596456581018964976211928801005914104209348497921160761793190840241302542974686832554081153115934585618844898733087473260931128873428253078944902865467230499956132170170368000000000000000000000000000000000000000000000000000000000000000000000000000000000000000) :=
      (slogGo_step (10407586967439 / 545312768000) 21 28 (1756015245664585950887777073281933910841445329806981273920598659346534099329147258999225786729934617944748989630201915564938539713337427070933359567753001276637599403206457834118553918988836446627402425932519707116492776103301156624453323696110222626137082149212334198017581804939268012185561608205902407350891502178548672867737039403838209779870994509 / 1317898350939475761078830403114254356350033888150978332297975554050530978976972984342411993983090737043692777288994615958480887141819756776757194464821414143376940252351629983032802987234627664000809613830738315797639328949162907264876544000000000000000000000000000000000000000000000000000000000000000000000000000000000) (30605632632989519686184494052317019189425289707831607300851016205335017232913925023927744954021923554534433859674388342764103659299652067456359918380024467025758236699982388194044468013494465334001745705734983141259729998280647522878515554566626019978995860587011895187837185578839947895361869056823796197559114730313437964830537156282801000964766846096672190588481 / 42274517511378878102517863136752344901017373908318376252554873539742862353863702726645961425606973824262132077945246468553893273082431772060013163383884939541131068022381520903494754809857851582685614397591234968898166490290032720208066905112576000000000000000000000000000000000000000000000000000000000000000000000000000000000000)
        (not_abs_lt _ _ (Or.inl (by norm_num)))).trans (by norm_num)
    have g29 : slogGo ((10407586967439 / 545312768000) : ℝ) 21 29 (-493483583801442284460465677239836639911437539699441223916704655210625560694012926830006203957049707607912116421652038143672432480547262298284752138276357104776708098123446074582798698853216506091358830714509748925752578693481936474553263431549918362308988470380751942717895380732178801495826316720256354999174361030349898005440630536911518664422704948082190694468177 / 20122670335416345976798502853094116172884269980359547096216119804917602480439122497883477638588919540348774869101937319031653197987237523500566265770729231221578388378653603950063503289492337353358352453253427845195527249378055574819039846833586176000000000000000000000000000000000000000000000000000000000000000000000000000000000000) (318530783321327492059406069398618617957118720807585176156737159872424117336137442077094774618682865853258512031111287444245470482437508711325963585406468400327233418595945658409164140732878898994713940843882394061757143491057621036676477072558062627151227755163113152628602531535755517163838005270623784237126046209996308154340902137898727675503611493052952958276454007595470159 / 23052834159994487514818603716547583728464470182036071979546165161847138278428411228596456581018964976211928801005914104209348497921160761793190840241302542974686832554081153115934585618844898733087473260931128873428253078944902865467230499956132170170368000000000000000000000000000000000000000000000000000000000000000000000000000000000000000) =
        slogGo (10407586967439 / 545312768000) 20 30 (5136309599594195608530973971715271947365309928395171092016229771682268438360960746933250014675724842865802731947025796783027988222989445271030977545452656655166349232825517351732399974384122295747313258600036086923409732564267654345956351386577840702377389700350102101174053171006312706837969800767709240466445576737271109630721380285895947411939243868996847602341709816775344703 / 11365047240877282344805571632257958778132983799743783485916259424790639171265206735698053094442349733272480898895915653375208809475132255564043084238962153686520608449162008486155750710090535075412124317639046534600128767919837112675344636478373159893991424000000000000000000000000000000000000000000000000000000000000000000000000000000000000000) (3315136829223183993374333366647839920520054536831910312545786706665644239468056987792853322617050795418184402406387020512977752929823579597735130224465049934736492690289674944263070808496887315348428049278678806148366210709791563739913427410930579383961887816003672390960332172638692126276901899388746289100336917351495656151422576845172890959991133586075409694872363861108897544380229152801 / 12571004806031548851447173810565650286680720624619554287013558708192030967488551616908214493187268051673181049095456204536640280878030420786433540644230477634965430593218503302282113790745304690819623230044340143333882335883967501059067077225102312289450405658624000000000000000000000000000000000000000000000000000000000000000000000000000000000000000000) :=
      (slogGo_step (10407586967439 / 545312768000) 20 29 (-493483583801442284460465677239836639911437539699441223916704655210625560694012926830006203957049707607912116421652038143672432480547262298284752138276357104776708098123446074582798698853216506091358830714509748925752578693481936474553263431549918362308988470380751942717895380732178801495826316720256354999174361030349898005440630536911518664422704948082190694468177 / 20122670335416345976798502853094116172884269980359547096216119804917602480439122497883477638588919540348774869101937319031653197987237523500566265770729231221578388378653603950063503289492337353358352453253427845195527249378055574819039846833586176000000000000000000000000000000000000000000000000000000000000000000000000000000000000) (318530783321327492059406069398618617957118720807585176156737159872424117336137442077094774618682865853258512031111287444245470482437508711325963585406468400327233418595945658409164140732878898994713940843882394061757143491057621036676477072558062627151227755163113152628602531535755517163838005270623784237126046209996308154340902137898727675503611493052952958276454007595470159 / 23052834159994487514818603716547583728464470182036071979546165161847138278428411228596456581018964976211928801005914104209348497921160761793190840241302542974686832554081153115934585618844898733087473260931128873428253078944902865467230499956132170170368000000000000000000000000000000000000000000000000000000000000000000000000000000000000000)
        (not_abs_lt _ _ (Or.inl (by norm_num)))).trans (by norm_num)
    have g30 : slogGo ((10407586967439 / 545312768000) : ℝ) 20 30 (5136309599594195608530973971715271947365309928395171092016229771682268438360960746933250014675724842865802731947025796783027988222989445271030977545452656655166349232825517351732399974384122295747313258600036086923409732564267654345956351386577840702377389700350102101174053171006312706837969800767709240466445576737271109630721380285895947411939243868996847602341709816775344703 / 11365047240877282344805571632257958778132983799743783485916259424790639171265206735698053094442349733272480898895915653375208809475132255564043084238962153686520608449162008486155750710090535075412124317639046534600128767919837112675344636478373159893991424000000000000000000000000000000000000000000000000000000000000000000000000000000000000000) (3315136829223183993374333366647839920520054536831910312545786706665644239468056987792853322617050795418184402406387020512977752929823579597735130224465049934736492690289674944263070808496887315348428049278678806148366210709791563739913427410930579383961887816003672390960332172638692126276901899388746289100336917351495656151422576845172890959991133586075409694872363861108897544380229152801 / 12571004806031548851447173810565650286680720624619554287013558708192030967488551616908214493187268051673181049095456204536640280878030420786433540644230477634965430593218503302282113790745304690819623230044340143333882335883967501059067077225102312289450405658624000000000000000000000000000000000000000000000000000000000000000000000000000000000000000000) =
        slogGo (10407586967439 / 545312768000) 19 31 (-516778533551746411404300751616608273737223687577066735901481419218186878499500836113463715249346746015693144059116320371521092521340843824205835607763190199139206464764868989226179056609843133912146855882026695642447248974014808316416499695378304541822305445515477448789076197192352108808443687070646826332776016265709542318625508791018586243326672699424761989697620583888510135918346978403631 / 61975053693735535837634566886088655913335952679374402634976844431386712669718559471357497451413231494748782572040599088365636584728689974477117355376056254740379572824567221280250820988374352125740742524118596906636039915907959780221200690719754399586990499897016320000000000000000000000000000000000000000000000000000000000000000000000000000000000000000000) (34502574859100259531714704072128623583465237184769315180233634946262811377572594740092655353852926799000164600475979944905232817758575186166867795485595960416307878824098908695615954466441845368218052361047971207482195638825535264567671261312123645971679156808115183551522093913576831997153388284651421078741940277251430255635965582333851868051946739477430514263826165705407727985656783045148059742646639 / 6855129427318366999509879156416662403549857296045978095177630152694700682422900090527094047217666283615869389247387119118649468985896239147254810896745824989085092541099864064584600188122294883954232932292579886294916124767192044824562799379290300997760617908427116511232000000000000000000000000000000000000000000000000000000000000000000000000000000000000000000000) :=
      (slogGo_step (10407586967439 / 545312768000) 19 30 (5136309599594195608530973971715271947365309928395171092016229771682268438360960746933250014675724842865802731947025796783027988222989445271030977545452656655166349232825517351732399974384122295747313258600036086923409732564267654345956351386577840702377389700350102101174053171006312706837969800767709240466445576737271109630721380285895947411939243868996847602341709816775344703 / 11365047240877282344805571632257958778132983799743783485916259424790639171265206735698053094442349733272480898895915653375208809475132255564043084238962153686520608449162008486155750710090535075412124317639046534600128767919837112675344636478373159893991424000000000000000000000000000000000000000000000000000000000000000000000000000000000000000) (3315136829223183993374333366647839920520054536831910312545786706665644239468056987792853322617050795418184402406387020512977752929823579597735130224465049934736492690289674944263070808496887315348428049278678806148366210709791563739913427410930579383961887816003672390960332172638692126276901899388746289100336917351495656151422576845172890959991133586075409694872363861108897544380229152801 / 12571004806031548851447173810565650286680720624619554287013558708192030967488551616908214493187268051673181049095456204536640280878030420786433540644230477634965430593218503302282113790745304690819623230044340143333882335883967501059067077225102312289450405658624000000000000000000000000000000000000000000000000000000000000000000000000000000000000000000)
        (not_abs_lt _ _ (Or.inl (by norm_num)))).trans (by norm_num)
    have g31 : slogGo ((10407586967439 / 545312768000) : ℝ) 19 31 (-516778533551746411404300751616608273737223687577066735901481419218186878499500836113463715249346746015693144059116320371521092521340843824205835607763190199139206464764868989226179056609843133912146855882026695642447248974014808316416499695378304541822305445515477448789076197192352108808443687070646826332776016265709542318625508791018586243326672699424761989697620583888510135918346978403631 / 61975053693735535837634566886088655913335952679374402634976844431386712669718559471357497451413231494748782572040599088365636584728689974477117355376056254740379572824567221280250820988374352125740742524118596906636039915907959780221200690719754399586990499897016320000000000000000000000000000000000000000000000000000000000000000000000000000000000000000000) (34502574859100259531714704072128623583465237184769315180233634946262811377572594740092655353852926799000164600475979944905232817758575186166867795485595960416307878824098908695615954466441845368218052361047971207482195638825535264567671261312123645971679156808115183551522093913576831997153388284651421078741940277251430255635965582333851868051946739477430514263826165705407727985656783045148059742646639 / 6855129427318366999509879156416662403549857296045978095177630152694700682422900090527094047217666283615869389247387119118649468985896239147254810896745824989085092541099864064584600188122294883954232932292579886294916124767192044824562799379290300997760617908427116511232000000000000000000000000000000000000000000000000000000000000000000000000000000000000000000000) =
        slogGo (10407586967439 / 545312768000) 18 32 (16136171014556768457940816476656958715825985755597038211122180423662808572910177495431702581495919150696088288575609736321396017622068495466842315361629655123630261386945043936154566925742848774793274654505722122851625462281772842324216977828627467287808735551830679088134069192706364568253214637150427871324158283167967124610604308212449066657844655366717861730202389105562548933526355001647060703356908227 / 104766943037706602853509483147515851513452469055470683228599721623633110529469182083525578323627593812501331875867817341490319834511452222887495274934966443308187469305629222499046444675073032711472541904227498402245203134816996021053793262913693670148775523494491621641158656000000000000000000000000000000000000000000000000000000000000000000000000000000000000000000000) (359088548446660352811736491197770445842586104974910134695428564445883146791413227308115441324083169888420576591529643130758034320018230467035906462235164916074790400531866246463194998659580992728463487883614168587283011575269563891757802289917717060623392324083256054004396683206610460274782414257978953614105672239382063892379731573382551035490605534838254829530896797511003517949276690741532846919726532369775787521 / 3738189603009233525742586846131075136601305708111827770348680950246209888063520594952780233884588299618842785376962106694136462354429231130179480531421028017241561601123320637482359098758289345681321545625223323656605976324630849550862414519349475912642004353034761430998425010176000000000000000000000000000000000000000000000000000000000000000000000000000000000000000000000000) :=
      (slogGo_step (10407586967439 / 545312768000) 18 31 (-516778533551746411404300751616608273737223687577066735901481419218186878499500836113463715249346746015693144059116320371521092521340843824205835607763190199139206464764868989226179056609843133912146855882026695642447248974014808316416499695378304541822305445515477448789076197192352108808443687070646826332776016265709542318625508791018586243326672699424761989697620583888510135918346978403631 / 61975053693735535837634566886088655913335952679374402634976844431386712669718559471357497451413231494748782572040599088365636584728689974477117355376056254740379572824567221280250820988374352125740742524118596906636039915907959780221200690719754399586990499897016320000000000000000000000000000000000000000000000000000000000000000000000000000000000000000000) (34502574859100259531714704072128623583465237184769315180233634946262811377572594740092655353852926799000164600475979944905232817758575186166867795485595960416307878824098908695615954466441845368218052361047971207482195638825535264567671261312123645971679156808115183551522093913576831997153388284651421078741940277251430255635965582333851868051946739477430514263826165705407727985656783045148059742646639 / 6855129427318366999509879156416662403549857296045978095177630152694700682422900090527094047217666283615869389247387119118649468985896239147254810896745824989085092541099864064584600188122294883954232932292579886294916124767192044824562799379290300997760617908427116511232000000000000000000000000000000000000000000000000000000000000000000000000000000000000000000000)
        (not_abs_lt _ _ (Or.inl (by norm_num)))).trans (by norm_num)
    have g32 : slogGo ((10407586967439 / 545312768000) : ℝ) 18 32 (16136171014556768457940816476656958715825985755597038211122180423662808572910177495431702581495919150696088288575609736321396017622068495466842315361629655123630261386945043936154566925742848774793274654505722122851625462281772842324216977828627467287808735551830679088134069192706364568253214637150427871324158283167967124610604308212449066657844655366717861730202389105562548933526355001647060703356908227 / 104766943037706602853509483147515851513452469055470683228599721623633110529469182083525578323627593812501331875867817341490319834511452222887495274934966443308187469305629222499046444675073032711472541904227498402245203134816996021053793262913693670148775523494491621641158656000000000000000000000000000000000000000000000000000000000000000000000000000000000000000000000) (359088548446660352811736491197770445842586104974910134695428564445883146791413227308115441324083169888420576591529643130758034320018230467035906462235164916074790400531866246463194998659580992728463487883614168587283011575269563891757802289917717060623392324083256054004396683206610460274782414257978953614105672239382063892379731573382551035490605534838254829530896797511003517949276690741532846919726532369775787521 / 3738189603009233525742586846131075136601305708111827770348680950246209888063520594952780233884588299618842785376962106694136462354429231130179480531421028017241561601123320637482359098758289345681321545625223323656605976324630849550862414519349475912642004353034761430998425010176000000000000000000000000000000000000000000000000000000000000000000000000000000000000000000000000) =
        slogGo (10407586967439 / 545312768000) 17 33 (-5206373963322491941591855252157419690411002043972729431765953003449696809483639434376962878886577957316082295043049983244137579313041273854953942935639891389127751289873199173570415175198597645578293749977027050434612476012487844330693010361218118675025882993337240830761351142196124206013698504346848653527701002317213619694298331797155744032260339495108057447556281868252911316624341115902084796075409953657288405931443 / 1828184054489283711165566552621479082005688164386338042055644510803610423016793128085226890062661215458392777245315580051407601733207742059601056030774642278000089150398966697684572611402333954241524389817289217774205092357418664757946568995174977291933048080877768286398365741776633856000000000000000000000000000000000000000000000000000000000000000000000000000000000000000000000000) (3737245296970050255367134405312578231244899705437063879936342390937786155143002873484781167244243900896045348729645829565519908153963219677613226392418543006556874767988994000711047395426380214013234422240660705026454093221102894753175640381592062787811444637070405160852556488547076938529398685452766213253716502395958862412981310986849344422899320519901061246644562103761621946607373198018199290439684873293542058626052409528719 / 2038482519725786263481089288544126673556036128104660854988107534127630995568888575458707418635292238205564504250741129832490883656221601087709940865391311761487547681351069886177029791313868126038390297942928821241343686434926915146772340048709852269272137586821434956157392145939502727168000000000000000000000000000000000000000000000000000000000000000000000000000000000000000000000000000) :=
      (slogGo_step (10407586967439 / 545312768000) 17 32 (16136171014556768457940816476656958715825985755597038211122180423662808572910177495431702581495919150696088288575609736321396017622068495466842315361629655123630261386945043936154566925742848774793274654505722122851625462281772842324216977828627467287808735551830679088134069192706364568253214637150427871324158283167967124610604308212449066657844655366717861730202389105562548933526355001647060703356908227 / 104766943037706602853509483147515851513452469055470683228599721623633110529469182083525578323627593812501331875867817341490319834511452222887495274934966443308187469305629222499046444675073032711472541904227498402245203134816996021053793262913693670148775523494491621641158656000000000000000000000000000000000000000000000000000000000000000000000000000000000000000000000) (359088548446660352811736491197770445842586104974910134695428564445883146791413227308115441324083169888420576591529643130758034320018230467035906462235164916074790400531866246463194998659580992728463487883614168587283011575269563891757802289917717060623392324083256054004396683206610460274782414257978953614105672239382063892379731573382551035490605534838254829530896797511003517949276690741532846919726532369775787521 / 3738189603009233525742586846131075136601305708111827770348680950246209888063520594952780233884588299618842785376962106694136462354429231130179480531421028017241561601123320637482359098758289345681321545625223323656605976324630849550862414519349475912642004353034761430998425010176000000000000000000000000000000000000000000000000000000000000000000000000000000000000000000000000)
        (not_abs_lt _ _ (Or.inl (by norm_num)))).trans (by norm_num)
    have g33 : slogGo ((10407586967439 / 545312768000) : ℝ) 17 33 (-5206373963322491941591855252157419690411002043972729431765953003449696809483639434376962878886577957316082295043049983244137579313041273854953942935639891389127751289873199173570415175198597645578293749977027050434612476012487844330693010361218118675025882993337240830761351142196124206013698504346848653527701002317213619694298331797155744032260339495108057447556281868252911316624341115902084796075409953657288405931443 / 1828184054489283711165566552621479082005688164386338042055644510803610423016793128085226890062661215458392777245315580051407601733207742059601056030774642278000089150398966697684572611402333954241524389817289217774205092357418664757946568995174977291933048080877768286398365741776633856000000000000000000000000000000000000000000000000000000000000000000000000000000000000000000000000) (3737245296970050255367134405312578231244899705437063879936342390937786155143002873484781167244243900896045348729645829565519908153963219677613226392418543006556874767988994000711047395426380214013234422240660705026454093221102894753175640381592062787811444637070405160852556488547076938529398685452766213253716502395958862412981310986849344422899320519901061246644562103761621946607373198018199290439684873293542058626052409528719 / 2038482519725786263481089288544126673556036128104660854988107534127630995568888575458707418635292238205564504250741129832490883656221601087709940865391311761487547681351069886177029791313868126038390297942928821241343686434926915146772340048709852269272137586821434956157392145939502727168000000000000000000000000000000000000000000000000000000000000000000000000000000000000000000000000000) =
        slogGo (10407586967439 / 545312768000) 16 34 (18062831910916268596844097599675430654759236386748944045507843944239486575662362239195096782202891895064649347811218417308987842273543456976039710386707962633354859522960903519479449397171364357230345383971512160073606110920661320633170798529115065603371829129631831319104581584202485065530002517303482404531717490140717809449486276048871274448015781086455512492360575463251999705352357906427696956670383471050494292822925570581852159 / 342695411838661106112596363565018767471525901604058850314615721884798429558072565086089680269034884041452065503104843559529539924098382023658181288703529594158956103354972411774879009307148312272691908158079592925346011157634868486069338402608759394544146866133311894784487665830327621972393984000000000000000000000000000000000000000000000000000000000000000000000000000000000000000000000000000) (38895705446868190312463861898974656764604552203045436046258800900865776405721044849431536610518059061155144265772995850404322787861487874193675210107027862190442065759451870784388653971871039929942990252379485202466005060338366883723187647493980565508590993222065218009172513384448115009856996681079548158071086902267387274469316404440605940931487966797730750868283282919808521009843419196359957997918701475379936353998717947806879484388380641 / 1111610545351283108315250115591148406499474464124755204534811526516792923476266363766964612158145992904791732815519411560402980101340161710530918634422851619807730423649533899392641053519827784596967487635603221538094321689154047976387551017799224369827870692746437017674146154763730192695530881024000000000000000000000000000000000000000000000000000000000000000000000000000000000000000000000000000000) :=
      (slogGo_step (10407586967439 / 545312768000) 16 33 (-5206373963322491941591855252157419690411002043972729431765953003449696809483639434376962878886577957316082295043049983244137579313041273854953942935639891389127751289873199173570415175198597645578293749977027050434612476012487844330693010361218118675025882993337240830761351142196124206013698504346848653527701002317213619694298331797155744032260339495108057447556281868252911316624341115902084796075409953657288405931443 / 1828184054489283711165566552621479082005688164386338042055644510803610423016793128085226890062661215458392777245315580051407601733207742059601056030774642278000089150398966697684572611402333954241524389817289217774205092357418664757946568995174977291933048080877768286398365741776633856000000000000000000000000000000000000000000000000000000000000000000000000000000000000000000000000) (3737245296970050255367134405312578231244899705437063879936342390937786155143002873484781167244243900896045348729645829565519908153963219677613226392418543006556874767988994000711047395426380214013234422240660705026454093221102894753175640381592062787811444637070405160852556488547076938529398685452766213253716502395958862412981310986849344422899320519901061246644562103761621946607373198018199290439684873293542058626052409528719 / 2038482519725786263481089288544126673556036128104660854988107534127630995568888575458707418635292238205564504250741129832490883656221601087709940865391311761487547681351069886177029791313868126038390297942928821241343686434926915146772340048709852269272137586821434956157392145939502727168000000000000000000000000000000000000000000000000000000000000000000000000000000000000000000000000000)
        (not_abs_lt _ _ (Or.inl (by norm_num)))).trans (by norm_num)
    have g34 : slogGo ((10407586967439 / 545312768000) : ℝ) 16 34 (18062831910916268596844097599675430654759236386748944045507843944239486575662362239195096782202891895064649347811218417308987842273543456976039710386707962633354859522960903519479449397171364357230345383971512160073606110920661320633170798529115065603371829129631831319104581584202485065530002517303482404531717490140717809449486276048871274448015781086455512492360575463251999705352357906427696956670383471050494292822925570581852159 / 342695411838661106112596363565018767471525901604058850314615721884798429558072565086089680269034884041452065503104843559529539924098382023658181288703529594158956103354972411774879009307148312272691908158079592925346011157634868486069338402608759394544146866133311894784487665830327621972393984000000000000000000000000000000000000000000000000000000000000000000000000000000000000000000000000000) (38895705446868190312463861898974656764604552203045436046258800900865776405721044849431536610518059061155144265772995850404322787861487874193675210107027862190442065759451870784388653971871039929942990252379485202466005060338366883723187647493980565508590993222065218009172513384448115009856996681079548158071086902267387274469316404440605940931487966797730750868283282919808521009843419196359957997918701475379936353998717947806879484388380641 / 1111610545351283108315250115591148406499474464124755204534811526516792923476266363766964612158145992904791732815519411560402980101340161710530918634422851619807730423649533899392641053519827784596967487635603221538094321689154047976387551017799224369827870692746437017674146154763730192695530881024000000000000000000000000000000000000000000000000000000000000000000000000000000000000000000000000000000) =
        slogGo (10407586967439 / 545312768000) 15 35 (-33176349584505324937309278951443459160117890327333413333126116492251919883384440376716377536795561983814389335874590495587060136915016981501587991313691853652619179377253237316258439835277983430113689972356515718988684507046398946077143898594782698389554887947381619216149723957134622265940926005425471996641455014530627061897407098979337086725601289843535017244028903297646254889510892274749279982073075740144745889410761602941662988939505812259 / 33977487929207319488763935033159042193062936470437267581811049119512292498975557674901040335225890419127864105239166333755277489777563382844088058979768882611043088129271653168835466441887056063990908227069848069533391036750682630446261884410051092088158695594487593882227951366508177069931596909379584000000000000000000000000000000000000000000000000000000000000000000000000000000000000000000000000000000) (404810437098171503154049682305428143780246598736948216321012051789206127131998526454677676475311551175031963353310924125887456705735824704557822927311913270876102147068232314307770793414664438873262644932917743652149144530416212010590395257708221721788358815849822745800764167460641995640077477681092982443183421544955669697003892265747381217970752011230314505336072828611349230599387989062074773727008112161814206918858347307709302333747410419153204948399 / 606175423423497724147032857145329093847017610577186957907284225883177747583654993131058379614005045139020340285147323675734548274510724091937229990119905299250637105118139992587634611725333432101880105088576568086655432005395029480408694086257312309363891851007637092245553561690766097383973325960676114432000000000000000000000000000000000000000000000000000000000000000000000000000000000000000000000000000000000) :=
      (slogGo_step (10407586967439 / 545312768000) 15 34 (18062831910916268596844097599675430654759236386748944045507843944239486575662362239195096782202891895064649347811218417308987842273543456976039710386707962633354859522960903519479449397171364357230345383971512160073606110920661320633170798529115065603371829129631831319104581584202485065530002517303482404531717490140717809449486276048871274448015781086455512492360575463251999705352357906427696956670383471050494292822925570581852159 / 342695411838661106112596363565018767471525901604058850314615721884798429558072565086089680269034884041452065503104843559529539924098382023658181288703529594158956103354972411774879009307148312272691908158079592925346011157634868486069338402608759394544146866133311894784487665830327621972393984000000000000000000000000000000000000000000000000000000000000000000000000000000000000000000000000000) (38895705446868190312463861898974656764604552203045436046258800900865776405721044849431536610518059061155144265772995850404322787861487874193675210107027862190442065759451870784388653971871039929942990252379485202466005060338366883723187647493980565508590993222065218009172513384448115009856996681079548158071086902267387274469316404440605940931487966797730750868283282919808521009843419196359957997918701475379936353998717947806879484388380641 / 1111610545351283108315250115591148406499474464124755204534811526516792923476266363766964612158145992904791732815519411560402980101340161710530918634422851619807730423649533899392641053519827784596967487635603221538094321689154047976387551017799224369827870692746437017674146154763730192695530881024000000000000000000000000000000000000000000000000000000000000000000000000000000000000000000000000000000)
        (not_abs_lt _ _ (Or.inl (by norm_num)))).trans (by norm_num)
    have g35 : slogGo ((10407586967439 / 545312768000) : ℝ) 15 35 (-33176349584505324937309278951443459160117890327333413333126116492251919883384440376716377536795561983814389335874590495587060136915016981501587991313691853652619179377253237316258439835277983430113689972356515718988684507046398946077143898594782698389554887947381619216149723957134622265940926005425471996641455014530627061897407098979337086725601289843535017244028903297646254889510892274749279982073075740144745889410761602941662988939505812259 / 33977487929207319488763935033159042193062936470437267581811049119512292498975557674901040335225890419127864105239166333755277489777563382844088058979768882611043088129271653168835466441887056063990908227069848069533391036750682630446261884410051092088158695594487593882227951366508177069931596909379584000000000000000000000000000000000000000000000000000000000000000000000000000000000000000000000000000000) (404810437098171503154049682305428143780246598736948216321012051789206127131998526454677676475311551175031963353310924125887456705735824704557822927311913270876102147068232314307770793414664438873262644932917743652149144530416212010590395257708221721788358815849822745800764167460641995640077477681092982443183421544955669697003892265747381217970752011230314505336072828611349230599387989062074773727008112161814206918858347307709302333747410419153204948399 / 606175423423497724147032857145329093847017610577186957907284225883177747583654993131058379614005045139020340285147323675734548274510724091937229990119905299250637105118139992587634611725333432101880105088576568086655432005395029480408694086257312309363891851007637092245553561690766097383973325960676114432000000000000000000000000000000000000000000000000000000000000000000000000000000000000000000000000000000000) =
        slogGo (10407586967439 / 545312768000) 14 36 (5870116887250265731288029180574682340966779033834203920571462785638531203722187867982570944325533765886599068606580397145674248739497838368138582279178458451048157298412071075702589864232420848409737962923189312518543855947067690167794834308206687960788434713528802114349168336514724220578997217921363475515759057064936911861078293546989962226817613310626300159781491216905483666324374057267055205341817940241696872562716046676677151793780955702805167825421917 / 324246264866346050134868610451322258944238954985790189719395868846041193071234974100768782547429368670087675120226729170768788544777158870397684007865087944095662040713218672735088691984939479498456177612405049152392423856845828244218012510209467640840292570563240118827607827916199239321174251922995456990248960000000000000000000000000000000000000000000000000000000000000000000000000000000000000000000000000000000000) (4213099829426214817642984156717092273094379568180269174381981985416195010750994442403855454983898497246477968570179422143415657410657516833970650441486141166894391303502660736680756922346822419004774156837145599242705307618252577655782180732151878198564732480023257758614259313310518588791763015669970719092835415354305154589530087090249253983196085173958819013976871593860838932432050345371919296218934469704728296243187798796253688061456616672894016171245596888180161 / 330555198040639580196318926316867986436648941768591897669920648579092902170848215861318431756907862730724126569195596361406740952803066800258577368164898210632233245555479886369462512692546829582416298109982573523274537489097754459403266743442205735659696184525618171911894148417850420605012053217782551112398667776000000000000000000000000000000000000000000000000000000000000000000000000000000000000000000000000000000000000) :=
      (slogGo_step (10407586967439 / 545312768000) 14 35 (-33176349584505324937309278951443459160117890327333413333126116492251919883384440376716377536795561983814389335874590495587060136915016981501587991313691853652619179377253237316258439835277983430113689972356515718988684507046398946077143898594782698389554887947381619216149723957134622265940926005425471996641455014530627061897407098979337086725601289843535017244028903297646254889510892274749279982073075740144745889410761602941662988939505812259 / 33977487929207319488763935033159042193062936470437267581811049119512292498975557674901040335225890419127864105239166333755277489777563382844088058979768882611043088129271653168835466441887056063990908227069848069533391036750682630446261884410051092088158695594487593882227951366508177069931596909379584000000000000000000000000000000000000000000000000000000000000000000000000000000000000000000000000000000) (404810437098171503154049682305428143780246598736948216321012051789206127131998526454677676475311551175031963353310924125887456705735824704557822927311913270876102147068232314307770793414664438873262644932917743652149144530416212010590395257708221721788358815849822745800764167460641995640077477681092982443183421544955669697003892265747381217970752011230314505336072828611349230599387989062074773727008112161814206918858347307709302333747410419153204948399 / 606175423423497724147032857145329093847017610577186957907284225883177747583654993131058379614005045139020340285147323675734548274510724091937229990119905299250637105118139992587634611725333432101880105088576568086655432005395029480408694086257312309363891851007637092245553561690766097383973325960676114432000000000000000000000000000000000000000000000000000000000000000000000000000000000000000000000000000000000)
        (not_abs_lt _ _ (Or.inl (by norm_num)))).trans (by norm_num)
    have g36 : slogGo ((10407586967439 / 545312768000) : ℝ) 14 36 (5870116887250265731288029180574682340966779033834203920571462785638531203722187867982570944325533765886599068606580397145674248739497838368138582279178458451048157298412071075702589864232420848409737962923189312518543855947067690167794834308206687960788434713528802114349168336514724220578997217921363475515759057064936911861078293546989962226817613310626300159781491216905483666324374057267055205341817940241696872562716046676677151793780955702805167825421917 / 324246264866346050134868610451322258944238954985790189719395868846041193071234974100768782547429368670087675120226729170768788544777158870397684007865087944095662040713218672735088691984939479498456177612405049152392423856845828244218012510209467640840292570563240118827607827916199239321174251922995456990248960000000000000000000000000000000000000000000000000000000000000000000000000000000000000000000000000000000000) (4213099829426214817642984156717092273094379568180269174381981985416195010750994442403855454983898497246477968570179422143415657410657516833970650441486141166894391303502660736680756922346822419004774156837145599242705307618252577655782180732151878198564732480023257758614259313310518588791763015669970719092835415354305154589530087090249253983196085173958819013976871593860838932432050345371919296218934469704728296243187798796253688061456616672894016171245596888180161 / 330555198040639580196318926316867986436648941768591897669920648579092902170848215861318431756907862730724126569195596361406740952803066800258577368164898210632233245555479886369462512692546829582416298109982573523274537489097754459403266743442205735659696184525618171911894148417850420605012053217782551112398667776000000000000000000000000000000000000000000000000000000000000000000000000000000000000000000000000000000000000) =
        slogGo (10407586967439 / 545312768000) 13 37 (-6788477382480983903820344577875218969679078718609603328808495617222255303784572787679469542861990857381956274725527233218635120540366159568048906842012636186973771766739737003078324050467070870295265734987890921551140099430379048511271651760743353838714015309746223107105906247109149699010658021004640515118474828841413248895963404282958902744625819378844051773768394155207711149917235266926608600417695104571994889271663884567314737586605170312301648090612866081571758107 / 20207500366620378816561368603602773746845223108197559888357589088937107295508293132034118370163291464454627305428065196765516887926757079633407351670656557412369682767297596413537982325920772786032273136059454684624819025783523925612240502560108921032348547152420090085317913081080031912425596837309482914603155358482432000000000000000000000000000000000000000000000000000000000000000000000000000000000000000000000000000000000000) (43848202877255747249361511873381565092392273062632489996280904158600065356220184250771484744057569739531260932634838806953712767251855612705094694285437074463504654767999071115138932648114672350807755667419786335011291747456998968568886917969670782745368422394101562864165607365600582727263702699318987993181329077599252761587453531919656796769603835560538813955945401186834431114570909078918306136722267336566098786457092119336067615965654747779706119595543387428736417005472777679 / 180255970020329345967212657120639326774355491080101663180757179217020417411938449499197058150778529746655212103830394185249438282831997715737907940376155723678110141155482434404457073468607844609211715650667765599740350462099666306841539016108815057738065232422703612236374850196740833470083357413552309769203596644442963968000000000000000000000000000000000000000000000000000000000000000000000000000000000000000000000000000000000000000) :=
      (slogGo_step (10407586967439 / 545312768000) 13 36 (5870116887250265731288029180574682340966779033834203920571462785638531203722187867982570944325533765886599068606580397145674248739497838368138582279178458451048157298412071075702589864232420848409737962923189312518543855947067690167794834308206687960788434713528802114349168336514724220578997217921363475515759057064936911861078293546989962226817613310626300159781491216905483666324374057267055205341817940241696872562716046676677151793780955702805167825421917 / 324246264866346050134868610451322258944238954985790189719395868846041193071234974100768782547429368670087675120226729170768788544777158870397684007865087944095662040713218672735088691984939479498456177612405049152392423856845828244218012510209467640840292570563240118827607827916199239321174251922995456990248960000000000000000000000000000000000000000000000000000000000000000000000000000000000000000000000000000000000) (4213099829426214817642984156717092273094379568180269174381981985416195010750994442403855454983898497246477968570179422143415657410657516833970650441486141166894391303502660736680756922346822419004774156837145599242705307618252577655782180732151878198564732480023257758614259313310518588791763015669970719092835415354305154589530087090249253983196085173958819013976871593860838932432050345371919296218934469704728296243187798796253688061456616672894016171245596888180161 / 330555198040639580196318926316867986436648941768591897669920648579092902170848215861318431756907862730724126569195596361406740952803066800258577368164898210632233245555479886369462512692546829582416298109982573523274537489097754459403266743442205735659696184525618171911894148417850420605012053217782551112398667776000000000000000000000000000000000000000000000000000000000000000000000000000000000000000000000000000000000000)
        (not_abs_lt _ _ (Or.inl (by norm_num)))).trans (by norm_num)
    have g37 : slogGo ((10407586967439 / 545312768000) : ℝ) 13 37 (-6788477382480983903820344577875218969679078718609603328808495617222255303784572787679469542861990857381956274725527233218635120540366159568048906842012636186973771766739737003078324050467070870295265734987890921551140099430379048511271651760743353838714015309746223107105906247109149699010658021004640515118474828841413248895963404282958902744625819378844051773768394155207711149917235266926608600417695104571994889271663884567314737586605170312301648090612866081571758107 / 20207500366620378816561368603602773746845223108197559888357589088937107295508293132034118370163291464454627305428065196765516887926757079633407351670656557412369682767297596413537982325920772786032273136059454684624819025783523925612240502560108921032348547152420090085317913081080031912425596837309482914603155358482432000000000000000000000000000000000000000000000000000000000000000000000000000000000000000000000000000000000000) (43848202877255747249361511873381565092392273062632489996280904158600065356220184250771484744057569739531260932634838806953712767251855612705094694285437074463504654767999071115138932648114672350807755667419786335011291747456998968568886917969670782745368422394101562864165607365600582727263702699318987993181329077599252761587453531919656796769603835560538813955945401186834431114570909078918306136722267336566098786457092119336067615965654747779706119595543387428736417005472777679 / 180255970020329345967212657120639326774355491080101663180757179217020417411938449499197058150778529746655212103830394185249438282831997715737907940376155723678110141155482434404457073468607844609211715650667765599740350462099666306841539016108815057738065232422703612236374850196740833470083357413552309769203596644442963968000000000000000000000000000000000000000000000000000000000000000000000000000000000000000000000000000000000000000) =
        slogGo (10407586967439 / 545312768000) 12 38 (635890033197598159842401595603497382568634399204664557513976240551658936113200697975981148886426494722282018596271943800469614154344212611551824700582458352722357033333259662885817152630095714027915786764189933042531183460505694430984086398830835526518084370896247349977289266974447568431202882074539248893456389742051385006308242909177863611035144418991568906442640752867245728839508271010695020641622403423438300861180831893867048717408057437715706741194589934494342975958060317140157 / 101929523623365655593425708434665040750421573896556167580485942889027752454346246976760459669578885994370869443565076830327185115231292580316030540952445153223984619629331807665122745791367146499015558060698752081450775716153960406195991908978067759514201485043298634314915122915601235843161506199998838157501326998129807277948928000000000000000000000000000000000000000000000000000000000000000000000000000000000000000000000000000000000000000) (456353984810948176861416243087291434786058479053719285470546679700389458092370830682048625203581575321480409087220836886823984204964596786178907768723500844876286437796740084649177704042355052512264390968763159516185501989738074935343612676359685096770070346147419100770431752645232530553373683602863784698464521104766718155502411571862030669685025914514930983436611608882344388375887792386388766491911926024756207624717865413175129453343443156022664031668011656788792321985650935710651458994081 / 98295881960310811921010371299090741212980304256889547670502381734705476531419552142035361557658001411118892453966855655689475960456283553338715741495700438877953382082366844680472918270345904850363118959494560307569590591777648125660096978254294528335224170856987852832216239846370088478198200821917530753037854441736704499514343424000000000000000000000000000000000000000000000000000000000000000000000000000000000000000000000000000000000000000000) :=
      (slogGo_step (10407586967439 / 545312768000) 12 37 (-6788477382480983903820344577875218969679078718609603328808495617222255303784572787679469542861990857381956274725527233218635120540366159568048906842012636186973771766739737003078324050467070870295265734987890921551140099430379048511271651760743353838714015309746223107105906247109149699010658021004640515118474828841413248895963404282958902744625819378844051773768394155207711149917235266926608600417695104571994889271663884567314737586605170312301648090612866081571758107 / 20207500366620378816561368603602773746845223108197559888357589088937107295508293132034118370163291464454627305428065196765516887926757079633407351670656557412369682767297596413537982325920772786032273136059454684624819025783523925612240502560108921032348547152420090085317913081080031912425596837309482914603155358482432000000000000000000000000000000000000000000000000000000000000000000000000000000000000000000000000000000000000) (43848202877255747249361511873381565092392273062632489996280904158600065356220184250771484744057569739531260932634838806953712767251855612705094694285437074463504654767999071115138932648114672350807755667419786335011291747456998968568886917969670782745368422394101562864165607365600582727263702699318987993181329077599252761587453531919656796769603835560538813955945401186834431114570909078918306136722267336566098786457092119336067615965654747779706119595543387428736417005472777679 / 180255970020329345967212657120639326774355491080101663180757179217020417411938449499197058150778529746655212103830394185249438282831997715737907940376155723678110141155482434404457073468607844609211715650667765599740350462099666306841539016108815057738065232422703612236374850196740833470083357413552309769203596644442963968000000000000000000000000000000000000000000000000000000000000000000000000000000000000000000000000000000000000000)
        (not_abs_lt _ _ (Or.inl (by norm_num)))).trans (by norm_num)
    have g38 : slogGo ((10407586967439 / 545312768000) : ℝ) 12 38 (635890033197598159842401595603497382568634399204664557513976240551658936113200697975981148886426494722282018596271943800469614154344212611551824700582458352722357033333259662885817152630095714027915786764189933042531183460505694430984086398830835526518084370896247349977289266974447568431202882074539248893456389742051385006308242909177863611035144418991568906442640752867245728839508271010695020641622403423438300861180831893867048717408057437715706741194589934494342975958060317140157 / 101929523623365655593425708434665040750421573896556167580485942889027752454346246976760459669578885994370869443565076830327185115231292580316030540952445153223984619629331807665122745791367146499015558060698752081450775716153960406195991908978067759514201485043298634314915122915601235843161506199998838157501326998129807277948928000000000000000000000000000000000000000000000000000000000000000000000000000000000000000000000000000000000000000) (456353984810948176861416243087291434786058479053719285470546679700389458092370830682048625203581575321480409087220836886823984204964596786178907768723500844876286437796740084649177704042355052512264390968763159516185501989738074935343612676359685096770070346147419100770431752645232530553373683602863784698464521104766718155502411571862030669685025914514930983436611608882344388375887792386388766491911926024756207624717865413175129453343443156022664031668011656788792321985650935710651458994081 / 98295881960310811921010371299090741212980304256889547670502381734705476531419552142035361557658001411118892453966855655689475960456283553338715741495700438877953382082366844680472918270345904850363118959494560307569590591777648125660096978254294528335224170856987852832216239846370088478198200821917530753037854441736704499514343424000000000000000000000000000000000000000000000000000000000000000000000000000000000000000000000000000000000000000000) =
        slogGo (10407586967439 / 545312768000) 11 39 (-244878103887461099065177978995899702969475509188993818196276721384843485962085689906401775585521537698922138451140153785355413222578433480725911451376681866343464111992773744863876716343715906890145688321348901899500953023230940173186647553226078885736372517072990317569063160402252258709687401115236493151953628856487596705381205648675628515235179390867470858191555363523633778851974957893621664323171719265922300476803398551887235369828505916578469746326893123951461326860228221976112830579108089151 / 2112171885383198774855854915416989339928917053881008397609892787472414339748537131633737361544076253205978826923809489710178579111736654453219883304253978469164696722940926357075844659555529228142307963163485243443903990537877741604075346538836498886825406790509527568897673675762336131470498163044880065233140606382885249141705261031882752000000000000000000000000000000000000000000000000000000000000000000000000000000000000000000000000000000000000000000) (4749543784857279603747292906359559910725433599770411000644396852336466781254822311640003787198482671501540652328117847823432099427919123274225144213194298130217544328272898046274027537019186672587837351157576030725681283090355991814246565853792893582290219687719118575823922153031709399082978328258877776605690576244492462215561767282646813000015589166954578206591426552973461389165825271591996295194053540697070161352227658273472690303538935395544597278101622899901369159297808068865231768483308336240728559 / 53601999474778354988973562929814927974021967243806622310469605734344885072107434947893632164887276346845149221166978637860483084465874527464010722560192866423351572958297068064134762611040097691416138204915258562263704798229027339933719310360285157133735524510528978170312477325175967700451168542819723762664196814404537057828221268244037632000000000000000000000000000000000000000000000000000000000000000000000000000000000000000000000000000000000000000000000) :=
      (slogGo_step (10407586967439 / 545312768000) 11 38 (635890033197598159842401595603497382568634399204664557513976240551658936113200697975981148886426494722282018596271943800469614154344212611551824700582458352722357033333259662885817152630095714027915786764189933042531183460505694430984086398830835526518084370896247349977289266974447568431202882074539248893456389742051385006308242909177863611035144418991568906442640752867245728839508271010695020641622403423438300861180831893867048717408057437715706741194589934494342975958060317140157 / 101929523623365655593425708434665040750421573896556167580485942889027752454346246976760459669578885994370869443565076830327185115231292580316030540952445153223984619629331807665122745791367146499015558060698752081450775716153960406195991908978067759514201485043298634314915122915601235843161506199998838157501326998129807277948928000000000000000000000000000000000000000000000000000000000000000000000000000000000000000000000000000000000000000) (456353984810948176861416243087291434786058479053719285470546679700389458092370830682048625203581575321480409087220836886823984204964596786178907768723500844876286437796740084649177704042355052512264390968763159516185501989738074935343612676359685096770070346147419100770431752645232530553373683602863784698464521104766718155502411571862030669685025914514930983436611608882344388375887792386388766491911926024756207624717865413175129453343443156022664031668011656788792321985650935710651458994081 / 98295881960310811921010371299090741212980304256889547670502381734705476531419552142035361557658001411118892453966855655689475960456283553338715741495700438877953382082366844680472918270345904850363118959494560307569590591777648125660096978254294528335224170856987852832216239846370088478198200821917530753037854441736704499514343424000000000000000000000000000000000000000000000000000000000000000000000000000000000000000000000000000000000000000000)
        (not_abs_lt _ _ (Or.inl (by norm_num)))).trans (by norm_num)
    have g39 : slogGo ((10407586967439 / 545312768000) : ℝ) 11 39 (-244878103887461099065177978995899702969475509188993818196276721384843485962085689906401775585521537698922138451140153785355413222578433480725911451376681866343464111992773744863876716343715906890145688321348901899500953023230940173186647553226078885736372517072990317569063160402252258709687401115236493151953628856487596705381205648675628515235179390867470858191555363523633778851974957893621664323171719265922300476803398551887235369828505916578469746326893123951461326860228221976112830579108089151 / 2112171885383198774855854915416989339928917053881008397609892787472414339748537131633737361544076253205978826923809489710178579111736654453219883304253978469164696722940926357075844659555529228142307963163485243443903990537877741604075346538836498886825406790509527568897673675762336131470498163044880065233140606382885249141705261031882752000000000000000000000000000000000000000000000000000000000000000000000000000000000000000000000000000000000000000000) (4749543784857279603747292906359559910725433599770411000644396852336466781254822311640003787198482671501540652328117847823432099427919123274225144213194298130217544328272898046274027537019186672587837351157576030725681283090355991814246565853792893582290219687719118575823922153031709399082978328258877776605690576244492462215561767282646813000015589166954578206591426552973461389165825271591996295194053540697070161352227658273472690303538935395544597278101622899901369159297808068865231768483308336240728559 / 53601999474778354988973562929814927974021967243806622310469605734344885072107434947893632164887276346845149221166978637860483084465874527464010722560192866423351572958297068064134762611040097691416138204915258562263704798229027339933719310360285157133735524510528978170312477325175967700451168542819723762664196814404537057828221268244037632000000000000000000000000000000000000000000000000000000000000000000000000000000000000000000000000000000000000000000000) =
        slogGo (10407586967439 / 545312768000) 10 40 (849560011281246603142838820338251557080415660790360425338949273784789841118408107952795431451869597829738637584250092240004870796084655197239592915757524703817982917940774850501466441614508310530201017286094333255471840470149026987009961032972536267977051082809618314832360487024739785969458717493676519254499781416554526063954036350161813416648127811312418099978143620999656975720480840229128044860974768727376761700779018706753520151191885256033109176548667066134398509450245641883246384246631699158874544760763 / 394034891185031085261608304845309902773176285911193468818806259514674574585925623516464680960842649560649353878152663505284867993328032953954820894858852664800627485059915617878826528529556916061616076129331270268003652407471762146215582497933630505164417290146413313594281969252079535210043695451998556205367318478895923670153367414077914649460736000000000000000000000000000000000000000000000000000000000000000000000000000000000000000000000000000000000000000000000) (49431289996561524880587595759804368728613553049202889072839263711235725389591837513496182806287531356674910706379973867019284970409945914967748473054321284968356880104843285285833134147194295331316695127889451257850367951575600587072977524110896389174076712716097714889381346541502100104808327426927971635952970083286797718255752784666993592080130367517829698868196224319357968107515307648263893277602802739649221010740045473497552035415593609042978533137478203199648847700820315190120962375333077943665632684842770390401 / 29229854703925930945523783080079568101234551050525520068852736082864281945312784944815812325408513072679056389167609311208569628607263840112091707500978818603172106087042922752337728924449183031096544164392890852023721209457152396686933413667618176305912265050768402230264672435128943033811621566919550090013788219359720374762883408302626660602085376000000000000000000000000000000000000000000000000000000000000000000000000000000000000000000000000000000000000000000000000) :=
      (slogGo_step (10407586967439 / 545312768000) 10 39 (-244878103887461099065177978995899702969475509188993818196276721384843485962085689906401775585521537698922138451140153785355413222578433480725911451376681866343464111992773744863876716343715906890145688321348901899500953023230940173186647553226078885736372517072990317569063160402252258709687401115236493151953628856487596705381205648675628515235179390867470858191555363523633778851974957893621664323171719265922300476803398551887235369828505916578469746326893123951461326860228221976112830579108089151 / 2112171885383198774855854915416989339928917053881008397609892787472414339748537131633737361544076253205978826923809489710178579111736654453219883304253978469164696722940926357075844659555529228142307963163485243443903990537877741604075346538836498886825406790509527568897673675762336131470498163044880065233140606382885249141705261031882752000000000000000000000000000000000000000000000000000000000000000000000000000000000000000000000000000000000000000000) (4749543784857279603747292906359559910725433599770411000644396852336466781254822311640003787198482671501540652328117847823432099427919123274225144213194298130217544328272898046274027537019186672587837351157576030725681283090355991814246565853792893582290219687719118575823922153031709399082978328258877776605690576244492462215561767282646813000015589166954578206591426552973461389165825271591996295194053540697070161352227658273472690303538935395544597278101622899901369159297808068865231768483308336240728559 / 53601999474778354988973562929814927974021967243806622310469605734344885072107434947893632164887276346845149221166978637860483084465874527464010722560192866423351572958297068064134762611040097691416138204915258562263704798229027339933719310360285157133735524510528978170312477325175967700451168542819723762664196814404537057828221268244037632000000000000000000000000000000000000000000000000000000000000000000000000000000000000000000000000000000000000000000000)
        (not_abs_lt _ _ (Or.inl (by norm_num)))).trans (by norm_num)
    have g40 : slogGo ((10407586967439 / 545312768000) : ℝ) 10 40 (849560011281246603142838820338251557080415660790360425338949273784789841118408107952795431451869597829738637584250092240004870796084655197239592915757524703817982917940774850501466441614508310530201017286094333255471840470149026987009961032972536267977051082809618314832360487024739785969458717493676519254499781416554526063954036350161813416648127811312418099978143620999656975720480840229128044860974768727376761700779018706753520151191885256033109176548667066134398509450245641883246384246631699158874544760763 / 394034891185031085261608304845309902773176285911193468818806259514674574585925623516464680960842649560649353878152663505284867993328032953954820894858852664800627485059915617878826528529556916061616076129331270268003652407471762146215582497933630505164417290146413313594281969252079535210043695451998556205367318478895923670153367414077914649460736000000000000000000000000000000000000000000000000000000000000000000000000000000000000000000000000000000000000000000000) (49431289996561524880587595759804368728613553049202889072839263711235725389591837513496182806287531356674910706379973867019284970409945914967748473054321284968356880104843285285833134147194295331316695127889451257850367951575600587072977524110896389174076712716097714889381346541502100104808327426927971635952970083286797718255752784666993592080130367517829698868196224319357968107515307648263893277602802739649221010740045473497552035415593609042978533137478203199648847700820315190120962375333077943665632684842770390401 / 29229854703925930945523783080079568101234551050525520068852736082864281945312784944815812325408513072679056389167609311208569628607263840112091707500978818603172106087042922752337728924449183031096544164392890852023721209457152396686933413667618176305912265050768402230264672435128943033811621566919550090013788219359720374762883408302626660602085376000000000000000000000000000000000000000000000000000000000000000000000000000000000000000000000000000000000000000000000000) =
        slogGo (10407586967439 / 545312768000) 9 41 (-26526496612310602615287920864980008026655276109897682236879061238674104303905395670282256325922606584813144373039340199469100933264850874519859055661623414061365227401584296469890760958314511788297359943485249895992041414490540632561072590784320713558743700550301998073798805708159614241699198651668673925226957108244249378290989796477262285131352851792814504027551995662187466899168960219552011785211438079337151856312097501798584885888059670781893488066521539119834209216066294883933537427281902220821413134490013694439723871 / 661145406771348003907851165683026938150928112683668654354169021020533935035918632621197688458443091828835947817559888192736843058327123637280984397291439741374173360045849942867486716505488159111087757007336495319388226241317816916278276974401668710955220577220922367101999783462591941850899658362702596358007473527582417601501697751051784015892872786083840000000000000000000000000000000000000000000000000000000000000000000000000000000000000000000000000000000000000000000000000) (514460449551911537469340202354182364988134892566308447841828702989909423798739489001075375447392421254293855389189265568291309923318999853803195490165146468138211116885057239884325998927582753597578878812982680289128715031169019315959958215545530655740164204369681425463574045794686192785651904507575058186511179611939934322246814852788435416474489419562661745406500912827896577159576118632265935910245691944712757145786672318675346433061079817591642318712263342914595977512271271722195173539477006773260820153848048307956925705153039 / 15939412976835669870880431361229754941528717250599379203385636097720198955930939384046237869337032994426801415205074249437718529496559029557834159287205122281865674750715025140887465430625046874025886573519334350038933814389387550835185689238777899688489032019984177947123001898213464362682132947225397092900068012064840305267945295042779525963519722958880768000000000000000000000000000000000000000000000000000000000000000000000000000000000000000000000000000000000000000000000000000) :=
      (slogGo_step (10407586967439 / 545312768000) 9 40 (849560011281246603142838820338251557080415660790360425338949273784789841118408107952795431451869597829738637584250092240004870796084655197239592915757524703817982917940774850501466441614508310530201017286094333255471840470149026987009961032972536267977051082809618314832360487024739785969458717493676519254499781416554526063954036350161813416648127811312418099978143620999656975720480840229128044860974768727376761700779018706753520151191885256033109176548667066134398509450245641883246384246631699158874544760763 / 394034891185031085261608304845309902773176285911193468818806259514674574585925623516464680960842649560649353878152663505284867993328032953954820894858852664800627485059915617878826528529556916061616076129331270268003652407471762146215582497933630505164417290146413313594281969252079535210043695451998556205367318478895923670153367414077914649460736000000000000000000000000000000000000000000000000000000000000000000000000000000000000000000000000000000000000000000000) (49431289996561524880587595759804368728613553049202889072839263711235725389591837513496182806287531356674910706379973867019284970409945914967748473054321284968356880104843285285833134147194295331316695127889451257850367951575600587072977524110896389174076712716097714889381346541502100104808327426927971635952970083286797718255752784666993592080130367517829698868196224319357968107515307648263893277602802739649221010740045473497552035415593609042978533137478203199648847700820315190120962375333077943665632684842770390401 / 29229854703925930945523783080079568101234551050525520068852736082864281945312784944815812325408513072679056389167609311208569628607263840112091707500978818603172106087042922752337728924449183031096544164392890852023721209457152396686933413667618176305912265050768402230264672435128943033811621566919550090013788219359720374762883408302626660602085376000000000000000000000000000000000000000000000000000000000000000000000000000000000000000000000000000000000000000000000000)
        (not_abs_lt _ _ (Or.inl (by norm_num)))).trans (by norm_num)
    have g41 : slogGo ((10407586967439 / 545312768000) : ℝ) 9 41 (-26526496612310602615287920864980008026655276109897682236879061238674104303905395670282256325922606584813144373039340199469100933264850874519859055661623414061365227401584296469890760958314511788297359943485249895992041414490540632561072590784320713558743700550301998073798805708159614241699198651668673925226957108244249378290989796477262285131352851792814504027551995662187466899168960219552011785211438079337151856312097501798584885888059670781893488066521539119834209216066294883933537427281902220821413134490013694439723871 / 661145406771348003907851165683026938150928112683668654354169021020533935035918632621197688458443091828835947817559888192736843058327123637280984397291439741374173360045849942867486716505488159111087757007336495319388226241317816916278276974401668710955220577220922367101999783462591941850899658362702596358007473527582417601501697751051784015892872786083840000000000000000000000000000000000000000000000000000000000000000000000000000000000000000000000000000000000000000000000000) (514460449551911537469340202354182364988134892566308447841828702989909423798739489001075375447392421254293855389189265568291309923318999853803195490165146468138211116885057239884325998927582753597578878812982680289128715031169019315959958215545530655740164204369681425463574045794686192785651904507575058186511179611939934322246814852788435416474489419562661745406500912827896577159576118632265935910245691944712757145786672318675346433061079817591642318712263342914595977512271271722195173539477006773260820153848048307956925705153039 / 15939412976835669870880431361229754941528717250599379203385636097720198955930939384046237869337032994426801415205074249437718529496559029557834159287205122281865674750715025140887465430625046874025886573519334350038933814389387550835185689238777899688489032019984177947123001898213464362682132947225397092900068012064840305267945295042779525963519722958880768000000000000000000000000000000000000000000000000000000000000000000000000000000000000000000000000000000000000000000000000000) =
        slogGo (10407586967439 / 545312768000) 8 42 (276085596643242208476737310940478473609486079277138112579755342128971615205316568948752840277778713919783831116913393333674433564249328081151010619091151954806783854612470137693967728435879207745785336239435007388119893102441042698902885372984979315638831393410738611887619936858361008707043326777676580520803352812206490671363136417359937503978088157693788624142402662483770278860566109717175110896876214136257122964883200018107203737677735359379539434789344190436475998762919721423992840053476342360332560402425296447774057901336642065169 / 369544307612393966179821764492903981018188596168960943858224840222371483576178193201876417142687136760052230745354570177055641518310897971127019635338101875775803463645424615239153814545360011116993976371196612084285503661219836078091254762061180086304732838440271396605441231261771302171839364391820193300291068712863009802666982051258558834370815911712531937230848000000000000000000000000000000000000000000000000000000000000000000000000000000000000000000000000000000000000000000000000000) (5354291870019283644656126417059571448625235875740848202897225095286858052250810973803478562162385247402167795067343915540704573201772477318254083702215557879623826074300110047181643982327185356685343130717808101572763202990779190105639315697682663304404784669707752939314965318030746183994667424584667914435025858672900585888693559586609295769195236318852054076510179523654673431201360888894670736337095091116287234592854390173145555388834909308627327964278143168704484497166847204272321221045807836873390441898381382515818195573531143821404897121 / 8691965410693379018424010622626205551126702955413697132479856191888520182169410572354469012514599787098207653111796326606404734924658250883576361485858732215302647302500120338766933750478456281004803511059863715937211906093475155170675819992785789416356291788458203392550201801584038506483549821595479208628489235047335462343628230512354781716894807149300421780045824000000000000000000000000000000000000000000000000000000000000000000000000000000000000000000000000000000000000000000000000000000) :=
      (slogGo_step (10407586967439 / 545312768000) 8 41 (-26526496612310602615287920864980008026655276109897682236879061238674104303905395670282256325922606584813144373039340199469100933264850874519859055661623414061365227401584296469890760958314511788297359943485249895992041414490540632561072590784320713558743700550301998073798805708159614241699198651668673925226957108244249378290989796477262285131352851792814504027551995662187466899168960219552011785211438079337151856312097501798584885888059670781893488066521539119834209216066294883933537427281902220821413134490013694439723871 / 661145406771348003907851165683026938150928112683668654354169021020533935035918632621197688458443091828835947817559888192736843058327123637280984397291439741374173360045849942867486716505488159111087757007336495319388226241317816916278276974401668710955220577220922367101999783462591941850899658362702596358007473527582417601501697751051784015892872786083840000000000000000000000000000000000000000000000000000000000000000000000000000000000000000000000000000000000000000000000000) (514460449551911537469340202354182364988134892566308447841828702989909423798739489001075375447392421254293855389189265568291309923318999853803195490165146468138211116885057239884325998927582753597578878812982680289128715031169019315959958215545530655740164204369681425463574045794686192785651904507575058186511179611939934322246814852788435416474489419562661745406500912827896577159576118632265935910245691944712757145786672318675346433061079817591642318712263342914595977512271271722195173539477006773260820153848048307956925705153039 / 15939412976835669870880431361229754941528717250599379203385636097720198955930939384046237869337032994426801415205074249437718529496559029557834159287205122281865674750715025140887465430625046874025886573519334350038933814389387550835185689238777899688489032019984177947123001898213464362682132947225397092900068012064840305267945295042779525963519722958880768000000000000000000000000000000000000000000000000000000000000000000000000000000000000000000000000000000000000000000000000000)
        (not_abs_lt _ _ (Or.inl (by norm_num)))).trans (by norm_num)
    have g42 : slogGo ((10407586967439 / 545312768000) : ℝ) 8 42 (276085596643242208476737310940478473609486079277138112579755342128971615205316568948752840277778713919783831116913393333674433564249328081151010619091151954806783854612470137693967728435879207745785336239435007388119893102441042698902885372984979315638831393410738611887619936858361008707043326777676580520803352812206490671363136417359937503978088157693788624142402662483770278860566109717175110896876214136257122964883200018107203737677735359379539434789344190436475998762919721423992840053476342360332560402425296447774057901336642065169 / 369544307612393966179821764492903981018188596168960943858224840222371483576178193201876417142687136760052230745354570177055641518310897971127019635338101875775803463645424615239153814545360011116993976371196612084285503661219836078091254762061180086304732838440271396605441231261771302171839364391820193300291068712863009802666982051258558834370815911712531937230848000000000000000000000000000000000000000000000000000000000000000000000000000000000000000000000000000000000000000000000000000) (5354291870019283644656126417059571448625235875740848202897225095286858052250810973803478562162385247402167795067343915540704573201772477318254083702215557879623826074300110047181643982327185356685343130717808101572763202990779190105639315697682663304404784669707752939314965318030746183994667424584667914435025858672900585888693559586609295769195236318852054076510179523654673431201360888894670736337095091116287234592854390173145555388834909308627327964278143168704484497166847204272321221045807836873390441898381382515818195573531143821404897121 / 8691965410693379018424010622626205551126702955413697132479856191888520182169410572354469012514599787098207653111796326606404734924658250883576361485858732215302647302500120338766933750478456281004803511059863715937211906093475155170675819992785789416356291788458203392550201801584038506483549821595479208628489235047335462343628230512354781716894807149300421780045824000000000000000000000000000000000000000000000000000000000000000000000000000000000000000000000000000000000000000000000000000000) =
        slogGo (10407586967439 / 545312768000) 7 43 (-39270780620353138497522683356545330668245010394571222653871854459403805756011094941541664961618867101220849098963069056060320119722178924662600010683683104938252940647050853675915961021306073936626624039552253883505351546701664369532525994517744160883396803527546778751526607371343189445513525404351775539071638056158322806490620012843557005384917294473573443038344525805386278449020930811740728468518382377295070058338475975449846483327762937038210745109771928358440537921617988884388917839104190380252916783009802537150709809873074296265704251036334877 / 2821241209958612347256237889991774207461470344121024031709096620632267809264691771546156165564019229064660872812536053265806467529121738400812028197111993296434137478582634144599571280224845009062062599320253480110655682252834922955502888072498688974930378578825056771357945463529584979184061896270097486336274890396853351124248520704093716423262444285281661753716583690141696000000000000000000000000000000000000000000000000000000000000000000000000000000000000000000000000000000000000000000000000000000) (55725258286277288629737826014897641768406466833607761775448763903244718807815475991075767920324867127285159275099567084722749652974434003872342430276419291957879717022715458620331181302815134356273257858766502587120820270214451966231219159714376258300055079811525509660072078492353073864443382260380504173689715509469040405739234560615569287027046062433246403151842616992806616222096856376221107621483004642193533249177112998481025632944825718250795284367543241381886979978228496081921242981669424769069070032591383219060460550516984010461036355044092171843119 / 4739839717465463311809920230285699578421867907330423768426253084240668087962665524139079774384563050314734303157177468313970612530071662243361471421222218121297458558254073942266094350346028318961715223912172896640486738714389003605350743830935758857698353949379813344298541123380378822589130499680136943543650948421865111995163677543634244216075699651411202264444275452280832000000000000000000000000000000000000000000000000000000000000000000000000000000000000000000000000000000000000000000000000000000000) :=
      (slogGo_step (10407586967439 / 545312768000) 7 42 (276085596643242208476737310940478473609486079277138112579755342128971615205316568948752840277778713919783831116913393333674433564249328081151010619091151954806783854612470137693967728435879207745785336239435007388119893102441042698902885372984979315638831393410738611887619936858361008707043326777676580520803352812206490671363136417359937503978088157693788624142402662483770278860566109717175110896876214136257122964883200018107203737677735359379539434789344190436475998762919721423992840053476342360332560402425296447774057901336642065169 / 369544307612393966179821764492903981018188596168960943858224840222371483576178193201876417142687136760052230745354570177055641518310897971127019635338101875775803463645424615239153814545360011116993976371196612084285503661219836078091254762061180086304732838440271396605441231261771302171839364391820193300291068712863009802666982051258558834370815911712531937230848000000000000000000000000000000000000000000000000000000000000000000000000000000000000000000000000000000000000000000000000000) (5354291870019283644656126417059571448625235875740848202897225095286858052250810973803478562162385247402167795067343915540704573201772477318254083702215557879623826074300110047181643982327185356685343130717808101572763202990779190105639315697682663304404784669707752939314965318030746183994667424584667914435025858672900585888693559586609295769195236318852054076510179523654673431201360888894670736337095091116287234592854390173145555388834909308627327964278143168704484497166847204272321221045807836873390441898381382515818195573531143821404897121 / 8691965410693379018424010622626205551126702955413697132479856191888520182169410572354469012514599787098207653111796326606404734924658250883576361485858732215302647302500120338766933750478456281004803511059863715937211906093475155170675819992785789416356291788458203392550201801584038506483549821595479208628489235047335462343628230512354781716894807149300421780045824000000000000000000000000000000000000000000000000000000000000000000000000000000000000000000000000000000000000000000000000000000)
        (not_abs_lt _ _ (Or.inl (by norm_num)))).trans (by norm_num)
    have g43 : slogGo ((10407586967439 / 545312768000) : ℝ) 7 43 (-39270780620353138497522683356545330668245010394571222653871854459403805756011094941541664961618867101220849098963069056060320119722178924662600010683683104938252940647050853675915961021306073936626624039552253883505351546701664369532525994517744160883396803527546778751526607371343189445513525404351775539071638056158322806490620012843557005384917294473573443038344525805386278449020930811740728468518382377295070058338475975449846483327762937038210745109771928358440537921617988884388917839104190380252916783009802537150709809873074296265704251036334877 / 2821241209958612347256237889991774207461470344121024031709096620632267809264691771546156165564019229064660872812536053265806467529121738400812028197111993296434137478582634144599571280224845009062062599320253480110655682252834922955502888072498688974930378578825056771357945463529584979184061896270097486336274890396853351124248520704093716423262444285281661753716583690141696000000000000000000000000000000000000000000000000000000000000000000000000000000000000000000000000000000000000000000000000000000) (55725258286277288629737826014897641768406466833607761775448763903244718807815475991075767920324867127285159275099567084722749652974434003872342430276419291957879717022715458620331181302815134356273257858766502587120820270214451966231219159714376258300055079811525509660072078492353073864443382260380504173689715509469040405739234560615569287027046062433246403151842616992806616222096856376221107621483004642193533249177112998481025632944825718250795284367543241381886979978228496081921242981669424769069070032591383219060460550516984010461036355044092171843119 / 4739839717465463311809920230285699578421867907330423768426253084240668087962665524139079774384563050314734303157177468313970612530071662243361471421222218121297458558254073942266094350346028318961715223912172896640486738714389003605350743830935758857698353949379813344298541123380378822589130499680136943543650948421865111995163677543634244216075699651411202264444275452280832000000000000000000000000000000000000000000000000000000000000000000000000000000000000000000000000000000000000000000000000000000000) =
        slogGo (10407586967439 / 545312768000) 6 44 (1226177511699448430047350421724017102573927859925872355249011437218422525897841515896193542969734446102683737728226358113316847115670846597811726005608735211528806063876595720136003428284989360950869411158504244864136458135896353057884616158519325527734237947803069941726145491959795970841891592934653758778776708641338900380986604690594254669082849417212116793574785934651038160862100227573776491561026626697562640947087077549770597249383491356075027713190879075118660871123865659371472705554965611468903950443970234179115681979115145612973703116942537515024327674009 / 4725266478294471626743920030677816948784163414872112149586407978999028455361377137726592607955086364377034262570864225226100834007580165598693151670430799916461828117139484893663206575471906960949470922318421484223807688894395797886362635089483080338248985432471493536935200532781823178590969749139296903133334163537271638131465323431239292690684359471219082793859553942979812142350336000000000000000000000000000000000000000000000000000000000000000000000000000000000000000000000000000000000000000000000000000000000) (579965471897431652478632416368017149928442041312304337984155143195091791829324557222252564477172043636962370432923606940071384046893779220559195136805925957299544925008770645859358690085218261328639337163932539221888925734379388677419705048339538999532490001422301890763458463138386503172112269349025780511289228770537535125424958351738094381058401692893796794350940113633165780604308124354330168340811954571924953973739845814066165780562664228216169529280801006652413485655049223780656402556426350797903115467629666971503772443745750081098629610662473357885526136469202241 / 2584695116207429742965514690636292267925661860276720875773511073235815893216188617626452408742461573437651034039191584313523607789428861376288533605259581706824476877766818308733796102736354460419399814779286791161601724355636228984795793729306502692872007501180037898102774478352383892634659679493798591302848027509752495944712707614378630493056229874447677813031975828637712411262976000000000000000000000000000000000000000000000000000000000000000000000000000000000000000000000000000000000000000000000000000000000000) :=
      (slogGo_step (10407586967439 / 545312768000) 6 43 (-39270780620353138497522683356545330668245010394571222653871854459403805756011094941541664961618867101220849098963069056060320119722178924662600010683683104938252940647050853675915961021306073936626624039552253883505351546701664369532525994517744160883396803527546778751526607371343189445513525404351775539071638056158322806490620012843557005384917294473573443038344525805386278449020930811740728468518382377295070058338475975449846483327762937038210745109771928358440537921617988884388917839104190380252916783009802537150709809873074296265704251036334877 / 2821241209958612347256237889991774207461470344121024031709096620632267809264691771546156165564019229064660872812536053265806467529121738400812028197111993296434137478582634144599571280224845009062062599320253480110655682252834922955502888072498688974930378578825056771357945463529584979184061896270097486336274890396853351124248520704093716423262444285281661753716583690141696000000000000000000000000000000000000000000000000000000000000000000000000000000000000000000000000000000000000000000000000000000) (55725258286277288629737826014897641768406466833607761775448763903244718807815475991075767920324867127285159275099567084722749652974434003872342430276419291957879717022715458620331181302815134356273257858766502587120820270214451966231219159714376258300055079811525509660072078492353073864443382260380504173689715509469040405739234560615569287027046062433246403151842616992806616222096856376221107621483004642193533249177112998481025632944825718250795284367543241381886979978228496081921242981669424769069070032591383219060460550516984010461036355044092171843119 / 4739839717465463311809920230285699578421867907330423768426253084240668087962665524139079774384563050314734303157177468313970612530071662243361471421222218121297458558254073942266094350346028318961715223912172896640486738714389003605350743830935758857698353949379813344298541123380378822589130499680136943543650948421865111995163677543634244216075699651411202264444275452280832000000000000000000000000000000000000000000000000000000000000000000000000000000000000000000000000000000000000000000000000000000000)
        (not_abs_lt _ _ (Or.inl (by norm_num)))).trans (by norm_num)
    have g44 : slogGo ((10407586967439 / 545312768000) : ℝ) 6 44 (1226177511699448430047350421724017102573927859925872355249011437218422525897841515896193542969734446102683737728226358113316847115670846597811726005608735211528806063876595720136003428284989360950869411158504244864136458135896353057884616158519325527734237947803069941726145491959795970841891592934653758778776708641338900380986604690594254669082849417212116793574785934651038160862100227573776491561026626697562640947087077549770597249383491356075027713190879075118660871123865659371472705554965611468903950443970234179115681979115145612973703116942537515024327674009 / 4725266478294471626743920030677816948784163414872112149586407978999028455361377137726592607955086364377034262570864225226100834007580165598693151670430799916461828117139484893663206575471906960949470922318421484223807688894395797886362635089483080338248985432471493536935200532781823178590969749139296903133334163537271638131465323431239292690684359471219082793859553942979812142350336000000000000000000000000000000000000000000000000000000000000000000000000000000000000000000000000000000000000000000000000000000000) (579965471897431652478632416368017149928442041312304337984155143195091791829324557222252564477172043636962370432923606940071384046893779220559195136805925957299544925008770645859358690085218261328639337163932539221888925734379388677419705048339538999532490001422301890763458463138386503172112269349025780511289228770537535125424958351738094381058401692893796794350940113633165780604308124354330168340811954571924953973739845814066165780562664228216169529280801006652413485655049223780656402556426350797903115467629666971503772443745750081098629610662473357885526136469202241 / 2584695116207429742965514690636292267925661860276720875773511073235815893216188617626452408742461573437651034039191584313523607789428861376288533605259581706824476877766818308733796102736354460419399814779286791161601724355636228984795793729306502692872007501180037898102774478352383892634659679493798591302848027509752495944712707614378630493056229874447677813031975828637712411262976000000000000000000000000000000000000000000000000000000000000000000000000000000000000000000000000000000000000000000000000000000000000) =
        slogGo (10407586967439 / 545312768000) 5 45 (-548761683268044209160922494917979994138316150203296687564729152951532903178287976287472532472066965022666131355843271858009442214861941777288756698097086114971405992251805530601962103552832227145555779517989751204327817472020193521076201865337011139616014425484465053059873626901824719527721982743092480912697747930652390075730267749426976529692093566442786263513399015830997092722559032057636803993951977822524714434395595378139774232819992275133206665579396516540258372461112852793723225766087893271891906403148380729800020379769837493986946717050483864925073295605682971457232893 / 113376918283920290642596353800380872167707480998442729061085344369030827357370588319686639459102386461649874571547697739649700752150411215718956547682043503215598603303492672976137428846761005609008251458538741465921127702550176618251162151666477634050344942852399117755690755323318552454576002363126286920144518334648867798924002950317391680170847258612529752400591977611231963208463156995162112000000000000000000000000000000000000000000000000000000000000000000000000000000000000000000000000000000000000000000000000000000000000) (6036041086884319269272860478013612396013297900595400260877557725198300178874200646772434993055511806178283373143748359916171150102794751045853666835656623666615543771806773956616884331441368160901757686034135706687913889313167067829933241079469941598543619652655323732073618510850079553140531487230271573640518691364183855585943484798128749594132376558096854375213600343566097907052738396767633216630301456502178663136244734337536324565820412926046729247792287863510410534318941279365592651191076531381897683469878100045462446277352165308485674863093340354594954299966478614228772830799 / 1409467248255155175302053344495540217879540287259527906731437464424873481468112237487974353031619119744920760789973783324312938396999813536192189826945121859070619976367021350488704927930773825040449353895980189154170971621945008428780824193285171703849488280185249732559325899270094539891221082562756148657856784164683280558520061553971487594217697492479355659396653211623524624173767818477568000000000000000000000000000000000000000000000000000000000000000000000000000000000000000000000000000000000000000000000000000000000000000) :=
      (slogGo_step (10407586967439 / 545312768000) 5 44 (1226177511699448430047350421724017102573927859925872355249011437218422525897841515896193542969734446102683737728226358113316847115670846597811726005608735211528806063876595720136003428284989360950869411158504244864136458135896353057884616158519325527734237947803069941726145491959795970841891592934653758778776708641338900380986604690594254669082849417212116793574785934651038160862100227573776491561026626697562640947087077549770597249383491356075027713190879075118660871123865659371472705554965611468903950443970234179115681979115145612973703116942537515024327674009 / 4725266478294471626743920030677816948784163414872112149586407978999028455361377137726592607955086364377034262570864225226100834007580165598693151670430799916461828117139484893663206575471906960949470922318421484223807688894395797886362635089483080338248985432471493536935200532781823178590969749139296903133334163537271638131465323431239292690684359471219082793859553942979812142350336000000000000000000000000000000000000000000000000000000000000000000000000000000000000000000000000000000000000000000000000000000000) (579965471897431652478632416368017149928442041312304337984155143195091791829324557222252564477172043636962370432923606940071384046893779220559195136805925957299544925008770645859358690085218261328639337163932539221888925734379388677419705048339538999532490001422301890763458463138386503172112269349025780511289228770537535125424958351738094381058401692893796794350940113633165780604308124354330168340811954571924953973739845814066165780562664228216169529280801006652413485655049223780656402556426350797903115467629666971503772443745750081098629610662473357885526136469202241 / 2584695116207429742965514690636292267925661860276720875773511073235815893216188617626452408742461573437651034039191584313523607789428861376288533605259581706824476877766818308733796102736354460419399814779286791161601724355636228984795793729306502692872007501180037898102774478352383892634659679493798591302848027509752495944712707614378630493056229874447677813031975828637712411262976000000000000000000000000000000000000000000000000000000000000000000000000000000000000000000000000000000000000000000000000000000000000)
        (not_abs_lt _ _ (Or.inl (by norm_num)))).trans (by norm_num)
    have g45 : slogGo ((10407586967439 / 545312768000) : ℝ) 5 45 (-548761683268044209160922494917979994138316150203296687564729152951532903178287976287472532472066965022666131355843271858009442214861941777288756698097086114971405992251805530601962103552832227145555779517989751204327817472020193521076201865337011139616014425484465053059873626901824719527721982743092480912697747930652390075730267749426976529692093566442786263513399015830997092722559032057636803993951977822524714434395595378139774232819992275133206665579396516540258372461112852793723225766087893271891906403148380729800020379769837493986946717050483864925073295605682971457232893 / 113376918283920290642596353800380872167707480998442729061085344369030827357370588319686639459102386461649874571547697739649700752150411215718956547682043503215598603303492672976137428846761005609008251458538741465921127702550176618251162151666477634050344942852399117755690755323318552454576002363126286920144518334648867798924002950317391680170847258612529752400591977611231963208463156995162112000000000000000000000000000000000000000000000000000000000000000000000000000000000000000000000000000000000000000000000000000000000000) (6036041086884319269272860478013612396013297900595400260877557725198300178874200646772434993055511806178283373143748359916171150102794751045853666835656623666615543771806773956616884331441368160901757686034135706687913889313167067829933241079469941598543619652655323732073618510850079553140531487230271573640518691364183855585943484798128749594132376558096854375213600343566097907052738396767633216630301456502178663136244734337536324565820412926046729247792287863510410534318941279365592651191076531381897683469878100045462446277352165308485674863093340354594954299966478614228772830799 / 1409467248255155175302053344495540217879540287259527906731437464424873481468112237487974353031619119744920760789973783324312938396999813536192189826945121859070619976367021350488704927930773825040449353895980189154170971621945008428780824193285171703849488280185249732559325899270094539891221082562756148657856784164683280558520061553971487594217697492479355659396653211623524624173767818477568000000000000000000000000000000000000000000000000000000000000000000000000000000000000000000000000000000000000000000000000000000000000000) =
        slogGo (10407586967439 / 545312768000) 4 46 (634603855217109283036224692360950345116319820272225610659275187779040287458031351440883948486871571665465134819690673683370990293991079984568797446798240910736046453206007934993749778758344542076126105666661172624418445542853678397217858625827933706100327981107870874319980175783815621347493030173809803548975403894093215983827333250952016906245688027876462912887643724715972715789982310658010072619474349148212677029495737491981177398554961746524396753575790372460524867308359226727708864590227429650361824526056927952605415654957440079815250979488831446703610729999486845260344642679689627003 / 7025668310990270861554399590635569642730309849723660031110737525239706129952031899817817074552402858728183971529941943004059280400775305952494239214570355299422156266404719723674579462821624068535433561101795266365662251949899712566752335470691219481145983197914042993649281083791997134631594785796697347043886619669786864488331303463379924506151753579455731677718347289747151107645591496255728852664320000000000000000000000000000000000000000000000000000000000000000000000000000000000000000000000000000000000000000000000000000000000000000) (62820622550783577900693402436994648171185617830774987073619050478089244273566953162417539132512379143447101795675939649001273604354446496155963138057069767100744944148718426389024082547010503817552652883196820322203452906069992354048898515116101068283141026439741263244610879016433554574441764349779594680585732296189963051496952273385796590090277183010609253228174513847564013431313574501055446549018804078073894400966720475530531868814492909716077435426835242831164037917878389704929663326408720308582687427485247734155153549284066076849582644781754969643875581351958916300016880981873799869353761 / 768600486551361838913487945370520599867215204613008297192965996344429286229172987959240661164681413709826194007046470432013330135481451214904831214512885385067105686788794996550093836985170786914755149136828541020824551280412282090081802106161703995181440709451378084433185730345064433169768187432253089133635367920422007564687160749526573293080513414210576617482054172766513986724357042083324151988224000000000000000000000000000000000000000000000000000000000000000000000000000000000000000000000000000000000000000000000000000000000000000000) :=
      (slogGo_step (10407586967439 / 545312768000) 4 45 (-548761683268044209160922494917979994138316150203296687564729152951532903178287976287472532472066965022666131355843271858009442214861941777288756698097086114971405992251805530601962103552832227145555779517989751204327817472020193521076201865337011139616014425484465053059873626901824719527721982743092480912697747930652390075730267749426976529692093566442786263513399015830997092722559032057636803993951977822524714434395595378139774232819992275133206665579396516540258372461112852793723225766087893271891906403148380729800020379769837493986946717050483864925073295605682971457232893 / 113376918283920290642596353800380872167707480998442729061085344369030827357370588319686639459102386461649874571547697739649700752150411215718956547682043503215598603303492672976137428846761005609008251458538741465921127702550176618251162151666477634050344942852399117755690755323318552454576002363126286920144518334648867798924002950317391680170847258612529752400591977611231963208463156995162112000000000000000000000000000000000000000000000000000000000000000000000000000000000000000000000000000000000000000000000000000000000000) (6036041086884319269272860478013612396013297900595400260877557725198300178874200646772434993055511806178283373143748359916171150102794751045853666835656623666615543771806773956616884331441368160901757686034135706687913889313167067829933241079469941598543619652655323732073618510850079553140531487230271573640518691364183855585943484798128749594132376558096854375213600343566097907052738396767633216630301456502178663136244734337536324565820412926046729247792287863510410534318941279365592651191076531381897683469878100045462446277352165308485674863093340354594954299966478614228772830799 / 1409467248255155175302053344495540217879540287259527906731437464424873481468112237487974353031619119744920760789973783324312938396999813536192189826945121859070619976367021350488704927930773825040449353895980189154170971621945008428780824193285171703849488280185249732559325899270094539891221082562756148657856784164683280558520061553971487594217697492479355659396653211623524624173767818477568000000000000000000000000000000000000000000000000000000000000000000000000000000000000000000000000000000000000000000000000000000000000000)
        (not_abs_lt _ _ (Or.inl (by norm_num)))).trans (by norm_num)
    have g46 : slogGo ((10407586967439 / 545312768000) : ℝ) 4 46 (634603855217109283036224692360950345116319820272225610659275187779040287458031351440883948486871571665465134819690673683370990293991079984568797446798240910736046453206007934993749778758344542076126105666661172624418445542853678397217858625827933706100327981107870874319980175783815621347493030173809803548975403894093215983827333250952016906245688027876462912887643724715972715789982310658010072619474349148212677029495737491981177398554961746524396753575790372460524867308359226727708864590227429650361824526056927952605415654957440079815250979488831446703610729999486845260344642679689627003 / 7025668310990270861554399590635569642730309849723660031110737525239706129952031899817817074552402858728183971529941943004059280400775305952494239214570355299422156266404719723674579462821624068535433561101795266365662251949899712566752335470691219481145983197914042993649281083791997134631594785796697347043886619669786864488331303463379924506151753579455731677718347289747151107645591496255728852664320000000000000000000000000000000000000000000000000000000000000000000000000000000000000000000000000000000000000000000000000000000000000000) (62820622550783577900693402436994648171185617830774987073619050478089244273566953162417539132512379143447101795675939649001273604354446496155963138057069767100744944148718426389024082547010503817552652883196820322203452906069992354048898515116101068283141026439741263244610879016433554574441764349779594680585732296189963051496952273385796590090277183010609253228174513847564013431313574501055446549018804078073894400966720475530531868814492909716077435426835242831164037917878389704929663326408720308582687427485247734155153549284066076849582644781754969643875581351958916300016880981873799869353761 / 768600486551361838913487945370520599867215204613008297192965996344429286229172987959240661164681413709826194007046470432013330135481451214904831214512885385067105686788794996550093836985170786914755149136828541020824551280412282090081802106161703995181440709451378084433185730345064433169768187432253089133635367920422007564687160749526573293080513414210576617482054172766513986724357042083324151988224000000000000000000000000000000000000000000000000000000000000000000000000000000000000000000000000000000000000000000000000000000000000000000) =
        slogGo (10407586967439 / 545312768000) 3 47 (-2584510555987414316664622572849393668662973130045844962772266674285959671503091523005850000422324469537769346382775385293108560645453514309862444432089646224310503889678315592010693202489717924875179753193806896956380041674905987539055409206411411002205365595384900042237148371112493178952944004393481636522023018177930028250205229186099585874524498442696511361889094595624678519702526068820226108830420591895167111449601367769575627244178651923275980705049259118595528108396492151919403509589754803230198314810298462934862714668887565676366497608398770887607841262234986759109558772869640229789975195229611 / 1532474653486395769833589769339019744453614536660189234662384957763973605292284089005581009856733265577671584451290334327536720572573972574000604036060602551628545933664681248312472023242885164427391592513806842588462633105565283832872040330394884707423695963894399444375158355605061557493609445158865646229903372020117888417669138717065477307232258308986765189856750353982926796249793384728189254601537805615104000000000000000000000000000000000000000000000000000000000000000000000000000000000000000000000000000000000000000000000000000000000000000000) (653811092545939714296679866164555942625022471620567053204701318603995500924335982571172106926049622818675614546572484134725947236992010914203219566787648827894492084470571834720443302550180256581802347159339815096928801309059643439553692510055452418254363981573552492803774732002231817298657668405431273469759837436754779688998624100318199601952974866368322369968809209688636862465032709563714852453896572995907568820709951863887996177209773638284517574676472549498283694076085957629921552768093386599046824127598021683425480590706750690322241760956950362512270563521857237417009516642647333510095103838679188079 / 419127658807469898547484224024631373914611555679205923349262917596458615453894604414884196117862525548258470652887522295911344869077205174656716366158823300997689267811338830953282120906124256765223310418056782445467381701079565727739332852939268661209050095498814744636798221672568681190157304207024744512013424383383728673216494682385290372004610016764300070155216151277257959811374391638749979961951132844032000000000000000000000000000000000000000000000000000000000000000000000000000000000000000000000000000000000000000000000000000000000000000000000) :=
      (slogGo_step (10407586967439 / 545312768000) 3 46 (634603855217109283036224692360950345116319820272225610659275187779040287458031351440883948486871571665465134819690673683370990293991079984568797446798240910736046453206007934993749778758344542076126105666661172624418445542853678397217858625827933706100327981107870874319980175783815621347493030173809803548975403894093215983827333250952016906245688027876462912887643724715972715789982310658010072619474349148212677029495737491981177398554961746524396753575790372460524867308359226727708864590227429650361824526056927952605415654957440079815250979488831446703610729999486845260344642679689627003 / 7025668310990270861554399590635569642730309849723660031110737525239706129952031899817817074552402858728183971529941943004059280400775305952494239214570355299422156266404719723674579462821624068535433561101795266365662251949899712566752335470691219481145983197914042993649281083791997134631594785796697347043886619669786864488331303463379924506151753579455731677718347289747151107645591496255728852664320000000000000000000000000000000000000000000000000000000000000000000000000000000000000000000000000000000000000000000000000000000000000000) (62820622550783577900693402436994648171185617830774987073619050478089244273566953162417539132512379143447101795675939649001273604354446496155963138057069767100744944148718426389024082547010503817552652883196820322203452906069992354048898515116101068283141026439741263244610879016433554574441764349779594680585732296189963051496952273385796590090277183010609253228174513847564013431313574501055446549018804078073894400966720475530531868814492909716077435426835242831164037917878389704929663326408720308582687427485247734155153549284066076849582644781754969643875581351958916300016880981873799869353761 / 768600486551361838913487945370520599867215204613008297192965996344429286229172987959240661164681413709826194007046470432013330135481451214904831214512885385067105686788794996550093836985170786914755149136828541020824551280412282090081802106161703995181440709451378084433185730345064433169768187432253089133635367920422007564687160749526573293080513414210576617482054172766513986724357042083324151988224000000000000000000000000000000000000000000000000000000000000000000000000000000000000000000000000000000000000000000000000000000000000000000)
        (not_abs_lt _ _ (Or.inl (by norm_num)))).trans (by norm_num)
    have g47 : slogGo ((10407586967439 / 545312768000) : ℝ) 3 47 (-2584510555987414316664622572849393668662973130045844962772266674285959671503091523005850000422324469537769346382775385293108560645453514309862444432089646224310503889678315592010693202489717924875179753193806896956380041674905987539055409206411411002205365595384900042237148371112493178952944004393481636522023018177930028250205229186099585874524498442696511361889094595624678519702526068820226108830420591895167111449601367769575627244178651923275980705049259118595528108396492151919403509589754803230198314810298462934862714668887565676366497608398770887607841262234986759109558772869640229789975195229611 / 1532474653486395769833589769339019744453614536660189234662384957763973605292284089005581009856733265577671584451290334327536720572573972574000604036060602551628545933664681248312472023242885164427391592513806842588462633105565283832872040330394884707423695963894399444375158355605061557493609445158865646229903372020117888417669138717065477307232258308986765189856750353982926796249793384728189254601537805615104000000000000000000000000000000000000000000000000000000000000000000000000000000000000000000000000000000000000000000000000000000000000000000) (653811092545939714296679866164555942625022471620567053204701318603995500924335982571172106926049622818675614546572484134725947236992010914203219566787648827894492084470571834720443302550180256581802347159339815096928801309059643439553692510055452418254363981573552492803774732002231817298657668405431273469759837436754779688998624100318199601952974866368322369968809209688636862465032709563714852453896572995907568820709951863887996177209773638284517574676472549498283694076085957629921552768093386599046824127598021683425480590706750690322241760956950362512270563521857237417009516642647333510095103838679188079 / 419127658807469898547484224024631373914611555679205923349262917596458615453894604414884196117862525548258470652887522295911344869077205174656716366158823300997689267811338830953282120906124256765223310418056782445467381701079565727739332852939268661209050095498814744636798221672568681190157304207024744512013424383383728673216494682385290372004610016764300070155216151277257959811374391638749979961951132844032000000000000000000000000000000000000000000000000000000000000000000000000000000000000000000000000000000000000000000000000000000000000000000000) =
        slogGo (10407586967439 / 545312768000) 2 48 (618680752085446646267425482460109076529180529342325017424224967598837823387228037566347341762255078896289840351539761844951636469559978999826606231516713883883820846418823984583134909917751668040955852299876051132492578568513262320413716246570897240562624663802103210938745017678365936265227341409951767169033964929501571155924993490451171277888490606268299620190062110485262065856307948300264970694124437791458909850981493449375773939457734778272791269604050178674539093504149747034215748597073044133605219158274784992175883475646583640453119993395603702777828201411419319407447275245753570470540165999341991508622900467 / 19638432886788922198398974807626446100484349978893323773502347139796135128450559812022806076430446761511221451733853994519169991351212159923482324183540206339645994336193045310841782026052744065020847041840354057407488818099059666592813890005818824151883016179249550986682171383333124169089935757987342794214828245967369579354826006336505190289728216138067446724600506386862126446102150976274118536283600969160530163924992000000000000000000000000000000000000000000000000000000000000000000000000000000000000000000000000000000000000000000000000000000000000000000000) (6804595805948176088909496481041779167052823702532725897124273962987522088413909650242653466306229042183449914573021995187333361115592403910822675944073733387587319704866268547156344839525968511721011210304965762329936213058653427861843245934342714047427095077112798863905716733531202783979214464085084910208069681780032300500913741750874190710230058591350874485677624447681334380840157503906164314001972761705432353140279877418089735829921092864625207975292208162974571212564633860700287497221147065472325178130111871279417963230574825782836279934610150174008733703630713781161988316751053162423090345052880938930322329959681 / 228555663769660989453607801639203834689019823072213902103582392354280754590610843113745521384486468050191544211172861975845130553159088359495977451420969461889947096234094479693018352036229286608586649542193781216511626969128246575231469980509649529539561334227123009117105592917746017209914213912550708474338849703661674288952654178508803535241583597002266874838935109091308273514773327388842807632996106931914802200576000000000000000000000000000000000000000000000000000000000000000000000000000000000000000000000000000000000000000000000000000000000000000000000000) :=
      (slogGo_step (10407586967439 / 545312768000) 2 47 (-2584510555987414316664622572849393668662973130045844962772266674285959671503091523005850000422324469537769346382775385293108560645453514309862444432089646224310503889678315592010693202489717924875179753193806896956380041674905987539055409206411411002205365595384900042237148371112493178952944004393481636522023018177930028250205229186099585874524498442696511361889094595624678519702526068820226108830420591895167111449601367769575627244178651923275980705049259118595528108396492151919403509589754803230198314810298462934862714668887565676366497608398770887607841262234986759109558772869640229789975195229611 / 1532474653486395769833589769339019744453614536660189234662384957763973605292284089005581009856733265577671584451290334327536720572573972574000604036060602551628545933664681248312472023242885164427391592513806842588462633105565283832872040330394884707423695963894399444375158355605061557493609445158865646229903372020117888417669138717065477307232258308986765189856750353982926796249793384728189254601537805615104000000000000000000000000000000000000000000000000000000000000000000000000000000000000000000000000000000000000000000000000000000000000000000) (653811092545939714296679866164555942625022471620567053204701318603995500924335982571172106926049622818675614546572484134725947236992010914203219566787648827894492084470571834720443302550180256581802347159339815096928801309059643439553692510055452418254363981573552492803774732002231817298657668405431273469759837436754779688998624100318199601952974866368322369968809209688636862465032709563714852453896572995907568820709951863887996177209773638284517574676472549498283694076085957629921552768093386599046824127598021683425480590706750690322241760956950362512270563521857237417009516642647333510095103838679188079 / 419127658807469898547484224024631373914611555679205923349262917596458615453894604414884196117862525548258470652887522295911344869077205174656716366158823300997689267811338830953282120906124256765223310418056782445467381701079565727739332852939268661209050095498814744636798221672568681190157304207024744512013424383383728673216494682385290372004610016764300070155216151277257959811374391638749979961951132844032000000000000000000000000000000000000000000000000000000000000000000000000000000000000000000000000000000000000000000000000000000000000000000000)
        (not_abs_lt _ _ (Or.inl (by norm_num)))).trans (by norm_num)
    have g48 : slogGo ((10407586967439 / 545312768000) : ℝ) 2 48 (618680752085446646267425482460109076529180529342325017424224967598837823387228037566347341762255078896289840351539761844951636469559978999826606231516713883883820846418823984583134909917751668040955852299876051132492578568513262320413716246570897240562624663802103210938745017678365936265227341409951767169033964929501571155924993490451171277888490606268299620190062110485262065856307948300264970694124437791458909850981493449375773939457734778272791269604050178674539093504149747034215748597073044133605219158274784992175883475646583640453119993395603702777828201411419319407447275245753570470540165999341991508622900467 / 19638432886788922198398974807626446100484349978893323773502347139796135128450559812022806076430446761511221451733853994519169991351212159923482324183540206339645994336193045310841782026052744065020847041840354057407488818099059666592813890005818824151883016179249550986682171383333124169089935757987342794214828245967369579354826006336505190289728216138067446724600506386862126446102150976274118536283600969160530163924992000000000000000000000000000000000000000000000000000000000000000000000000000000000000000000000000000000000000000000000000000000000000000000000) (6804595805948176088909496481041779167052823702532725897124273962987522088413909650242653466306229042183449914573021995187333361115592403910822675944073733387587319704866268547156344839525968511721011210304965762329936213058653427861843245934342714047427095077112798863905716733531202783979214464085084910208069681780032300500913741750874190710230058591350874485677624447681334380840157503906164314001972761705432353140279877418089735829921092864625207975292208162974571212564633860700287497221147065472325178130111871279417963230574825782836279934610150174008733703630713781161988316751053162423090345052880938930322329959681 / 228555663769660989453607801639203834689019823072213902103582392354280754590610843113745521384486468050191544211172861975845130553159088359495977451420969461889947096234094479693018352036229286608586649542193781216511626969128246575231469980509649529539561334227123009117105592917746017209914213912550708474338849703661674288952654178508803535241583597002266874838935109091308273514773327388842807632996106931914802200576000000000000000000000000000000000000000000000000000000000000000000000000000000000000000000000000000000000000000000000000000000000000000000000000) =
        slogGo (10407586967439 / 545312768000) 1 49 (-100879570439177643104578728238289701805266840483189405755009526793143349480421670438950951634671181308347399970338253533699903596503393904781285270294522546771238857868395494712303014324374926696185183202468751295020844125420265002502235999071117374427913409993353963171887413180808617834647586667965285451828672578696407254314921110283890945393751845080705793023368402971748346497789811235611334265683627762315374576671093759183185521943789562677404442405850928836481564317169265582929690729306120899515448008304439860570054633617272340932599725285295179304599628891103664504482084929892961723286240048834001196936133958066544673051537 / 171345411146833564731929441931344717328926832442736959418380319572785814441558565155899456970648103727941120526495461136945686672740249009330125030393594399333816084985308033932872841066871519681473441249449204562318538101226347599790151540286729585676297279438325708980876576212732400107746126546084096129250278039248818287951613178779922956212134648159229272705350973312343440107039468154015070492494702040006581440598898110365696000000000000000000000000000000000000000000000000000000000000000000000000000000000000000000000000000000000000000000000000000000000000000000000000) (70819422628676316099166758121654052396688424821364472543305843145363931540752749974194674939882607882053801103525981599413584068518183428956222977720457363231134917091979296359742691355409811725191883189076381684730143654633418619917543297814590153396586506074049520183730062893947767628396386877476694440303223553903044121833771610157503120721096601088780735942794306264421306203733143541069876449582233460861320494031603177977451210846501088765605369630886109994778438687846906776067079914079285126680150784835256494978771120955880258593964787860877338068219934964470491425622683071154641547812401553339633247292160334587861113929826959 / 124634321652311148580565677898269180410483818926379226844185537090774874934934705669170309113777508150993513903989049890530057281264553617673330548899954390506677562420976436694919627823674628563193718429699623627562362606718774686925993135780623035663115956673165588778138087022257276965713957031197136778502775101839727342023203671029401768170773499984702651793129258510963279371642132050980083747240635204266448328168589754368000000000000000000000000000000000000000000000000000000000000000000000000000000000000000000000000000000000000000000000000000000000000000000000000000) :=
      (slogGo_step (10407586967439 / 545312768000) 1 48 (618680752085446646267425482460109076529180529342325017424224967598837823387228037566347341762255078896289840351539761844951636469559978999826606231516713883883820846418823984583134909917751668040955852299876051132492578568513262320413716246570897240562624663802103210938745017678365936265227341409951767169033964929501571155924993490451171277888490606268299620190062110485262065856307948300264970694124437791458909850981493449375773939457734778272791269604050178674539093504149747034215748597073044133605219158274784992175883475646583640453119993395603702777828201411419319407447275245753570470540165999341991508622900467 / 19638432886788922198398974807626446100484349978893323773502347139796135128450559812022806076430446761511221451733853994519169991351212159923482324183540206339645994336193045310841782026052744065020847041840354057407488818099059666592813890005818824151883016179249550986682171383333124169089935757987342794214828245967369579354826006336505190289728216138067446724600506386862126446102150976274118536283600969160530163924992000000000000000000000000000000000000000000000000000000000000000000000000000000000000000000000000000000000000000000000000000000000000000000000) (6804595805948176088909496481041779167052823702532725897124273962987522088413909650242653466306229042183449914573021995187333361115592403910822675944073733387587319704866268547156344839525968511721011210304965762329936213058653427861843245934342714047427095077112798863905716733531202783979214464085084910208069681780032300500913741750874190710230058591350874485677624447681334380840157503906164314001972761705432353140279877418089735829921092864625207975292208162974571212564633860700287497221147065472325178130111871279417963230574825782836279934610150174008733703630713781161988316751053162423090345052880938930322329959681 / 228555663769660989453607801639203834689019823072213902103582392354280754590610843113745521384486468050191544211172861975845130553159088359495977451420969461889947096234094479693018352036229286608586649542193781216511626969128246575231469980509649529539561334227123009117105592917746017209914213912550708474338849703661674288952654178508803535241583597002266874838935109091308273514773327388842807632996106931914802200576000000000000000000000000000000000000000000000000000000000000000000000000000000000000000000000000000000000000000000000000000000000000000000000000)
        (not_abs_lt _ _ (Or.inl (by norm_num)))).trans (by norm_num)
    have g49 : slogGo ((10407586967439 / 545312768000) : ℝ) 1 49 (-100879570439177643104578728238289701805266840483189405755009526793143349480421670438950951634671181308347399970338253533699903596503393904781285270294522546771238857868395494712303014324374926696185183202468751295020844125420265002502235999071117374427913409993353963171887413180808617834647586667965285451828672578696407254314921110283890945393751845080705793023368402971748346497789811235611334265683627762315374576671093759183185521943789562677404442405850928836481564317169265582929690729306120899515448008304439860570054633617272340932599725285295179304599628891103664504482084929892961723286240048834001196936133958066544673051537 / 171345411146833564731929441931344717328926832442736959418380319572785814441558565155899456970648103727941120526495461136945686672740249009330125030393594399333816084985308033932872841066871519681473441249449204562318538101226347599790151540286729585676297279438325708980876576212732400107746126546084096129250278039248818287951613178779922956212134648159229272705350973312343440107039468154015070492494702040006581440598898110365696000000000000000000000000000000000000000000000000000000000000000000000000000000000000000000000000000000000000000000000000000000000000000000000000) (70819422628676316099166758121654052396688424821364472543305843145363931540752749974194674939882607882053801103525981599413584068518183428956222977720457363231134917091979296359742691355409811725191883189076381684730143654633418619917543297814590153396586506074049520183730062893947767628396386877476694440303223553903044121833771610157503120721096601088780735942794306264421306203733143541069876449582233460861320494031603177977451210846501088765605369630886109994778438687846906776067079914079285126680150784835256494978771120955880258593964787860877338068219934964470491425622683071154641547812401553339633247292160334587861113929826959 / 124634321652311148580565677898269180410483818926379226844185537090774874934934705669170309113777508150993513903989049890530057281264553617673330548899954390506677562420976436694919627823674628563193718429699623627562362606718774686925993135780623035663115956673165588778138087022257276965713957031197136778502775101839727342023203671029401768170773499984702651793129258510963279371642132050980083747240635204266448328168589754368000000000000000000000000000000000000000000000000000000000000000000000000000000000000000000000000000000000000000000000000000000000000000000000000000) =
        slogGo (10407586967439 / 545312768000) 0 50 (3149807992293231273273064149948424133752110373953934230999969671847818553898782983358704171625973866021551461109672108870351865435795672035088778348441795701549555353563084346835904745172589042472707130598621511510667276806561706581130712782664818444624483564665392122655987255382946423615598848361809775340153517781560038004759381631846196830000446891522522483990957015885362004192625363724041292346926504439426989049350901795742222178397266782463745377080495458736957690455782524365078625166115121254617848812535869186835015701613996848995741477796285625196470543733262549898898091612352709330061247168567727856301390777966543212691094400665919229 / 286150323837019713459031592253347864666994888498264596811293216562816255454298318410270146006730599855868742336932375334324355862091379455129146687461921217320688103750426037657004246409736830837229204234056480409283210935935436650275904001442986323599944140664235062802893061075342189709743024181127906439372386827204181332828990399793885865866269691790272222052094224734622397792448970284461038237180815658986909219745638913085054482644992000000000000000000000000000000000000000000000000000000000000000000000000000000000000000000000000000000000000000000000000000000000000000000000000000) (737059299991766234429249134154102323021915693132738406095118239661147205516233315947228542463795200601843078418088842524386538316411244263799639201781145310062825554203577493630867489125993762960055736400176983509519477571597049855693021015137129570677449580245445599343300187381798587158485805164782284742353457846981859124186557919814860033337856497436153805196869222518284342693170264887417925387501961323378184257411434218113776437016514850549838540803728636310943518827951782837824520506212495771394087456458822933785836861432080483454769104520537334735383903437759246066798431926768938882805945406997766590993874935092241032626240240068837388001 / 67964686928024126029727540820501589178732307517954644408102719936537114315623064247720553526249639905960835017030755037495042523244928273537857601399593483760949264047275441956883393786057827633167029517112115168904233045689510422095946728021531388342016477838411998538956218120331993310316119004915173010359951186465703609243955914076804487585298793977706160706251479340400944220507471734141466581079603145316782347362586049610854170624000000000000000000000000000000000000000000000000000000000000000000000000000000000000000000000000000000000000000000000000000000000000000000000000000000) :=
      (slogGo_step (10407586967439 / 545312768000) 0 49 (-100879570439177643104578728238289701805266840483189405755009526793143349480421670438950951634671181308347399970338253533699903596503393904781285270294522546771238857868395494712303014324374926696185183202468751295020844125420265002502235999071117374427913409993353963171887413180808617834647586667965285451828672578696407254314921110283890945393751845080705793023368402971748346497789811235611334265683627762315374576671093759183185521943789562677404442405850928836481564317169265582929690729306120899515448008304439860570054633617272340932599725285295179304599628891103664504482084929892961723286240048834001196936133958066544673051537 / 171345411146833564731929441931344717328926832442736959418380319572785814441558565155899456970648103727941120526495461136945686672740249009330125030393594399333816084985308033932872841066871519681473441249449204562318538101226347599790151540286729585676297279438325708980876576212732400107746126546084096129250278039248818287951613178779922956212134648159229272705350973312343440107039468154015070492494702040006581440598898110365696000000000000000000000000000000000000000000000000000000000000000000000000000000000000000000000000000000000000000000000000000000000000000000000000) (70819422628676316099166758121654052396688424821364472543305843145363931540752749974194674939882607882053801103525981599413584068518183428956222977720457363231134917091979296359742691355409811725191883189076381684730143654633418619917543297814590153396586506074049520183730062893947767628396386877476694440303223553903044121833771610157503120721096601088780735942794306264421306203733143541069876449582233460861320494031603177977451210846501088765605369630886109994778438687846906776067079914079285126680150784835256494978771120955880258593964787860877338068219934964470491425622683071154641547812401553339633247292160334587861113929826959 / 124634321652311148580565677898269180410483818926379226844185537090774874934934705669170309113777508150993513903989049890530057281264553617673330548899954390506677562420976436694919627823674628563193718429699623627562362606718774686925993135780623035663115956673165588778138087022257276965713957031197136778502775101839727342023203671029401768170773499984702651793129258510963279371642132050980083747240635204266448328168589754368000000000000000000000000000000000000000000000000000000000000000000000000000000000000000000000000000000000000000000000000000000000000000000000000000)
        (not_abs_lt _ _ (Or.inl (by norm_num)))).trans (by norm_num)
    have hW : slogGo ((10407586967439 / 545312768000) : ℝ) 49 1 0 (10407586967439 / 545312768000) = (3149807992293231273273064149948424133752110373953934230999969671847818553898782983358704171625973866021551461109672108870351865435795672035088778348441795701549555353563084346835904745172589042472707130598621511510667276806561706581130712782664818444624483564665392122655987255382946423615598848361809775340153517781560038004759381631846196830000446891522522483990957015885362004192625363724041292346926504439426989049350901795742222178397266782463745377080495458736957690455782524365078625166115121254617848812535869186835015701613996848995741477796285625196470543733262549898898091612352709330061247168567727856301390777966543212691094400665919229 / 286150323837019713459031592253347864666994888498264596811293216562816255454298318410270146006730599855868742336932375334324355862091379455129146687461921217320688103750426037657004246409736830837229204234056480409283210935935436650275904001442986323599944140664235062802893061075342189709743024181127906439372386827204181332828990399793885865866269691790272222052094224734622397792448970284461038237180815658986909219745638913085054482644992000000000000000000000000000000000000000000000000000000000000000000000000000000000000000000000000000000000000000000000000000000000000000000000000000) := by
      rw [g1, g2, g3, g4, g5, g6, g7, g8, g9, g10, g11, g12, g13, g14, g15, g16, g17, g18, g19, g20, g21, g22, g23, g24, g25, g26, g27, g28, g29, g30, g31, g32, g33, g34, g35, g36, g37, g38, g39, g40, g41, g42, g43, g44, g45, g46, g47, g48, g49]
      rfl
    have hlog : spdLog 1 [(1 : ℝ)] [((10952899735439 / 545312768000) : ℝ)]
        = .ok [((3149807992293231273273064149948424133752110373953934230999969671847818553898782983358704171625973866021551461109672108870351865435795672035088778348441795701549555353563084346835904745172589042472707130598621511510667276806561706581130712782664818444624483564665392122655987255382946423615598848361809775340153517781560038004759381631846196830000446891522522483990957015885362004192625363724041292346926504439426989049350901795742222178397266782463745377080495458736957690455782524365078625166115121254617848812535869186835015701613996848995741477796285625196470543733262549898898091612352709330061247168567727856301390777966543212691094400665919229 / 286150323837019713459031592253347864666994888498264596811293216562816255454298318410270146006730599855868742336932375334324355862091379455129146687461921217320688103750426037657004246409736830837229204234056480409283210935935436650275904001442986323599944140664235062802893061075342189709743024181127906439372386827204181332828990399793885865866269691790272222052094224734622397792448970284461038237180815658986909219745638913085054482644992000000000000000000000000000000000000000000000000000000000000000000000000000000000000000000000000000000000000000000000000000000000000000000000000000) : ℝ)] := by
      simp only [spdLog, hcpP, hcpE]
      rw [if_pos hcholP, hL, if_neg (by rw [Matrix.det_one]; norm_num)]
      rw [inv_one, Matrix.transpose_one, Matrix.one_mul, Matrix.mul_one,
        Matrix.one_mul, Matrix.mul_one, hVE, matrixLogarithm_m1, matrixToVec_one]
      refine congrArg (fun z : ℝ => Except.ok [z]) ?_
      show slogGo (((10952899735439 / 545312768000) : ℝ) - 1) 49 1 0 (((10952899735439 / 545312768000) : ℝ) - 1) = _
      rw [hA, hW]
    refine ⟨hcpP, hctV, [((10952899735439 / 545312768000) : ℝ)], [((3149807992293231273273064149948424133752110373953934230999969671847818553898782983358704171625973866021551461109672108870351865435795672035088778348441795701549555353563084346835904745172589042472707130598621511510667276806561706581130712782664818444624483564665392122655987255382946423615598848361809775340153517781560038004759381631846196830000446891522522483990957015885362004192625363724041292346926504439426989049350901795742222178397266782463745377080495458736957690455782524365078625166115121254617848812535869186835015701613996848995741477796285625196470543733262549898898091612352709330061247168567727856301390777966543212691094400665919229 / 286150323837019713459031592253347864666994888498264596811293216562816255454298318410270146006730599855868742336932375334324355862091379455129146687461921217320688103750426037657004246409736830837229204234056480409283210935935436650275904001442986323599944140664235062802893061075342189709743024181127906439372386827204181332828990399793885865866269691790272222052094224734622397792448970284461038237180815658986909219745638913085054482644992000000000000000000000000000000000000000000000000000000000000000000000000000000000000000000000000000000000000000000000000000000000000000000000000000) : ℝ)], hexp, hlog, ?_⟩
    rw [show ([((3149807992293231273273064149948424133752110373953934230999969671847818553898782983358704171625973866021551461109672108870351865435795672035088778348441795701549555353563084346835904745172589042472707130598621511510667276806561706581130712782664818444624483564665392122655987255382946423615598848361809775340153517781560038004759381631846196830000446891522522483990957015885362004192625363724041292346926504439426989049350901795742222178397266782463745377080495458736957690455782524365078625166115121254617848812535869186835015701613996848995741477796285625196470543733262549898898091612352709330061247168567727856301390777966543212691094400665919229 / 286150323837019713459031592253347864666994888498264596811293216562816255454298318410270146006730599855868742336932375334324355862091379455129146687461921217320688103750426037657004246409736830837229204234056480409283210935935436650275904001442986323599944140664235062802893061075342189709743024181127906439372386827204181332828990399793885865866269691790272222052094224734622397792448970284461038237180815658986909219745638913085054482644992000000000000000000000000000000000000000000000000000000000000000000000000000000000000000000000000000000000000000000000000000000000000000000000000000) : ℝ)] : List ℝ).getD 0 0 = ((3149807992293231273273064149948424133752110373953934230999969671847818553898782983358704171625973866021551461109672108870351865435795672035088778348441795701549555353563084346835904745172589042472707130598621511510667276806561706581130712782664818444624483564665392122655987255382946423615598848361809775340153517781560038004759381631846196830000446891522522483990957015885362004192625363724041292346926504439426989049350901795742222178397266782463745377080495458736957690455782524365078625166115121254617848812535869186835015701613996848995741477796285625196470543733262549898898091612352709330061247168567727856301390777966543212691094400665919229 / 286150323837019713459031592253347864666994888498264596811293216562816255454298318410270146006730599855868742336932375334324355862091379455129146687461921217320688103750426037657004246409736830837229204234056480409283210935935436650275904001442986323599944140664235062802893061075342189709743024181127906439372386827204181332828990399793885865866269691790272222052094224734622397792448970284461038237180815658986909219745638913085054482644992000000000000000000000000000000000000000000000000000000000000000000000000000000000000000000000000000000000000000000000000000000000000000000000000000) : ℝ) from rfl]
    rw [abs_of_pos (by norm_num)]
    norm_num
